import Mathlib

/-! # Obstacle manager: typed-ID lookup, template expansion and wire encoding

A shallow embedding of `include/ObstacleMgr.h` (`GroupInstance`,
`GroupDefinition`, `GroupDefinitionMgr`).  Machine integers are natural
numbers or integers with explicit reduction modulo a power of two; a C++
pointer that may be `NULL` is an `Option`; an access that would read outside
an array is an explicit `none` one level further out, so that "never faults"
is a statement about values.
-/

namespace ObstacleMgr

/-! ## Obstacle kinds -/

/-- Modelled from the spec: the enumeration `ObstacleType` lives in `Obstacle.h`,
which is not part of the sources at hand.  The ten kinds are listed in the order
in which `getObstacleFromID` switches over them, `ObstacleTypeCount` closing the
enumeration. -/
inductive ObstacleType where
  | wallType
  | boxType
  | pyrType
  | baseType
  | teleType
  | meshType
  | arcType
  | coneType
  | sphereType
  | tetraType
  deriving DecidableEq, Repr

/-- Numeric value of an enumerator (C++ enumerators count up from zero). -/
def ObstacleType.toNat : ObstacleType → Nat
  | .wallType => 0
  | .boxType => 1
  | .pyrType => 2
  | .baseType => 3
  | .teleType => 4
  | .meshType => 5
  | .arcType => 6
  | .coneType => 7
  | .sphereType => 8
  | .tetraType => 9

/-- The enumerator that closes `ObstacleType`: the number of obstacle kinds. -/
def ObstacleTypeCount : Nat := 10

def wallType : Nat := ObstacleType.wallType.toNat
def boxType : Nat := ObstacleType.boxType.toNat
def pyrType : Nat := ObstacleType.pyrType.toNat
def baseType : Nat := ObstacleType.baseType.toNat
def teleType : Nat := ObstacleType.teleType.toNat
def meshType : Nat := ObstacleType.meshType.toNat
def arcType : Nat := ObstacleType.arcType.toNat
def coneType : Nat := ObstacleType.coneType.toNat
def sphereType : Nat := ObstacleType.sphereType.toNat
def tetraType : Nat := ObstacleType.tetraType.toNat

/-! ## Geometry -/

/-- A point or extent; coordinates are idealised as integers. -/
structure Vec3 where
  x : Int
  y : Int
  z : Int
  deriving DecidableEq, Repr

/-- A colour (red, green, blue, alpha). -/
structure Vec4 where
  r : Int
  g : Int
  b : Int
  a : Int
  deriving DecidableEq, Repr

/-- Modelled from the spec: `MeshTransform` (`MeshTransform.h`) is not part of the
sources at hand; the spec calls it an affine transform with a composition
operator.  It is a linear part (three rows) and a translation. -/
structure MeshTransform where
  row0 : Vec3
  row1 : Vec3
  row2 : Vec3
  shift : Vec3
  deriving DecidableEq, Repr

namespace MeshTransform

/-- The identity transform. -/
def identity : MeshTransform :=
  ⟨⟨1, 0, 0⟩, ⟨0, 1, 0⟩, ⟨0, 0, 1⟩, ⟨0, 0, 0⟩⟩

/-- A pure translation. -/
def translate (dx dy dz : Int) : MeshTransform :=
  ⟨⟨1, 0, 0⟩, ⟨0, 1, 0⟩, ⟨0, 0, 1⟩, ⟨dx, dy, dz⟩⟩

def dot (r p : Vec3) : Int := r.x * p.x + r.y * p.y + r.z * p.z

/-- Linear part of the transform applied to a vector. -/
def linear (t : MeshTransform) (p : Vec3) : Vec3 :=
  ⟨dot t.row0 p, dot t.row1 p, dot t.row2 p⟩

/-- The transform applied to a point. -/
def apply (t : MeshTransform) (p : Vec3) : Vec3 :=
  ⟨dot t.row0 p + t.shift.x, dot t.row1 p + t.shift.y, dot t.row2 p + t.shift.z⟩

def col0 (t : MeshTransform) : Vec3 := ⟨t.row0.x, t.row1.x, t.row2.x⟩
def col1 (t : MeshTransform) : Vec3 := ⟨t.row0.y, t.row1.y, t.row2.y⟩
def col2 (t : MeshTransform) : Vec3 := ⟨t.row0.z, t.row1.z, t.row2.z⟩

/-- Composition: `comp outer inner` applies `inner` first and `outer` on top. -/
def comp (outer inner : MeshTransform) : MeshTransform :=
  ⟨⟨dot outer.row0 inner.col0, dot outer.row0 inner.col1, dot outer.row0 inner.col2⟩,
   ⟨dot outer.row1 inner.col0, dot outer.row1 inner.col1, dot outer.row1 inner.col2⟩,
   ⟨dot outer.row2 inner.col0, dot outer.row2 inner.col1, dot outer.row2 inner.col2⟩,
   outer.apply inner.shift⟩

end MeshTransform

/-! ## Obstacles -/

/-- Modelled from the spec: the class `Obstacle` (`Obstacle.h`) is not part of the
sources at hand.  An obstacle is a type tag with the attributes the spec
names: a local transform, position, size, rotation, and the attributes a group
instance may override. -/
structure Obstacle where
  type : ObstacleType
  name : String
  transform : MeshTransform
  pos : Vec3
  size : Vec3
  rotation : Int
  team : Int
  tint : Vec4
  material : Nat
  phydrv : Int
  driveThrough : Nat
  shootThrough : Nat
  ricochet : Bool
  deriving DecidableEq, Repr

/-- The list type `ObstacleList` (`ObstacleList.h`): an ordered sequence. -/
abbrev ObstacleList := List Obstacle

/-- Where the obstacle ends up: its transform applied to its position. -/
def Obstacle.effectivePos (o : Obstacle) : Vec3 := o.transform.apply o.pos

/-! ## Group instances and group definitions (`ObstacleMgr.h`) -/

/-- The class `GroupInstance`: the private data members, in declaration order.
`material` is a material identity (the pointer value, `0` for `NULL`); `matMap`
is the material swap table. -/
structure GroupInstance where
  groupdef : String
  name : String
  transform : MeshTransform
  modifyTeam : Bool
  team : Int
  modifyColor : Bool
  tint : Vec4
  modifyPhysicsDriver : Bool
  phydrv : Int
  modifyMaterial : Bool
  material : Nat
  driveThrough : Nat
  shootThrough : Nat
  ricochet : Bool
  matMap : List (Nat × Nat)
  deriving DecidableEq, Repr

/-- The class `GroupDefinition`: `lists` is the array
`ObstacleList lists[ObstacleTypeCount]`, whose length is fixed by its type. -/
structure GroupDefinition where
  name : String
  lists : List ObstacleList
  size_lists : lists.length = ObstacleTypeCount
  groups : List GroupInstance
  active : Bool

/-- `GroupDefinition::getName`. -/
def GroupDefinition.getName (d : GroupDefinition) : String := d.name

/-- `GroupDefinition::getList`: `return lists[type]`.  The outer `none` is a read
outside the array. -/
def GroupDefinition.getList (d : GroupDefinition) (type : Nat) : Option ObstacleList :=
  d.lists[type]?

/-- `GroupDefinition::getGroups`. -/
def GroupDefinition.getGroups (d : GroupDefinition) : List GroupInstance := d.groups

/-- The class `GroupDefinitionMgr`: the world definition and the registered
templates. -/
structure GroupDefinitionMgr where
  world : GroupDefinition
  list : List GroupDefinition

namespace GroupDefinitionMgr

def getWorld (m : GroupDefinitionMgr) : GroupDefinition := m.world

def getWalls (m : GroupDefinitionMgr) : Option ObstacleList := m.world.getList wallType
def getBoxes (m : GroupDefinitionMgr) : Option ObstacleList := m.world.getList boxType
def getPyrs (m : GroupDefinitionMgr) : Option ObstacleList := m.world.getList pyrType
def getBases (m : GroupDefinitionMgr) : Option ObstacleList := m.world.getList baseType
def getTeles (m : GroupDefinitionMgr) : Option ObstacleList := m.world.getList teleType
def getMeshes (m : GroupDefinitionMgr) : Option ObstacleList := m.world.getList meshType
def getArcs (m : GroupDefinitionMgr) : Option ObstacleList := m.world.getList arcType
def getCones (m : GroupDefinitionMgr) : Option ObstacleList := m.world.getList coneType
def getSpheres (m : GroupDefinitionMgr) : Option ObstacleList := m.world.getList sphereType
def getTetras (m : GroupDefinitionMgr) : Option ObstacleList := m.world.getList tetraType

/-- The `type` local of `getObstacleFromID`: `(id >> 16)` stored in an
`unsigned short`. -/
def idType (id : Nat) : Nat := (id >>> 16) % 65536

/-- The `listID` local of `getObstacleFromID`: `(id & 0xffff)` stored in an
`unsigned short`. -/
def idListID (id : Nat) : Nat := (id &&& 0xffff) % 65536

/-- One `case` of the switch: `if (list.size() > listID) return list[listID];`
followed by `break` and the final `return NULL`.  The result is `none` when an
access leaves its array, `some none` for `NULL`, `some (some o)` for an
obstacle. -/
def lookupIn (list : Option ObstacleList) (listID : Nat) : Option (Option Obstacle) :=
  match list with
  | none => none
  | some l =>
    if l.length > listID then
      match l[listID]? with
      | none => none
      | some o => some (some o)
    else some none

/-- `GroupDefinitionMgr::getObstacleFromID`. -/
def getObstacleFromID (m : GroupDefinitionMgr) (id : Nat) : Option (Option Obstacle) :=
  let type := idType id
  let listID := idListID id
  if type = wallType then lookupIn m.getWalls listID
  else if type = boxType then lookupIn m.getBoxes listID
  else if type = pyrType then lookupIn m.getPyrs listID
  else if type = baseType then lookupIn m.getBases listID
  else if type = teleType then lookupIn m.getTeles listID
  else if type = meshType then lookupIn m.getMeshes listID
  else if type = arcType then lookupIn m.getArcs listID
  else if type = coneType then lookupIn m.getCones listID
  else if type = sphereType then lookupIn m.getSpheres listID
  else if type = tetraType then lookupIn m.getTetras listID
  else if type = ObstacleTypeCount then some none
  else some none

/-- Modelled from the spec: the encoder of a typed obstacle ID is not part of the
sources at hand; the spec gives it as the 32-bit value `(type << 16) | index`. -/
def typedID (type index : Nat) : Nat := ((type <<< 16) ||| index) % 2 ^ 32

end GroupDefinitionMgr

/-! ## Template expansion

`ObstacleMgr.cxx`, `GroupInstance`'s member functions and `ObstacleModifier` are not
part of the sources at hand: only their declarations in `ObstacleMgr.h` are.  The
definitions of this section follow the spec's description of them. -/

/-- Modelled from the spec: `GroupInstance::init` together with the constructor
`GroupInstance(groupdef)` (bodies missing): a reference to a template by name with
default, non-overriding attributes. -/
def GroupInstance.new (groupdef : String) : GroupInstance :=
  { groupdef := groupdef, name := "", transform := MeshTransform.identity,
    modifyTeam := false, team := 0, modifyColor := false, tint := ⟨1, 1, 1, 1⟩,
    modifyPhysicsDriver := false, phydrv := -1, modifyMaterial := false, material := 0,
    driveThrough := 0, shootThrough := 0, ricochet := false, matMap := [] }

namespace GroupInstance

/-- Modelled from the spec: the mutators of `GroupInstance` (bodies missing) each set
the value and flip its modify flag to true. -/
def setTeam (g : GroupInstance) (team : Int) : GroupInstance :=
  { g with modifyTeam := true, team := team }

def setPhysicsDriver (g : GroupInstance) (phydrv : Int) : GroupInstance :=
  { g with modifyPhysicsDriver := true, phydrv := phydrv }

def setTransform (g : GroupInstance) (t : MeshTransform) : GroupInstance :=
  { g with transform := t }

/-- The through flags and the ricochet flag carry no separate modify flag in the
class: the value itself, once set, is what marks the override. -/
def setDriveThrough (g : GroupInstance) : GroupInstance :=
  { g with driveThrough := 0xFF }

def setShootThrough (g : GroupInstance) : GroupInstance :=
  { g with shootThrough := 0xFF }

def setCanRicochet (g : GroupInstance) : GroupInstance :=
  { g with ricochet := true }

def addMaterialSwap (g : GroupInstance) (src dst : Nat) : GroupInstance :=
  { g with matMap := g.matMap ++ [(src, dst)] }

def getGroupDef (g : GroupInstance) : String := g.groupdef

def getTransform (g : GroupInstance) : MeshTransform := g.transform

end GroupInstance

/-- Modelled from the spec: the class `ObstacleModifier` (only forward-declared in
`ObstacleMgr.h`): the composed override chain handed down the recursion.  It
carries the overridable fields of `GroupInstance`; `matMaps` holds the material
swap tables of the instances on the path, innermost first. -/
structure ObstacleModifier where
  modifyTeam : Bool
  team : Int
  modifyColor : Bool
  tint : Vec4
  modifyPhysicsDriver : Bool
  phydrv : Int
  modifyMaterial : Bool
  material : Nat
  driveThrough : Nat
  shootThrough : Nat
  ricochet : Bool
  matMaps : List (List (Nat × Nat))
  deriving DecidableEq, Repr

namespace ObstacleModifier

/-- The empty, fully inheriting modifier `makeWorld` starts from. -/
def noMods : ObstacleModifier :=
  { modifyTeam := false, team := 0, modifyColor := false, tint := ⟨1, 1, 1, 1⟩,
    modifyPhysicsDriver := false, phydrv := -1, modifyMaterial := false, material := 0,
    driveThrough := 0, shootThrough := 0, ricochet := false, matMaps := [] }

/-- Modelled from the spec: composing the enclosing modifier with a group instance's
own overrides ("compose two override sets with explicit precedence").  A field the
enclosing modifier already overrides keeps the enclosing value, so that an override
wins over any deeper-nested override of the same field; otherwise the instance's
field is taken where the instance's modify flag is set; a field neither of them
sets is left as it is.  An instance without swap entries adds no table. -/
def compose (obsMod : ObstacleModifier) (g : GroupInstance) : ObstacleModifier :=
  { modifyTeam := obsMod.modifyTeam || g.modifyTeam
    team := if obsMod.modifyTeam then obsMod.team
      else if g.modifyTeam then g.team else obsMod.team
    modifyColor := obsMod.modifyColor || g.modifyColor
    tint := if obsMod.modifyColor then obsMod.tint
      else if g.modifyColor then g.tint else obsMod.tint
    modifyPhysicsDriver := obsMod.modifyPhysicsDriver || g.modifyPhysicsDriver
    phydrv := if obsMod.modifyPhysicsDriver then obsMod.phydrv
      else if g.modifyPhysicsDriver then g.phydrv else obsMod.phydrv
    modifyMaterial := obsMod.modifyMaterial || g.modifyMaterial
    material := if obsMod.modifyMaterial then obsMod.material
      else if g.modifyMaterial then g.material else obsMod.material
    driveThrough := if obsMod.driveThrough ≠ 0 then obsMod.driveThrough else g.driveThrough
    shootThrough := if obsMod.shootThrough ≠ 0 then obsMod.shootThrough else g.shootThrough
    ricochet := obsMod.ricochet || g.ricochet
    matMaps := if g.matMap.isEmpty then obsMod.matMaps else g.matMap :: obsMod.matMaps }

/-- One material swap table applied to a material identity: the first entry whose
source is the material gives the destination; without one the material stays. -/
def swapMaterial (map : List (Nat × Nat)) (mat : Nat) : Nat :=
  match map.find? (fun p => p.1 == mat) with
  | some p => p.2
  | none => mat

/-- The swap tables on the path, applied innermost first. -/
def swapAll (maps : List (List (Nat × Nat))) (mat : Nat) : Nat :=
  maps.foldl (fun acc map => swapMaterial map acc) mat

/-- Modelled from the spec: `ObstacleModifier::execute` (missing): each of team, tint,
material, physics driver, through flags and ricochet is applied only if the
modifier marks it as overriding; the material swap applies to every obstacle
whose material is not overridden. -/
def execute (m : ObstacleModifier) (o : Obstacle) : Obstacle :=
  { o with
    team := if m.modifyTeam then m.team else o.team
    tint := if m.modifyColor then m.tint else o.tint
    phydrv := if m.modifyPhysicsDriver then m.phydrv else o.phydrv
    material := if m.modifyMaterial then m.material else swapAll m.matMaps o.material
    driveThrough := if m.driveThrough ≠ 0 then m.driveThrough else o.driveThrough
    shootThrough := if m.shootThrough ≠ 0 then m.shootThrough else o.shootThrough
    ricochet := if m.ricochet then true else o.ricochet }

end ObstacleModifier

/-- Modelled from the spec: `Obstacle::copyWithTransform` (missing): the clone, with
the given transform composed on top of the obstacle's own local transform. -/
def Obstacle.copyWithTransform (o : Obstacle) (xform : MeshTransform) : Obstacle :=
  { o with transform := MeshTransform.comp xform o.transform }

/-- The generated names: the spec fixes that teleporter names are derived from a
depth-tracked path string but not their format, so the two string functions
behind `makeTeleName` and `appendGroupName` are parameters. -/
structure Naming where
  teleName : String → Obstacle → Nat → String
  groupName : String → GroupInstance → String

/-- `GroupDefinition::makeTeleName (obs, pos)`: the obstacle renamed from the path
string `depthName`. -/
def makeTeleName (nm : Naming) (depthName : String) (obs : Obstacle) (pos : Nat) :
    Obstacle :=
  { obs with name := nm.teleName depthName obs pos }

/-- `GroupDefinition::appendGroupName (group)`: the path string extended for the
expansion of `group`. -/
def appendGroupName (nm : Naming) (depthName : String) (group : GroupInstance) : String :=
  nm.groupName depthName group

/-- `GroupDefinition::clearDepthName`: the empty path. -/
def clearDepthName : String := ""

/-- Modelled from the spec: what `makeGroups` does with one concrete obstacle at
position `pos` of its list: clone it under `xform`, give a teleporter its generated
name, apply the modifier's override chain. -/
def makeObstacle (nm : Naming) (depthName : String) (xform : MeshTransform)
    (obsMod : ObstacleModifier) (pos : Nat) (o : Obstacle) : Obstacle :=
  let c := o.copyWithTransform xform
  let c := if c.type = ObstacleType.teleType then makeTeleName nm depthName c pos else c
  obsMod.execute c

/-- One type bucket, obstacle by obstacle, counting positions from `pos`. -/
def makeObstacles (nm : Naming) (depthName : String) (xform : MeshTransform)
    (obsMod : ObstacleModifier) : Nat → ObstacleList → ObstacleList
  | _, [] => []
  | pos, o :: os =>
    makeObstacle nm depthName xform obsMod pos o ::
      makeObstacles nm depthName xform obsMod (pos + 1) os

/-- Every concrete obstacle owned directly by a definition, bucket after bucket. -/
def makeOwnObstacles (nm : Naming) (depthName : String) (xform : MeshTransform)
    (obsMod : ObstacleModifier) (d : GroupDefinition) : ObstacleList :=
  (d.lists.map (makeObstacles nm depthName xform obsMod 0)).flatten

/-- Position in the registry of the first definition with the given name. -/
def findIndex (name : String) : List GroupDefinition → Option Nat
  | [] => none
  | d :: ds =>
    if d.name = name then some 0
    else match findIndex name ds with
      | none => none
      | some i => some (i + 1)

/-- Modelled from the spec: `GroupDefinitionMgr::findGroupDef` (body missing): exact
name match over the registered templates, `none` for `NULL`.  The result is the
position in the registry together with the definition there. -/
def findGroupDef (list : List GroupDefinition) (name : String) :
    Option (Nat × GroupDefinition) :=
  match findIndex name list with
  | none => none
  | some i =>
    match list[i]? with
    | none => none
    | some d => some (i, d)

/-- The `active` flag of the definition at position `i` set to `b`. -/
def setActive (b : Bool) : Nat → List GroupDefinition → List GroupDefinition
  | _, [] => []
  | 0, d :: ds => { d with active := b } :: ds
  | i + 1, d :: ds => d :: setActive b i ds

/-- What an expansion step gives back: the registry (with its `active` flags) and
the obstacles added to the world, in insertion order; `none` is a recursion that
did not come back within the step budget. -/
abbrev Expansion := Option (List GroupDefinition × ObstacleList)

/-- Modelled from the spec: the loop of `makeGroups` over the nested group
instances.  Each instance's template is resolved by name; an unresolved instance
is skipped; a resolved template that is already `active` is a reference cycle and
the instance is skipped; otherwise `active` is set, the template is expanded (by
`recurse`) under the composed transform and modifier, and `active` is cleared on
return. -/
def makeInstances (nm : Naming)
    (recurse : List GroupDefinition → String → MeshTransform → ObstacleModifier →
      GroupDefinition → Expansion)
    (depthName : String) (xform : MeshTransform) (obsMod : ObstacleModifier) :
    List GroupDefinition → List GroupInstance → Expansion
  | list, [] => some (list, [])
  | list, group :: rest =>
    match findGroupDef list group.getGroupDef with
    | none => makeInstances nm recurse depthName xform obsMod list rest
    | some (i, groupDef) =>
      if groupDef.active then
        makeInstances nm recurse depthName xform obsMod list rest
      else
        match recurse (setActive true i list) (appendGroupName nm depthName group)
            (MeshTransform.comp xform group.getTransform) (obsMod.compose group)
            groupDef with
        | none => none
        | some (list1, made) =>
          match makeInstances nm recurse depthName xform obsMod
              (setActive false i list1) rest with
          | none => none
          | some (list2, more) => some (list2, made ++ more)

/-- Modelled from the spec: `GroupDefinition::makeGroups (xform, obsMod)` (body
missing), the core recursion: every concrete obstacle owned directly by the
definition is cloned, transformed, modified and inserted into the world; then
every nested group instance is expanded.  The first argument bounds the depth of
the recursion. -/
def makeGroups (nm : Naming) : Nat → List GroupDefinition → String → MeshTransform →
    ObstacleModifier → GroupDefinition → Expansion
  | 0 => fun _ _ _ _ _ => none
  | fuel + 1 => fun list depthName xform obsMod d =>
    match makeInstances nm (makeGroups nm fuel) depthName xform obsMod list d.getGroups with
    | none => none
    | some (list1, made) =>
      some (list1, makeOwnObstacles nm depthName xform obsMod d ++ made)

/-- A definition with the given name and nothing in it. -/
def GroupDefinition.empty (name : String) : GroupDefinition :=
  { name := name, lists := List.replicate ObstacleTypeCount [],
    size_lists := List.length_replicate _ _, groups := [], active := false }

/-- Modelled from the spec: `GroupDefinition::addObstacle` (body missing): appends to
the type bucket matching the obstacle's declared type. -/
def GroupDefinition.addObstacle (d : GroupDefinition) (obstacle : Obstacle) :
    GroupDefinition :=
  { d with
    lists := d.lists.set obstacle.type.toNat
      ((d.lists.getD obstacle.type.toNat []) ++ [obstacle])
    size_lists := by rw [List.length_set]; exact d.size_lists }

/-- Modelled from the spec: `GroupDefinition::addGroupInstance` (body missing). -/
def GroupDefinition.addGroupInstance (d : GroupDefinition) (group : GroupInstance) :
    GroupDefinition :=
  { d with groups := d.groups ++ [group] }

namespace GroupDefinitionMgr

/-- Modelled from the spec: `GroupDefinitionMgr::addWorldObstacle` (body missing). -/
def addWorldObstacle (m : GroupDefinitionMgr) (obstacle : Obstacle) : GroupDefinitionMgr :=
  { m with world := m.world.addObstacle obstacle }

/-- Modelled from the spec: `GroupDefinitionMgr::addGroupDef` (body missing). -/
def addGroupDef (m : GroupDefinitionMgr) (groupdef : GroupDefinition) :
    GroupDefinitionMgr :=
  { m with list := m.list ++ [groupdef] }

/-- The step budget `makeWorld` runs with: one level for the top group and one for
each registered template. -/
def makeWorldFuel (m : GroupDefinitionMgr) : Nat := m.list.length + 1

/-- Modelled from the spec: the body of `GroupDefinitionMgr::makeWorld` (missing),
with the step budget as an argument.  The world definition holds the top-level
obstacles and the top-level group instances; the depth name is cleared, `world` is
reset to empty and the top group is expanded with the identity transform and the
empty modifier, every produced obstacle going into the matching bucket of `world`.
Afterwards `world` holds concrete obstacles only. -/
def makeWorldWith (nm : Naming) (fuel : Nat) (m : GroupDefinitionMgr) :
    Option GroupDefinitionMgr :=
  match makeGroups nm fuel m.list clearDepthName MeshTransform.identity
      ObstacleModifier.noMods m.world with
  | none => none
  | some (list1, made) =>
    some { world := made.foldl GroupDefinition.addObstacle (GroupDefinition.empty m.world.name)
           list := list1 }

/-- Modelled from the spec: `GroupDefinitionMgr::makeWorld` (body missing), the
expansion above run with the step budget `makeWorldFuel`. -/
def makeWorld (nm : Naming) (m : GroupDefinitionMgr) : Option GroupDefinitionMgr :=
  makeWorldWith nm (makeWorldFuel m) m

end GroupDefinitionMgr

/-! ## Wire encoding

The bodies of `pack` and `unpack` are not part of the sources at hand, and the
encodings of strings, counts, obstacles, transforms and material identifiers belong
to collaborators.  The stream is a list of numbers (bytes); the leaf encodings are
parameters; what is modelled is the order of the fields and the counts and flags
that frame them. -/

/-- One leaf encoding: `pack` writes a value, `unpack` reads one from the front of
the stream and hands back the rest (`none`: the stream does not decode). -/
structure Codec (α : Type) where
  pack : α → List Nat
  unpack : List Nat → Option (α × List Nat)

/-- The value is read back from whatever stream its encoding is the front of. -/
def Codec.RoundTrips {α : Type} (c : Codec α) (a : α) : Prop :=
  ∀ rest : List Nat, c.unpack (c.pack a ++ rest) = some (a, rest)

/-- The leaf encodings the obstacle manager relies on: counts, strings (length
prefixed), modify flags, obstacle payloads (self-describing: they begin with their
type tag), transforms, integers (team, physics driver), colours, material
identifiers (resolved through the material registry) and through masks. -/
structure Wire where
  count : Codec Nat
  string : Codec String
  flag : Codec Bool
  obstacle : Codec Obstacle
  transform : Codec MeshTransform
  int : Codec Int
  color : Codec Vec4
  material : Codec Nat
  mask : Codec Nat

/-- The payloads of a sequence, one after the other. -/
def packAll {α : Type} (c : Codec α) (l : List α) : List Nat := (l.map c.pack).flatten

/-- Read `n` payloads. -/
def unpackN {α : Type} (c : Codec α) : Nat → List Nat → Option (List α × List Nat)
  | 0, s => some ([], s)
  | n + 1, s =>
    match c.unpack s with
    | none => none
    | some (a, s1) =>
      match unpackN c n s1 with
      | none => none
      | some (as, s2) => some (a :: as, s2)

/-- A sequence on the wire: `count` followed by `count` payloads. -/
def packCounted {α : Type} (w : Wire) (c : Codec α) (l : List α) : List Nat :=
  w.count.pack l.length ++ packAll c l

def unpackCounted {α : Type} (w : Wire) (c : Codec α) (s : List Nat) :
    Option (List α × List Nat) :=
  match w.count.unpack s with
  | none => none
  | some (n, s1) => unpackN c n s1

/-- A modify flag, immediately followed by its value only when the flag is set. -/
def packOptional {α : Type} (w : Wire) (c : Codec α) (set : Bool) (v : α) : List Nat :=
  w.flag.pack set ++ (if set then c.pack v else [])

/-- Reading a flagged value into a field that holds `init`. -/
def unpackOptional {α : Type} (w : Wire) (c : Codec α) (init : α) (s : List Nat) :
    Option ((Bool × α) × List Nat) :=
  match w.flag.unpack s with
  | none => none
  | some (false, s1) => some ((false, init), s1)
  | some (true, s1) =>
    match c.unpack s1 with
    | none => none
    | some (v, s2) => some ((true, v), s2)

/-- One entry of the material swap table: source and destination identifier. -/
def swapCodec (w : Wire) : Codec (Nat × Nat) :=
  { pack := fun p => w.material.pack p.1 ++ w.material.pack p.2
    unpack := fun s =>
      match w.material.unpack s with
      | none => none
      | some (src, s1) =>
        match w.material.unpack s1 with
        | none => none
        | some (dst, s2) => some ((src, dst), s2) }

/-- Modelled from the spec: `GroupInstance::pack` (body missing): the referenced
template name, the transform, one modify flag per overridable attribute (name,
team, tint, physics driver, material, drive-through, shoot-through, ricochet),
each followed by its value only when set, and the material swap table as a count
and ordered source/destination pairs.  Name, through masks and ricochet have no
modify flag of their own in the class: the flag written is whether the value is
set. -/
def GroupInstance.pack (w : Wire) (g : GroupInstance) : List Nat :=
  w.string.pack g.groupdef ++ (w.transform.pack g.transform ++
  (packOptional w w.string (g.name != "") g.name ++
  (packOptional w w.int g.modifyTeam g.team ++
  (packOptional w w.color g.modifyColor g.tint ++
  (packOptional w w.int g.modifyPhysicsDriver g.phydrv ++
  (packOptional w w.material g.modifyMaterial g.material ++
  (packOptional w w.mask (g.driveThrough != 0) g.driveThrough ++
  (packOptional w w.mask (g.shootThrough != 0) g.shootThrough ++
  (w.flag.pack g.ricochet ++
  packCounted w (swapCodec w) g.matMap)))))))))

/-- Modelled from the spec: `GroupInstance::unpack` (body missing) into a fresh
instance: the fields are read in the order `pack` writes them; a field whose flag
is clear keeps the value `init` gave it. -/
def GroupInstance.unpack (w : Wire) (s : List Nat) : Option (GroupInstance × List Nat) := do
  let fresh := GroupInstance.new ""
  let (groupdef, s) ← w.string.unpack s
  let (transform, s) ← w.transform.unpack s
  let (name, s) ← unpackOptional w w.string fresh.name s
  let (team, s) ← unpackOptional w w.int fresh.team s
  let (tint, s) ← unpackOptional w w.color fresh.tint s
  let (phydrv, s) ← unpackOptional w w.int fresh.phydrv s
  let (material, s) ← unpackOptional w w.material fresh.material s
  let (driveThrough, s) ← unpackOptional w w.mask fresh.driveThrough s
  let (shootThrough, s) ← unpackOptional w w.mask fresh.shootThrough s
  let (ricochet, s) ← w.flag.unpack s
  let (matMap, s) ← unpackCounted w (swapCodec w) s
  pure ({ groupdef := groupdef, name := name.2, transform := transform,
          modifyTeam := team.1, team := team.2, modifyColor := tint.1, tint := tint.2,
          modifyPhysicsDriver := phydrv.1, phydrv := phydrv.2,
          modifyMaterial := material.1, material := material.2,
          driveThrough := driveThrough.2, shootThrough := shootThrough.2,
          ricochet := ricochet, matMap := matMap }, s)

/-- The payload of a group instance as a leaf encoding. -/
def instanceCodec (w : Wire) : Codec GroupInstance :=
  { pack := GroupInstance.pack w, unpack := GroupInstance.unpack w }

/-- One type bucket on the wire: its count and its obstacle payloads. -/
def bucketCodec (w : Wire) : Codec ObstacleList :=
  { pack := packCounted w w.obstacle, unpack := unpackCounted w w.obstacle }

/-- Modelled from the spec: `GroupDefinition::pack` (body missing): the name, then
for each obstacle type in enumeration order the count and the obstacle payloads,
then the count of group instances and their payloads. -/
def GroupDefinition.pack (w : Wire) (d : GroupDefinition) : List Nat :=
  w.string.pack d.name ++ (packAll (bucketCodec w) d.lists ++
    packCounted w (instanceCodec w) d.groups)

/-- Modelled from the spec: `GroupDefinition::unpack` (body missing) into a fresh
definition: the name, one bucket for each of the `ObstacleTypeCount` types, and
the group instances. -/
def GroupDefinition.unpack (w : Wire) (s : List Nat) :
    Option (GroupDefinition × List Nat) :=
  match w.string.unpack s with
  | none => none
  | some (name, s1) =>
    match unpackN (bucketCodec w) ObstacleTypeCount s1 with
    | none => none
    | some (lists, s2) =>
      match unpackCounted w (instanceCodec w) s2 with
      | none => none
      | some (groups, s3) =>
        if h : lists.length = ObstacleTypeCount then
          some ({ name := name, lists := lists, size_lists := h, groups := groups,
                  active := false }, s3)
        else none

/-- The leaf encodings carry the values of a group instance. -/
def Wire.CarriesInstance (w : Wire) (g : GroupInstance) : Prop :=
  w.string.RoundTrips g.groupdef ∧ w.transform.RoundTrips g.transform ∧
  w.string.RoundTrips g.name ∧ w.int.RoundTrips g.team ∧ w.color.RoundTrips g.tint ∧
  w.int.RoundTrips g.phydrv ∧ w.material.RoundTrips g.material ∧
  w.mask.RoundTrips g.driveThrough ∧ w.mask.RoundTrips g.shootThrough ∧
  w.count.RoundTrips g.matMap.length ∧
  ∀ p ∈ g.matMap, w.material.RoundTrips p.1 ∧ w.material.RoundTrips p.2

/-- The leaf encodings carry the values of a group definition: its name, the
count and the obstacles of each bucket, the count and the values of its group
instances, and both values of a flag. -/
def Wire.Carries (w : Wire) (d : GroupDefinition) : Prop :=
  (∀ b : Bool, w.flag.RoundTrips b) ∧ w.string.RoundTrips d.name ∧
  (∀ l ∈ d.lists, w.count.RoundTrips l.length ∧ ∀ o ∈ l, w.obstacle.RoundTrips o) ∧
  w.count.RoundTrips d.groups.length ∧ ∀ g ∈ d.groups, w.CarriesInstance g

/-- A field no mutator has set holds the value `init` gave it. -/
def GroupInstance.InitialWhereUnset (g : GroupInstance) : Prop :=
  (g.modifyTeam = false → g.team = (GroupInstance.new "").team) ∧
  (g.modifyColor = false → g.tint = (GroupInstance.new "").tint) ∧
  (g.modifyPhysicsDriver = false → g.phydrv = (GroupInstance.new "").phydrv) ∧
  (g.modifyMaterial = false → g.material = (GroupInstance.new "").material)

/-- All obstacles a definition owns directly, bucket after bucket. -/
def GroupDefinition.obstacles (d : GroupDefinition) : ObstacleList := d.lists.flatten

/-! ## The cone reader (`bzfs/CustomCone.cpp`) -/

/-- The class `CustomCone`: the data members `CustomCone.cpp` reads, those it
inherits from `WorldFileObstacle` first.  Reals are idealised as integers; a
material description is a number. -/
structure CustomCone where
  transform : MeshTransform
  pos : Vec3
  size : Vec3
  rotation : Int
  name : String
  driveThrough : Nat
  shootThrough : Nat
  ricochet : Bool
  divisions : Int
  angle : Int
  texsize : Int × Int
  phydrv : Int
  useNormals : Bool
  smoothBounce : Bool
  materials : List Nat

/-- What `writeToGroupDef` calls and `CustomCone.cpp` does not define: the
material manager behind `MATERIALMGR.addMaterial` (its state `σ` and the material
identity it hands back), the constructor of `ConeObstacle` with its fourteen
arguments, and `isValid`. -/
structure ConeWorld (σ : Type) where
  addMaterial : σ → Nat → σ × Nat
  ConeObstacle : MeshTransform → Vec3 → Vec3 → Int → Int → Int × Int → Bool → Int →
    List Nat → Int → Bool → Nat → Nat → Bool → Obstacle
  isValid : Obstacle → Bool

namespace CustomCone

/-- The loop `for (i = 0; i < MaterialCount; i++) mats[i] = MATERIALMGR.addMaterial
(&materials[i])`: the manager afterwards and the material identities. -/
def addMaterials {σ : Type} (env : ConeWorld σ) : σ → List Nat → σ × List Nat
  | mgr, [] => (mgr, [])
  | mgr, m :: ms =>
    let r := env.addMaterial mgr m
    let rest := addMaterials env r.1 ms
    (rest.1, r.2 :: rest.2)

/-- `Obstacle::setName`. -/
def setName (o : Obstacle) (name : String) : Obstacle := { o with name := name }

/-- The cone `writeToGroupDef` builds: `new ConeObstacle (...)` followed by
`cone->setName (name.c_str ())`. -/
def newCone {σ : Type} (env : ConeWorld σ) (c : CustomCone) (mats : List Nat) : Obstacle :=
  setName
    (env.ConeObstacle c.transform c.pos c.size c.rotation c.angle c.texsize c.useNormals
      c.divisions mats c.phydrv c.smoothBounce c.driveThrough c.shootThrough c.ricochet)
    c.name

/-- `CustomCone::writeToGroupDef`: the materials are registered, the cone is built
and named, and it is added to the group definition if it is valid, deleted
otherwise.  The result is the material manager and the group definition
afterwards. -/
def writeToGroupDef {σ : Type} (env : ConeWorld σ) (c : CustomCone) (mgr : σ)
    (groupdef : GroupDefinition) : σ × GroupDefinition :=
  let mats := addMaterials env mgr c.materials
  let cone := newCone env c mats.2
  if env.isValid cone then (mats.1, groupdef.addObstacle cone)
  else (mats.1, groupdef)

end CustomCone

/-- Number of obstacles a definition owns, all buckets together. -/
def GroupDefinition.obstacleCount (d : GroupDefinition) : Nat := d.obstacles.length

/-! ## Sample data -/

/-- A unit box at the origin. -/
def sampleBox : Obstacle :=
  { type := .boxType, name := "box", transform := MeshTransform.identity,
    pos := ⟨0, 0, 0⟩, size := ⟨1, 1, 1⟩, rotation := 0, team := 0,
    tint := ⟨1, 1, 1, 1⟩, material := 0, phydrv := -1,
    driveThrough := 0, shootThrough := 0, ricochet := false }

/-- A pyramid next to the box. -/
def samplePyr : Obstacle :=
  { sampleBox with type := .pyrType, name := "pyr", pos := ⟨3, 0, 0⟩ }

/-- A world with one box and two pyramids. -/
def sampleWorld : GroupDefinition :=
  { name := "", lists := [[], [sampleBox], [samplePyr, sampleBox], [], [], [], [], [], [], []],
    size_lists := rfl, groups := [], active := false }

/-- A manager around `sampleWorld` with no templates. -/
def sampleMgr : GroupDefinitionMgr := { world := sampleWorld, list := [] }

/-- The template `"T"`: one box at the origin of size (1,1,1). -/
def templateT : GroupDefinition :=
  (GroupDefinition.empty "T").addObstacle sampleBox

/-- A group instance of `"T"`, moved by (5,0,0), with team 2. -/
def instanceOfT : GroupInstance :=
  ((GroupInstance.new "T").setTransform (MeshTransform.translate 5 0 0)).setTeam 2

/-- The manager of the worked example: `"T"` registered, one top-level instance. -/
def exampleMgr : GroupDefinitionMgr :=
  ({ world := (GroupDefinition.empty "").addGroupInstance instanceOfT,
     list := [] } : GroupDefinitionMgr).addGroupDef templateT

/-- A count as four bytes, most significant first. -/
def countCodec : Codec Nat :=
  { pack := fun n => [n / 16777216 % 256, n / 65536 % 256, n / 256 % 256, n % 256]
    unpack := fun s =>
      match s with
      | b0 :: b1 :: b2 :: b3 :: rest => some (((b0 * 256 + b1) * 256 + b2) * 256 + b3, rest)
      | _ => none }

/-- A string as its length and its characters. -/
def stringCodec : Codec String :=
  { pack := fun str => countCodec.pack str.length ++ str.toList.map Char.toNat
    unpack := fun s =>
      match countCodec.unpack s with
      | none => none
      | some (n, s1) =>
        if s1.length < n then none
        else some (String.mk ((s1.take n).map Char.ofNat), s1.drop n) }

/-- A flag as one byte. -/
def flagCodec : Codec Bool :=
  { pack := fun b => [if b then 1 else 0]
    unpack := fun s =>
      match s with
      | 0 :: rest => some (false, rest)
      | 1 :: rest => some (true, rest)
      | _ => none }

/-- An integer as a sign byte and its magnitude. -/
def intCodec : Codec Int :=
  { pack := fun i => (if i < 0 then 1 else 0) :: countCodec.pack i.natAbs
    unpack := fun s =>
      match s with
      | [] => none
      | sign :: s1 =>
        match countCodec.unpack s1 with
        | none => none
        | some (n, s2) => some (if sign = 1 then -(n : Int) else (n : Int), s2) }

/-- Three integers. -/
def vec3Codec : Codec Vec3 :=
  { pack := fun v => intCodec.pack v.x ++ (intCodec.pack v.y ++ intCodec.pack v.z)
    unpack := fun s => do
      let (x, s) ← intCodec.unpack s
      let (y, s) ← intCodec.unpack s
      let (z, s) ← intCodec.unpack s
      pure (⟨x, y, z⟩, s) }

/-- Four integers. -/
def colorCodec : Codec Vec4 :=
  { pack := fun v => intCodec.pack v.r ++ (intCodec.pack v.g ++
      (intCodec.pack v.b ++ intCodec.pack v.a))
    unpack := fun s => do
      let (r, s) ← intCodec.unpack s
      let (g, s) ← intCodec.unpack s
      let (b, s) ← intCodec.unpack s
      let (a, s) ← intCodec.unpack s
      pure (⟨r, g, b, a⟩, s) }

/-- The three rows and the translation. -/
def transformCodec : Codec MeshTransform :=
  { pack := fun t => vec3Codec.pack t.row0 ++ (vec3Codec.pack t.row1 ++
      (vec3Codec.pack t.row2 ++ vec3Codec.pack t.shift))
    unpack := fun s => do
      let (row0, s) ← vec3Codec.unpack s
      let (row1, s) ← vec3Codec.unpack s
      let (row2, s) ← vec3Codec.unpack s
      let (shift, s) ← vec3Codec.unpack s
      pure (⟨row0, row1, row2, shift⟩, s) }

/-- A through mask as one byte. -/
def maskCodec : Codec Nat :=
  { pack := fun m => [m % 256]
    unpack := fun s =>
      match s with
      | b :: rest => some (b, rest)
      | [] => none }

/-- The obstacle kind behind a type tag. -/
def ObstacleType.fromTag : Nat → Option ObstacleType
  | 0 => some .wallType
  | 1 => some .boxType
  | 2 => some .pyrType
  | 3 => some .baseType
  | 4 => some .teleType
  | 5 => some .meshType
  | 6 => some .arcType
  | 7 => some .coneType
  | 8 => some .sphereType
  | 9 => some .tetraType
  | _ => none

/-- An obstacle payload: the type tag first, then the attributes. -/
def obstacleCodec : Codec Obstacle :=
  { pack := fun o => o.type.toNat :: (stringCodec.pack o.name ++
      (transformCodec.pack o.transform ++ (vec3Codec.pack o.pos ++ (vec3Codec.pack o.size ++
      (intCodec.pack o.rotation ++ (intCodec.pack o.team ++ (colorCodec.pack o.tint ++
      (countCodec.pack o.material ++ (intCodec.pack o.phydrv ++
      (maskCodec.pack o.driveThrough ++ (maskCodec.pack o.shootThrough ++
      flagCodec.pack o.ricochet)))))))))))
    unpack := fun s =>
      match s with
      | [] => none
      | tag :: s => do
        let type ← ObstacleType.fromTag tag
        let (name, s) ← stringCodec.unpack s
        let (transform, s) ← transformCodec.unpack s
        let (pos, s) ← vec3Codec.unpack s
        let (size, s) ← vec3Codec.unpack s
        let (rotation, s) ← intCodec.unpack s
        let (team, s) ← intCodec.unpack s
        let (tint, s) ← colorCodec.unpack s
        let (material, s) ← countCodec.unpack s
        let (phydrv, s) ← intCodec.unpack s
        let (driveThrough, s) ← maskCodec.unpack s
        let (shootThrough, s) ← maskCodec.unpack s
        let (ricochet, s) ← flagCodec.unpack s
        pure ({ type := type, name := name, transform := transform, pos := pos,
                size := size, rotation := rotation, team := team, tint := tint,
                material := material, phydrv := phydrv, driveThrough := driveThrough,
                shootThrough := shootThrough, ricochet := ricochet }, s) }

/-- A concrete wire built from the encodings above. -/
def sampleWire : Wire :=
  { count := countCodec, string := stringCodec, flag := flagCodec,
    obstacle := obstacleCodec, transform := transformCodec, int := intCodec,
    color := colorCodec, material := countCodec, mask := maskCodec }

/-- An instance of `"T"` with a material swap and drive-through. -/
def swappingInstance : GroupInstance :=
  ((GroupInstance.new "T").addMaterialSwap 1 2).setDriveThrough

/-- A definition with a box, a pyramid and two group instances. -/
def packedSample : GroupDefinition :=
  ((((GroupDefinition.empty "outer").addObstacle samplePyr).addObstacle sampleBox).addGroupInstance
    instanceOfT).addGroupInstance swappingInstance

/-- A cone world for the examples: materials are numbered as they come, the cone
takes its geometry from the arguments, and a cone is valid when its size has no
zero component. -/
def sampleConeWorld : ConeWorld (List Nat) :=
  { addMaterial := fun mgr m => (mgr ++ [m], mgr.length)
    ConeObstacle := fun transform pos size rotation _ _ _ _ mats phydrv _ driveThrough
        shootThrough ricochet =>
      { type := .coneType, name := "", transform := transform, pos := pos, size := size,
        rotation := rotation, team := 0, tint := ⟨1, 1, 1, 1⟩, material := mats.headD 0,
        phydrv := phydrv, driveThrough := driveThrough, shootThrough := shootThrough,
        ricochet := ricochet }
    isValid := fun o => o.size.x != 0 && o.size.y != 0 && o.size.z != 0 }

/-- The default cone of the `CustomCone` constructor, called `"c1"`. -/
def sampleCone : CustomCone :=
  { transform := MeshTransform.identity, pos := ⟨0, 0, 0⟩, size := ⟨10, 10, 10⟩,
    rotation := 0, name := "c1", driveThrough := 0, shootThrough := 0, ricochet := false,
    divisions := 16, angle := 360, texsize := (-8, -8), phydrv := -1, useNormals := true,
    smoothBounce := false, materials := [1, 2, 3, 3] }

/-- The same cone flattened to height zero. -/
def flatCone : CustomCone := { sampleCone with size := ⟨10, 10, 0⟩ }

end ObstacleMgr

/-! # Colour parsing (`common/ParseColor.cxx`)

A C string is the list of its bytes up to the terminating NUL; `str[i]` past the last
byte reads the terminator, and `str + n` drops `n` bytes.  A `float` is idealised as
an exact rational. -/

namespace ParseColor

/-- The type `fvec4` (`vectors.h`): four components, red, green, blue, alpha. -/
structure fvec4 where
  r : ℚ
  g : ℚ
  b : ℚ
  a : ℚ
  deriving DecidableEq

/-- The bytes of a string constant. -/
def cstr (s : String) : List Nat := s.toList.map Char.toNat

/-- The read `str[i]` of a NUL-terminated string. -/
def charAt (str : List Nat) (i : Nat) : Nat := str.getD i 0

/-- The function `isspace` of `ctype.h` in the C locale: space, and tab to carriage
return. -/
def isspace (c : Nat) : Bool := c == 32 || (9 ≤ c && c ≤ 13)

/-- The function `tolower` of `ctype.h` in the C locale. -/
def tolower (c : Nat) : Nat := if 65 ≤ c ∧ c ≤ 90 then c + 32 else c

/-- `TextUtils::skipWhitespace` (`TextUtils.h` is not part of the sources at hand):
the string from its first byte that is not whitespace. -/
def skipWhitespace : List Nat → List Nat
  | [] => []
  | c :: cs => if c ≠ 0 ∧ isspace c then skipWhitespace cs else c :: cs

/-- `TextUtils::skipNonWhitespace` (`TextUtils.h` is not part of the sources at
hand): the string from its first whitespace byte, or its end. -/
def skipNonWhitespace : List Nat → List Nat
  | [] => []
  | c :: cs => if c ≠ 0 ∧ ¬ isspace c then skipNonWhitespace cs else c :: cs

/-- `TextUtils::tolower` on a string: every byte through `tolower`. -/
def tolowerString (s : List Nat) : List Nat := s.map tolower

/-- `parseHexChar`: the value of a hexadecimal digit, `-1` for any other byte. -/
def parseHexChar (c : Nat) : Int :=
  -- '0' is 48, '9' is 57
  if 48 ≤ c ∧ c ≤ 57 then (c : Int) - 48
  else
    -- 'a' is 97, 'f' is 102
    if 97 ≤ tolower c ∧ tolower c ≤ 102 then (tolower c : Int) - 97 + 10
    else -1

/-- The `for` loop of `parseHexFormat`, `fuel` iterations before `index` reaches 8:
`none` is the early `return false`, otherwise the final `index` and the `bytes`
filled so far. -/
def hexLoop (str : List Nat) : Nat → Nat → List Int → Option (Nat × List Int)
  | 0, index, bytes => some (index, bytes)
  | fuel + 1, index, bytes =>
    if charAt str index = 0 ∨ isspace (charAt str index) = true then some (index, bytes)
    else if parseHexChar (charAt str index) < 0 then none
    else hexLoop str fuel (index + 1) (bytes ++ [parseHexChar (charAt str index)])

/-- The entry `bytes[k]`, converted to `float`. -/
def byteAt (bytes : List Int) (k : Nat) : ℚ := ((bytes.getD k 0 : Int) : ℚ)

/-- The entries `(bytes[k] << 4) + bytes[k + 1]`, converted to `float`. -/
def pairAt (bytes : List Int) (k : Nat) : ℚ :=
  ((bytes.getD k 0 * 16 + bytes.getD (k + 1) 0 : Int) : ℚ)

/-- `parseHexFormat`: the result and the colour afterwards. -/
def parseHexFormat (str : List Nat) (color : fvec4) : Bool × fvec4 :=
  match hexLoop str 8 0 [] with
  | none => (false, color)
  | some (index, bytes) =>
    -- check for a valid termination
    if index = 8 ∧ charAt str 8 ≠ 0 ∧ isspace (charAt str 8) = false then (false, color)
    else if index = 3 then
      (true, { color with r := byteAt bytes 0 / 15, g := byteAt bytes 1 / 15,
                          b := byteAt bytes 2 / 15 })
    else if index = 4 then
      (true, { r := byteAt bytes 0 / 15, g := byteAt bytes 1 / 15,
               b := byteAt bytes 2 / 15, a := byteAt bytes 3 / 15 })
    else if index = 6 then
      (true, { color with r := pairAt bytes 0 / 255, g := pairAt bytes 2 / 255,
                          b := pairAt bytes 4 / 255 })
    else if index = 8 then
      (true, { r := pairAt bytes 0 / 255, g := pairAt bytes 2 / 255,
               b := pairAt bytes 4 / 255, a := pairAt bytes 6 / 255 })
    else (false, color)

/-- The conversion `%f` of the C library's `sscanf`, which the source only calls:
given the input from its first byte that is not whitespace, the number read and the
input after it, or `none` when no number starts there. -/
abbrev Strtof := List Nat → Option (ℚ × List Nat)

/-- The C library's `sscanf` with a format of `n` conversions `%f` separated by
blanks: the values stored, in order; their number is the count `sscanf` returns
(the end-of-input result `-1` counts as no value at all). -/
def sscanfFloats (strtof : Strtof) : Nat → List Nat → List ℚ
  | 0, _ => []
  | n + 1, str =>
    match strtof (skipWhitespace str) with
    | none => []
    | some (v, rest) => v :: sscanfFloats strtof n rest

/-- The `memcpy (color, tmp, count * sizeof (float))` of `parseFloatFormat`. -/
def copyFloats (color : fvec4) (tmp : List ℚ) : fvec4 :=
  { r := tmp.getD 0 color.r, g := tmp.getD 1 color.g, b := tmp.getD 2 color.b,
    a := tmp.getD 3 color.a }

/-- `parseFloatFormat`. -/
def parseFloatFormat (strtof : Strtof) (str : List Nat) (color : fvec4) : Bool × fvec4 :=
  let tmp := sscanfFloats strtof 4 str
  if tmp.length < 3 then (false, color)
  else (true, copyFloats color tmp)

/-- The struct `ColorArrayData` with its value scaled: a name and red, green, blue
in millionths (the source writes six decimals). -/
abbrev ColorArrayData := String × Nat × Nat × Nat

/-- Entries 0 to 15 of `colorArray`. -/
def colorArray0 : List ColorArrayData := [
  ("snow", 1000000, 980392, 980392),
  ("ghost_white", 972549, 972549, 1000000),
  ("GhostWhite", 972549, 972549, 1000000),
  ("white_smoke", 960784, 960784, 960784),
  ("WhiteSmoke", 960784, 960784, 960784),
  ("gainsboro", 862745, 862745, 862745),
  ("floral_white", 1000000, 980392, 941176),
  ("FloralWhite", 1000000, 980392, 941176),
  ("old_lace", 992157, 960784, 901961),
  ("OldLace", 992157, 960784, 901961),
  ("linen", 980392, 941176, 901961),
  ("antique_white", 980392, 921569, 843137),
  ("AntiqueWhite", 980392, 921569, 843137),
  ("papaya_whip", 1000000, 937255, 835294),
  ("PapayaWhip", 1000000, 937255, 835294),
  ("blanched_almond", 1000000, 921569, 803922)
]

/-- Entries 16 to 31 of `colorArray`. -/
def colorArray1 : List ColorArrayData := [
  ("BlanchedAlmond", 1000000, 921569, 803922),
  ("bisque", 1000000, 894118, 768627),
  ("peach_puff", 1000000, 854902, 725490),
  ("PeachPuff", 1000000, 854902, 725490),
  ("navajo_white", 1000000, 870588, 678431),
  ("NavajoWhite", 1000000, 870588, 678431),
  ("moccasin", 1000000, 894118, 709804),
  ("cornsilk", 1000000, 972549, 862745),
  ("ivory", 1000000, 1000000, 941176),
  ("lemon_chiffon", 1000000, 980392, 803922),
  ("LemonChiffon", 1000000, 980392, 803922),
  ("seashell", 1000000, 960784, 933333),
  ("honeydew", 941176, 1000000, 941176),
  ("mint_cream", 960784, 1000000, 980392),
  ("MintCream", 960784, 1000000, 980392),
  ("azure", 941176, 1000000, 1000000)
]

/-- Entries 32 to 47 of `colorArray`. -/
def colorArray2 : List ColorArrayData := [
  ("alice_blue", 941176, 972549, 1000000),
  ("AliceBlue", 941176, 972549, 1000000),
  ("lavender", 901961, 901961, 980392),
  ("lavender_blush", 1000000, 941176, 960784),
  ("LavenderBlush", 1000000, 941176, 960784),
  ("misty_rose", 1000000, 894118, 882353),
  ("MistyRose", 1000000, 894118, 882353),
  ("white", 1000000, 1000000, 1000000),
  ("black", 0, 0, 0),
  ("dark_slate_gray", 184314, 309804, 309804),
  ("DarkSlateGray", 184314, 309804, 309804),
  ("dark_slate_grey", 184314, 309804, 309804),
  ("DarkSlateGrey", 184314, 309804, 309804),
  ("dim_gray", 411765, 411765, 411765),
  ("DimGray", 411765, 411765, 411765),
  ("dim_grey", 411765, 411765, 411765)
]

/-- Entries 48 to 63 of `colorArray`. -/
def colorArray3 : List ColorArrayData := [
  ("DimGrey", 411765, 411765, 411765),
  ("slate_gray", 439216, 501961, 564706),
  ("SlateGray", 439216, 501961, 564706),
  ("slate_grey", 439216, 501961, 564706),
  ("SlateGrey", 439216, 501961, 564706),
  ("light_slate_gray", 466667, 533333, 600000),
  ("LightSlateGray", 466667, 533333, 600000),
  ("light_slate_grey", 466667, 533333, 600000),
  ("LightSlateGrey", 466667, 533333, 600000),
  ("gray", 745098, 745098, 745098),
  ("grey", 745098, 745098, 745098),
  ("light_grey", 827451, 827451, 827451),
  ("LightGrey", 827451, 827451, 827451),
  ("light_gray", 827451, 827451, 827451),
  ("LightGray", 827451, 827451, 827451),
  ("midnight_blue", 98039, 98039, 439216)
]

/-- Entries 64 to 79 of `colorArray`. -/
def colorArray4 : List ColorArrayData := [
  ("MidnightBlue", 98039, 98039, 439216),
  ("navy", 0, 0, 501961),
  ("navy_blue", 0, 0, 501961),
  ("NavyBlue", 0, 0, 501961),
  ("cornflower_blue", 392157, 584314, 929412),
  ("CornflowerBlue", 392157, 584314, 929412),
  ("dark_slate_blue", 282353, 239216, 545098),
  ("DarkSlateBlue", 282353, 239216, 545098),
  ("slate_blue", 415686, 352941, 803922),
  ("SlateBlue", 415686, 352941, 803922),
  ("medium_slate_blue", 482353, 407843, 933333),
  ("MediumSlateBlue", 482353, 407843, 933333),
  ("light_slate_blue", 517647, 439216, 1000000),
  ("LightSlateBlue", 517647, 439216, 1000000),
  ("medium_blue", 0, 0, 803922),
  ("MediumBlue", 0, 0, 803922)
]

/-- Entries 80 to 95 of `colorArray`. -/
def colorArray5 : List ColorArrayData := [
  ("royal_blue", 254902, 411765, 882353),
  ("RoyalBlue", 254902, 411765, 882353),
  ("blue", 0, 0, 1000000),
  ("dodger_blue", 117647, 564706, 1000000),
  ("DodgerBlue", 117647, 564706, 1000000),
  ("deep_sky_blue", 0, 749020, 1000000),
  ("DeepSkyBlue", 0, 749020, 1000000),
  ("sky_blue", 529412, 807843, 921569),
  ("SkyBlue", 529412, 807843, 921569),
  ("light_sky_blue", 529412, 807843, 980392),
  ("LightSkyBlue", 529412, 807843, 980392),
  ("steel_blue", 274510, 509804, 705882),
  ("SteelBlue", 274510, 509804, 705882),
  ("light_steel_blue", 690196, 768627, 870588),
  ("LightSteelBlue", 690196, 768627, 870588),
  ("light_blue", 678431, 847059, 901961)
]

/-- Entries 96 to 111 of `colorArray`. -/
def colorArray6 : List ColorArrayData := [
  ("LightBlue", 678431, 847059, 901961),
  ("powder_blue", 690196, 878431, 901961),
  ("PowderBlue", 690196, 878431, 901961),
  ("pale_turquoise", 686275, 933333, 933333),
  ("PaleTurquoise", 686275, 933333, 933333),
  ("dark_turquoise", 0, 807843, 819608),
  ("DarkTurquoise", 0, 807843, 819608),
  ("medium_turquoise", 282353, 819608, 800000),
  ("MediumTurquoise", 282353, 819608, 800000),
  ("turquoise", 250980, 878431, 815686),
  ("cyan", 0, 1000000, 1000000),
  ("light_cyan", 878431, 1000000, 1000000),
  ("LightCyan", 878431, 1000000, 1000000),
  ("cadet_blue", 372549, 619608, 627451),
  ("CadetBlue", 372549, 619608, 627451),
  ("medium_aquamarine", 400000, 803922, 666667)
]

/-- Entries 112 to 127 of `colorArray`. -/
def colorArray7 : List ColorArrayData := [
  ("MediumAquamarine", 400000, 803922, 666667),
  ("aquamarine", 498039, 1000000, 831373),
  ("dark_green", 0, 392157, 0),
  ("DarkGreen", 0, 392157, 0),
  ("dark_olive_green", 333333, 419608, 184314),
  ("DarkOliveGreen", 333333, 419608, 184314),
  ("dark_sea_green", 560784, 737255, 560784),
  ("DarkSeaGreen", 560784, 737255, 560784),
  ("sea_green", 180392, 545098, 341176),
  ("SeaGreen", 180392, 545098, 341176),
  ("medium_sea_green", 235294, 701961, 443137),
  ("MediumSeaGreen", 235294, 701961, 443137),
  ("light_sea_green", 125490, 698039, 666667),
  ("LightSeaGreen", 125490, 698039, 666667),
  ("pale_green", 596078, 984314, 596078),
  ("PaleGreen", 596078, 984314, 596078)
]

/-- Entries 128 to 143 of `colorArray`. -/
def colorArray8 : List ColorArrayData := [
  ("spring_green", 0, 1000000, 498039),
  ("SpringGreen", 0, 1000000, 498039),
  ("lawn_green", 486275, 988235, 0),
  ("LawnGreen", 486275, 988235, 0),
  ("green", 0, 1000000, 0),
  ("chartreuse", 498039, 1000000, 0),
  ("medium_spring_green", 0, 980392, 603922),
  ("MediumSpringGreen", 0, 980392, 603922),
  ("green_yellow", 678431, 1000000, 184314),
  ("GreenYellow", 678431, 1000000, 184314),
  ("lime_green", 196078, 803922, 196078),
  ("LimeGreen", 196078, 803922, 196078),
  ("yellow_green", 603922, 803922, 196078),
  ("YellowGreen", 603922, 803922, 196078),
  ("forest_green", 133333, 545098, 133333),
  ("ForestGreen", 133333, 545098, 133333)
]

/-- Entries 144 to 159 of `colorArray`. -/
def colorArray9 : List ColorArrayData := [
  ("olive_drab", 419608, 556863, 137255),
  ("OliveDrab", 419608, 556863, 137255),
  ("dark_khaki", 741176, 717647, 419608),
  ("DarkKhaki", 741176, 717647, 419608),
  ("khaki", 941176, 901961, 549020),
  ("pale_goldenrod", 933333, 909804, 666667),
  ("PaleGoldenrod", 933333, 909804, 666667),
  ("light_goldenrod_yellow", 980392, 980392, 823529),
  ("LightGoldenrodYellow", 980392, 980392, 823529),
  ("light_yellow", 1000000, 1000000, 878431),
  ("LightYellow", 1000000, 1000000, 878431),
  ("yellow", 1000000, 1000000, 0),
  ("gold", 1000000, 843137, 0),
  ("light_goldenrod", 933333, 866667, 509804),
  ("LightGoldenrod", 933333, 866667, 509804),
  ("goldenrod", 854902, 647059, 125490)
]

/-- Entries 160 to 175 of `colorArray`. -/
def colorArray10 : List ColorArrayData := [
  ("dark_goldenrod", 721569, 525490, 43137),
  ("DarkGoldenrod", 721569, 525490, 43137),
  ("rosy_brown", 737255, 560784, 560784),
  ("RosyBrown", 737255, 560784, 560784),
  ("indian_red", 803922, 360784, 360784),
  ("IndianRed", 803922, 360784, 360784),
  ("saddle_brown", 545098, 270588, 74510),
  ("SaddleBrown", 545098, 270588, 74510),
  ("sienna", 627451, 321569, 176471),
  ("peru", 803922, 521569, 247059),
  ("burlywood", 870588, 721569, 529412),
  ("beige", 960784, 960784, 862745),
  ("wheat", 960784, 870588, 701961),
  ("sandy_brown", 956863, 643137, 376471),
  ("SandyBrown", 956863, 643137, 376471),
  ("tan", 823529, 705882, 549020)
]

/-- Entries 176 to 191 of `colorArray`. -/
def colorArray11 : List ColorArrayData := [
  ("chocolate", 823529, 411765, 117647),
  ("firebrick", 698039, 133333, 133333),
  ("brown", 647059, 164706, 164706),
  ("dark_salmon", 913725, 588235, 478431),
  ("DarkSalmon", 913725, 588235, 478431),
  ("salmon", 980392, 501961, 447059),
  ("light_salmon", 1000000, 627451, 478431),
  ("LightSalmon", 1000000, 627451, 478431),
  ("orange", 1000000, 647059, 0),
  ("dark_orange", 1000000, 549020, 0),
  ("DarkOrange", 1000000, 549020, 0),
  ("coral", 1000000, 498039, 313726),
  ("light_coral", 941176, 501961, 501961),
  ("LightCoral", 941176, 501961, 501961),
  ("tomato", 1000000, 388235, 278431),
  ("orange_red", 1000000, 270588, 0)
]

/-- Entries 192 to 207 of `colorArray`. -/
def colorArray12 : List ColorArrayData := [
  ("OrangeRed", 1000000, 270588, 0),
  ("red", 1000000, 0, 0),
  ("hot_pink", 1000000, 411765, 705882),
  ("HotPink", 1000000, 411765, 705882),
  ("deep_pink", 1000000, 78431, 576471),
  ("DeepPink", 1000000, 78431, 576471),
  ("pink", 1000000, 752941, 796078),
  ("light_pink", 1000000, 713726, 756863),
  ("LightPink", 1000000, 713726, 756863),
  ("pale_violet_red", 858824, 439216, 576471),
  ("PaleVioletRed", 858824, 439216, 576471),
  ("maroon", 690196, 188235, 376471),
  ("medium_violet_red", 780392, 82353, 521569),
  ("MediumVioletRed", 780392, 82353, 521569),
  ("violet_red", 815686, 125490, 564706),
  ("VioletRed", 815686, 125490, 564706)
]

/-- Entries 208 to 223 of `colorArray`. -/
def colorArray13 : List ColorArrayData := [
  ("magenta", 1000000, 0, 1000000),
  ("violet", 933333, 509804, 933333),
  ("plum", 866667, 627451, 866667),
  ("orchid", 854902, 439216, 839216),
  ("medium_orchid", 729412, 333333, 827451),
  ("MediumOrchid", 729412, 333333, 827451),
  ("dark_orchid", 600000, 196078, 800000),
  ("DarkOrchid", 600000, 196078, 800000),
  ("dark_violet", 580392, 0, 827451),
  ("DarkViolet", 580392, 0, 827451),
  ("blue_violet", 541176, 168627, 886275),
  ("BlueViolet", 541176, 168627, 886275),
  ("purple", 627451, 125490, 941176),
  ("medium_purple", 576471, 439216, 858824),
  ("MediumPurple", 576471, 439216, 858824),
  ("thistle", 847059, 749020, 847059)
]

/-- Entries 224 to 239 of `colorArray`. -/
def colorArray14 : List ColorArrayData := [
  ("snow1", 1000000, 980392, 980392),
  ("snow2", 933333, 913725, 913725),
  ("snow3", 803922, 788235, 788235),
  ("snow4", 545098, 537255, 537255),
  ("seashell1", 1000000, 960784, 933333),
  ("seashell2", 933333, 898039, 870588),
  ("seashell3", 803922, 772549, 749020),
  ("seashell4", 545098, 525490, 509804),
  ("AntiqueWhite1", 1000000, 937255, 858824),
  ("AntiqueWhite2", 933333, 874510, 800000),
  ("AntiqueWhite3", 803922, 752941, 690196),
  ("AntiqueWhite4", 545098, 513726, 470588),
  ("bisque1", 1000000, 894118, 768627),
  ("bisque2", 933333, 835294, 717647),
  ("bisque3", 803922, 717647, 619608),
  ("bisque4", 545098, 490196, 419608)
]

/-- Entries 240 to 255 of `colorArray`. -/
def colorArray15 : List ColorArrayData := [
  ("PeachPuff1", 1000000, 854902, 725490),
  ("PeachPuff2", 933333, 796078, 678431),
  ("PeachPuff3", 803922, 686275, 584314),
  ("PeachPuff4", 545098, 466667, 396078),
  ("NavajoWhite1", 1000000, 870588, 678431),
  ("NavajoWhite2", 933333, 811765, 631373),
  ("NavajoWhite3", 803922, 701961, 545098),
  ("NavajoWhite4", 545098, 474510, 368627),
  ("LemonChiffon1", 1000000, 980392, 803922),
  ("LemonChiffon2", 933333, 913725, 749020),
  ("LemonChiffon3", 803922, 788235, 647059),
  ("LemonChiffon4", 545098, 537255, 439216),
  ("cornsilk1", 1000000, 972549, 862745),
  ("cornsilk2", 933333, 909804, 803922),
  ("cornsilk3", 803922, 784314, 694118),
  ("cornsilk4", 545098, 533333, 470588)
]

/-- Entries 256 to 271 of `colorArray`. -/
def colorArray16 : List ColorArrayData := [
  ("ivory1", 1000000, 1000000, 941176),
  ("ivory2", 933333, 933333, 878431),
  ("ivory3", 803922, 803922, 756863),
  ("ivory4", 545098, 545098, 513726),
  ("honeydew1", 941176, 1000000, 941176),
  ("honeydew2", 878431, 933333, 878431),
  ("honeydew3", 756863, 803922, 756863),
  ("honeydew4", 513726, 545098, 513726),
  ("LavenderBlush1", 1000000, 941176, 960784),
  ("LavenderBlush2", 933333, 878431, 898039),
  ("LavenderBlush3", 803922, 756863, 772549),
  ("LavenderBlush4", 545098, 513726, 525490),
  ("MistyRose1", 1000000, 894118, 882353),
  ("MistyRose2", 933333, 835294, 823529),
  ("MistyRose3", 803922, 717647, 709804),
  ("MistyRose4", 545098, 490196, 482353)
]

/-- Entries 272 to 287 of `colorArray`. -/
def colorArray17 : List ColorArrayData := [
  ("azure1", 941176, 1000000, 1000000),
  ("azure2", 878431, 933333, 933333),
  ("azure3", 756863, 803922, 803922),
  ("azure4", 513726, 545098, 545098),
  ("SlateBlue1", 513726, 435294, 1000000),
  ("SlateBlue2", 478431, 403922, 933333),
  ("SlateBlue3", 411765, 349020, 803922),
  ("SlateBlue4", 278431, 235294, 545098),
  ("RoyalBlue1", 282353, 462745, 1000000),
  ("RoyalBlue2", 262745, 431373, 933333),
  ("RoyalBlue3", 227451, 372549, 803922),
  ("RoyalBlue4", 152941, 250980, 545098),
  ("blue1", 0, 0, 1000000),
  ("blue2", 0, 0, 933333),
  ("blue3", 0, 0, 803922),
  ("blue4", 0, 0, 545098)
]

/-- Entries 288 to 303 of `colorArray`. -/
def colorArray18 : List ColorArrayData := [
  ("DodgerBlue1", 117647, 564706, 1000000),
  ("DodgerBlue2", 109804, 525490, 933333),
  ("DodgerBlue3", 94118, 454902, 803922),
  ("DodgerBlue4", 62745, 305882, 545098),
  ("SteelBlue1", 388235, 721569, 1000000),
  ("SteelBlue2", 360784, 674510, 933333),
  ("SteelBlue3", 309804, 580392, 803922),
  ("SteelBlue4", 211765, 392157, 545098),
  ("DeepSkyBlue1", 0, 749020, 1000000),
  ("DeepSkyBlue2", 0, 698039, 933333),
  ("DeepSkyBlue3", 0, 603922, 803922),
  ("DeepSkyBlue4", 0, 407843, 545098),
  ("SkyBlue1", 529412, 807843, 1000000),
  ("SkyBlue2", 494118, 752941, 933333),
  ("SkyBlue3", 423529, 650980, 803922),
  ("SkyBlue4", 290196, 439216, 545098)
]

/-- Entries 304 to 319 of `colorArray`. -/
def colorArray19 : List ColorArrayData := [
  ("LightSkyBlue1", 690196, 886275, 1000000),
  ("LightSkyBlue2", 643137, 827451, 933333),
  ("LightSkyBlue3", 552941, 713726, 803922),
  ("LightSkyBlue4", 376471, 482353, 545098),
  ("SlateGray1", 776471, 886275, 1000000),
  ("SlateGray2", 725490, 827451, 933333),
  ("SlateGray3", 623529, 713726, 803922),
  ("SlateGray4", 423529, 482353, 545098),
  ("LightSteelBlue1", 792157, 882353, 1000000),
  ("LightSteelBlue2", 737255, 823529, 933333),
  ("LightSteelBlue3", 635294, 709804, 803922),
  ("LightSteelBlue4", 431373, 482353, 545098),
  ("LightBlue1", 749020, 937255, 1000000),
  ("LightBlue2", 698039, 874510, 933333),
  ("LightBlue3", 603922, 752941, 803922),
  ("LightBlue4", 407843, 513726, 545098)
]

/-- Entries 320 to 335 of `colorArray`. -/
def colorArray20 : List ColorArrayData := [
  ("LightCyan1", 878431, 1000000, 1000000),
  ("LightCyan2", 819608, 933333, 933333),
  ("LightCyan3", 705882, 803922, 803922),
  ("LightCyan4", 478431, 545098, 545098),
  ("PaleTurquoise1", 733333, 1000000, 1000000),
  ("PaleTurquoise2", 682353, 933333, 933333),
  ("PaleTurquoise3", 588235, 803922, 803922),
  ("PaleTurquoise4", 400000, 545098, 545098),
  ("CadetBlue1", 596078, 960784, 1000000),
  ("CadetBlue2", 556863, 898039, 933333),
  ("CadetBlue3", 478431, 772549, 803922),
  ("CadetBlue4", 325490, 525490, 545098),
  ("turquoise1", 0, 960784, 1000000),
  ("turquoise2", 0, 898039, 933333),
  ("turquoise3", 0, 772549, 803922),
  ("turquoise4", 0, 525490, 545098)
]

/-- Entries 336 to 351 of `colorArray`. -/
def colorArray21 : List ColorArrayData := [
  ("cyan1", 0, 1000000, 1000000),
  ("cyan2", 0, 933333, 933333),
  ("cyan3", 0, 803922, 803922),
  ("cyan4", 0, 545098, 545098),
  ("DarkSlateGray1", 592157, 1000000, 1000000),
  ("DarkSlateGray2", 552941, 933333, 933333),
  ("DarkSlateGray3", 474510, 803922, 803922),
  ("DarkSlateGray4", 321569, 545098, 545098),
  ("aquamarine1", 498039, 1000000, 831373),
  ("aquamarine2", 462745, 933333, 776471),
  ("aquamarine3", 400000, 803922, 666667),
  ("aquamarine4", 270588, 545098, 454902),
  ("DarkSeaGreen1", 756863, 1000000, 756863),
  ("DarkSeaGreen2", 705882, 933333, 705882),
  ("DarkSeaGreen3", 607843, 803922, 607843),
  ("DarkSeaGreen4", 411765, 545098, 411765)
]

/-- Entries 352 to 367 of `colorArray`. -/
def colorArray22 : List ColorArrayData := [
  ("SeaGreen1", 329412, 1000000, 623529),
  ("SeaGreen2", 305882, 933333, 580392),
  ("SeaGreen3", 262745, 803922, 501961),
  ("SeaGreen4", 180392, 545098, 341176),
  ("PaleGreen1", 603922, 1000000, 603922),
  ("PaleGreen2", 564706, 933333, 564706),
  ("PaleGreen3", 486275, 803922, 486275),
  ("PaleGreen4", 329412, 545098, 329412),
  ("SpringGreen1", 0, 1000000, 498039),
  ("SpringGreen2", 0, 933333, 462745),
  ("SpringGreen3", 0, 803922, 400000),
  ("SpringGreen4", 0, 545098, 270588),
  ("green1", 0, 1000000, 0),
  ("green2", 0, 933333, 0),
  ("green3", 0, 803922, 0),
  ("green4", 0, 545098, 0)
]

/-- Entries 368 to 383 of `colorArray`. -/
def colorArray23 : List ColorArrayData := [
  ("chartreuse1", 498039, 1000000, 0),
  ("chartreuse2", 462745, 933333, 0),
  ("chartreuse3", 400000, 803922, 0),
  ("chartreuse4", 270588, 545098, 0),
  ("OliveDrab1", 752941, 1000000, 243137),
  ("OliveDrab2", 701961, 933333, 227451),
  ("OliveDrab3", 603922, 803922, 196078),
  ("OliveDrab4", 411765, 545098, 133333),
  ("DarkOliveGreen1", 792157, 1000000, 439216),
  ("DarkOliveGreen2", 737255, 933333, 407843),
  ("DarkOliveGreen3", 635294, 803922, 352941),
  ("DarkOliveGreen4", 431373, 545098, 239216),
  ("khaki1", 1000000, 964706, 560784),
  ("khaki2", 933333, 901961, 521569),
  ("khaki3", 803922, 776471, 450980),
  ("khaki4", 545098, 525490, 305882)
]

/-- Entries 384 to 399 of `colorArray`. -/
def colorArray24 : List ColorArrayData := [
  ("LightGoldenrod1", 1000000, 925490, 545098),
  ("LightGoldenrod2", 933333, 862745, 509804),
  ("LightGoldenrod3", 803922, 745098, 439216),
  ("LightGoldenrod4", 545098, 505882, 298039),
  ("LightYellow1", 1000000, 1000000, 878431),
  ("LightYellow2", 933333, 933333, 819608),
  ("LightYellow3", 803922, 803922, 705882),
  ("LightYellow4", 545098, 545098, 478431),
  ("yellow1", 1000000, 1000000, 0),
  ("yellow2", 933333, 933333, 0),
  ("yellow3", 803922, 803922, 0),
  ("yellow4", 545098, 545098, 0),
  ("gold1", 1000000, 843137, 0),
  ("gold2", 933333, 788235, 0),
  ("gold3", 803922, 678431, 0),
  ("gold4", 545098, 458824, 0)
]

/-- Entries 400 to 415 of `colorArray`. -/
def colorArray25 : List ColorArrayData := [
  ("goldenrod1", 1000000, 756863, 145098),
  ("goldenrod2", 933333, 705882, 133333),
  ("goldenrod3", 803922, 607843, 113725),
  ("goldenrod4", 545098, 411765, 78431),
  ("DarkGoldenrod1", 1000000, 725490, 58824),
  ("DarkGoldenrod2", 933333, 678431, 54902),
  ("DarkGoldenrod3", 803922, 584314, 47059),
  ("DarkGoldenrod4", 545098, 396078, 31373),
  ("RosyBrown1", 1000000, 756863, 756863),
  ("RosyBrown2", 933333, 705882, 705882),
  ("RosyBrown3", 803922, 607843, 607843),
  ("RosyBrown4", 545098, 411765, 411765),
  ("IndianRed1", 1000000, 415686, 415686),
  ("IndianRed2", 933333, 388235, 388235),
  ("IndianRed3", 803922, 333333, 333333),
  ("IndianRed4", 545098, 227451, 227451)
]

/-- Entries 416 to 431 of `colorArray`. -/
def colorArray26 : List ColorArrayData := [
  ("sienna1", 1000000, 509804, 278431),
  ("sienna2", 933333, 474510, 258824),
  ("sienna3", 803922, 407843, 223529),
  ("sienna4", 545098, 278431, 149020),
  ("burlywood1", 1000000, 827451, 607843),
  ("burlywood2", 933333, 772549, 568627),
  ("burlywood3", 803922, 666667, 490196),
  ("burlywood4", 545098, 450980, 333333),
  ("wheat1", 1000000, 905882, 729412),
  ("wheat2", 933333, 847059, 682353),
  ("wheat3", 803922, 729412, 588235),
  ("wheat4", 545098, 494118, 400000),
  ("tan1", 1000000, 647059, 309804),
  ("tan2", 933333, 603922, 286275),
  ("tan3", 803922, 521569, 247059),
  ("tan4", 545098, 352941, 168627)
]

/-- Entries 432 to 447 of `colorArray`. -/
def colorArray27 : List ColorArrayData := [
  ("chocolate1", 1000000, 498039, 141176),
  ("chocolate2", 933333, 462745, 129412),
  ("chocolate3", 803922, 400000, 113725),
  ("chocolate4", 545098, 270588, 74510),
  ("firebrick1", 1000000, 188235, 188235),
  ("firebrick2", 933333, 172549, 172549),
  ("firebrick3", 803922, 149020, 149020),
  ("firebrick4", 545098, 101961, 101961),
  ("brown1", 1000000, 250980, 250980),
  ("brown2", 933333, 231373, 231373),
  ("brown3", 803922, 200000, 200000),
  ("brown4", 545098, 137255, 137255),
  ("salmon1", 1000000, 549020, 411765),
  ("salmon2", 933333, 509804, 384314),
  ("salmon3", 803922, 439216, 329412),
  ("salmon4", 545098, 298039, 223529)
]

/-- Entries 448 to 463 of `colorArray`. -/
def colorArray28 : List ColorArrayData := [
  ("LightSalmon1", 1000000, 627451, 478431),
  ("LightSalmon2", 933333, 584314, 447059),
  ("LightSalmon3", 803922, 505882, 384314),
  ("LightSalmon4", 545098, 341176, 258824),
  ("orange1", 1000000, 647059, 0),
  ("orange2", 933333, 603922, 0),
  ("orange3", 803922, 521569, 0),
  ("orange4", 545098, 352941, 0),
  ("DarkOrange1", 1000000, 498039, 0),
  ("DarkOrange2", 933333, 462745, 0),
  ("DarkOrange3", 803922, 400000, 0),
  ("DarkOrange4", 545098, 270588, 0),
  ("coral1", 1000000, 447059, 337255),
  ("coral2", 933333, 415686, 313726),
  ("coral3", 803922, 356863, 270588),
  ("coral4", 545098, 243137, 184314)
]

/-- Entries 464 to 479 of `colorArray`. -/
def colorArray29 : List ColorArrayData := [
  ("tomato1", 1000000, 388235, 278431),
  ("tomato2", 933333, 360784, 258824),
  ("tomato3", 803922, 309804, 223529),
  ("tomato4", 545098, 211765, 149020),
  ("OrangeRed1", 1000000, 270588, 0),
  ("OrangeRed2", 933333, 250980, 0),
  ("OrangeRed3", 803922, 215686, 0),
  ("OrangeRed4", 545098, 145098, 0),
  ("red1", 1000000, 0, 0),
  ("red2", 933333, 0, 0),
  ("red3", 803922, 0, 0),
  ("red4", 545098, 0, 0),
  ("DeepPink1", 1000000, 78431, 576471),
  ("DeepPink2", 933333, 70588, 537255),
  ("DeepPink3", 803922, 62745, 462745),
  ("DeepPink4", 545098, 39216, 313726)
]

/-- Entries 480 to 495 of `colorArray`. -/
def colorArray30 : List ColorArrayData := [
  ("HotPink1", 1000000, 431373, 705882),
  ("HotPink2", 933333, 415686, 654902),
  ("HotPink3", 803922, 376471, 564706),
  ("HotPink4", 545098, 227451, 384314),
  ("pink1", 1000000, 709804, 772549),
  ("pink2", 933333, 662745, 721569),
  ("pink3", 803922, 568627, 619608),
  ("pink4", 545098, 388235, 423529),
  ("LightPink1", 1000000, 682353, 725490),
  ("LightPink2", 933333, 635294, 678431),
  ("LightPink3", 803922, 549020, 584314),
  ("LightPink4", 545098, 372549, 396078),
  ("PaleVioletRed1", 1000000, 509804, 670588),
  ("PaleVioletRed2", 933333, 474510, 623529),
  ("PaleVioletRed3", 803922, 407843, 537255),
  ("PaleVioletRed4", 545098, 278431, 364706)
]

/-- Entries 496 to 511 of `colorArray`. -/
def colorArray31 : List ColorArrayData := [
  ("maroon1", 1000000, 203922, 701961),
  ("maroon2", 933333, 188235, 654902),
  ("maroon3", 803922, 160784, 564706),
  ("maroon4", 545098, 109804, 384314),
  ("VioletRed1", 1000000, 243137, 588235),
  ("VioletRed2", 933333, 227451, 549020),
  ("VioletRed3", 803922, 196078, 470588),
  ("VioletRed4", 545098, 133333, 321569),
  ("magenta1", 1000000, 0, 1000000),
  ("magenta2", 933333, 0, 933333),
  ("magenta3", 803922, 0, 803922),
  ("magenta4", 545098, 0, 545098),
  ("orchid1", 1000000, 513726, 980392),
  ("orchid2", 933333, 478431, 913725),
  ("orchid3", 803922, 411765, 788235),
  ("orchid4", 545098, 278431, 537255)
]

/-- Entries 512 to 527 of `colorArray`. -/
def colorArray32 : List ColorArrayData := [
  ("plum1", 1000000, 733333, 1000000),
  ("plum2", 933333, 682353, 933333),
  ("plum3", 803922, 588235, 803922),
  ("plum4", 545098, 400000, 545098),
  ("MediumOrchid1", 878431, 400000, 1000000),
  ("MediumOrchid2", 819608, 372549, 933333),
  ("MediumOrchid3", 705882, 321569, 803922),
  ("MediumOrchid4", 478431, 215686, 545098),
  ("DarkOrchid1", 749020, 243137, 1000000),
  ("DarkOrchid2", 698039, 227451, 933333),
  ("DarkOrchid3", 603922, 196078, 803922),
  ("DarkOrchid4", 407843, 133333, 545098),
  ("purple1", 607843, 188235, 1000000),
  ("purple2", 568627, 172549, 933333),
  ("purple3", 490196, 149020, 803922),
  ("purple4", 333333, 101961, 545098)
]

/-- Entries 528 to 543 of `colorArray`. -/
def colorArray33 : List ColorArrayData := [
  ("MediumPurple1", 670588, 509804, 1000000),
  ("MediumPurple2", 623529, 474510, 933333),
  ("MediumPurple3", 537255, 407843, 803922),
  ("MediumPurple4", 364706, 278431, 545098),
  ("thistle1", 1000000, 882353, 1000000),
  ("thistle2", 933333, 823529, 933333),
  ("thistle3", 803922, 709804, 803922),
  ("thistle4", 545098, 482353, 545098),
  ("gray0", 0, 0, 0),
  ("grey0", 0, 0, 0),
  ("gray1", 11765, 11765, 11765),
  ("grey1", 11765, 11765, 11765),
  ("gray2", 19608, 19608, 19608),
  ("grey2", 19608, 19608, 19608),
  ("gray3", 31373, 31373, 31373),
  ("grey3", 31373, 31373, 31373)
]

/-- Entries 544 to 559 of `colorArray`. -/
def colorArray34 : List ColorArrayData := [
  ("gray4", 39216, 39216, 39216),
  ("grey4", 39216, 39216, 39216),
  ("gray5", 50980, 50980, 50980),
  ("grey5", 50980, 50980, 50980),
  ("gray6", 58824, 58824, 58824),
  ("grey6", 58824, 58824, 58824),
  ("gray7", 70588, 70588, 70588),
  ("grey7", 70588, 70588, 70588),
  ("gray8", 78431, 78431, 78431),
  ("grey8", 78431, 78431, 78431),
  ("gray9", 90196, 90196, 90196),
  ("grey9", 90196, 90196, 90196),
  ("gray10", 101961, 101961, 101961),
  ("grey10", 101961, 101961, 101961),
  ("gray11", 109804, 109804, 109804),
  ("grey11", 109804, 109804, 109804)
]

/-- Entries 560 to 575 of `colorArray`. -/
def colorArray35 : List ColorArrayData := [
  ("gray12", 121569, 121569, 121569),
  ("grey12", 121569, 121569, 121569),
  ("gray13", 129412, 129412, 129412),
  ("grey13", 129412, 129412, 129412),
  ("gray14", 141176, 141176, 141176),
  ("grey14", 141176, 141176, 141176),
  ("gray15", 149020, 149020, 149020),
  ("grey15", 149020, 149020, 149020),
  ("gray16", 160784, 160784, 160784),
  ("grey16", 160784, 160784, 160784),
  ("gray17", 168627, 168627, 168627),
  ("grey17", 168627, 168627, 168627),
  ("gray18", 180392, 180392, 180392),
  ("grey18", 180392, 180392, 180392),
  ("gray19", 188235, 188235, 188235),
  ("grey19", 188235, 188235, 188235)
]

/-- Entries 576 to 591 of `colorArray`. -/
def colorArray36 : List ColorArrayData := [
  ("gray20", 200000, 200000, 200000),
  ("grey20", 200000, 200000, 200000),
  ("gray21", 211765, 211765, 211765),
  ("grey21", 211765, 211765, 211765),
  ("gray22", 219608, 219608, 219608),
  ("grey22", 219608, 219608, 219608),
  ("gray23", 231373, 231373, 231373),
  ("grey23", 231373, 231373, 231373),
  ("gray24", 239216, 239216, 239216),
  ("grey24", 239216, 239216, 239216),
  ("gray25", 250980, 250980, 250980),
  ("grey25", 250980, 250980, 250980),
  ("gray26", 258824, 258824, 258824),
  ("grey26", 258824, 258824, 258824),
  ("gray27", 270588, 270588, 270588),
  ("grey27", 270588, 270588, 270588)
]

/-- Entries 592 to 607 of `colorArray`. -/
def colorArray37 : List ColorArrayData := [
  ("gray28", 278431, 278431, 278431),
  ("grey28", 278431, 278431, 278431),
  ("gray29", 290196, 290196, 290196),
  ("grey29", 290196, 290196, 290196),
  ("gray30", 301961, 301961, 301961),
  ("grey30", 301961, 301961, 301961),
  ("gray31", 309804, 309804, 309804),
  ("grey31", 309804, 309804, 309804),
  ("gray32", 321569, 321569, 321569),
  ("grey32", 321569, 321569, 321569),
  ("gray33", 329412, 329412, 329412),
  ("grey33", 329412, 329412, 329412),
  ("gray34", 341176, 341176, 341176),
  ("grey34", 341176, 341176, 341176),
  ("gray35", 349020, 349020, 349020),
  ("grey35", 349020, 349020, 349020)
]

/-- Entries 608 to 623 of `colorArray`. -/
def colorArray38 : List ColorArrayData := [
  ("gray36", 360784, 360784, 360784),
  ("grey36", 360784, 360784, 360784),
  ("gray37", 368627, 368627, 368627),
  ("grey37", 368627, 368627, 368627),
  ("gray38", 380392, 380392, 380392),
  ("grey38", 380392, 380392, 380392),
  ("gray39", 388235, 388235, 388235),
  ("grey39", 388235, 388235, 388235),
  ("gray40", 400000, 400000, 400000),
  ("grey40", 400000, 400000, 400000),
  ("gray41", 411765, 411765, 411765),
  ("grey41", 411765, 411765, 411765),
  ("gray42", 419608, 419608, 419608),
  ("grey42", 419608, 419608, 419608),
  ("gray43", 431373, 431373, 431373),
  ("grey43", 431373, 431373, 431373)
]

/-- Entries 624 to 639 of `colorArray`. -/
def colorArray39 : List ColorArrayData := [
  ("gray44", 439216, 439216, 439216),
  ("grey44", 439216, 439216, 439216),
  ("gray45", 450980, 450980, 450980),
  ("grey45", 450980, 450980, 450980),
  ("gray46", 458824, 458824, 458824),
  ("grey46", 458824, 458824, 458824),
  ("gray47", 470588, 470588, 470588),
  ("grey47", 470588, 470588, 470588),
  ("gray48", 478431, 478431, 478431),
  ("grey48", 478431, 478431, 478431),
  ("gray49", 490196, 490196, 490196),
  ("grey49", 490196, 490196, 490196),
  ("gray50", 498039, 498039, 498039),
  ("grey50", 498039, 498039, 498039),
  ("gray51", 509804, 509804, 509804),
  ("grey51", 509804, 509804, 509804)
]

/-- Entries 640 to 655 of `colorArray`. -/
def colorArray40 : List ColorArrayData := [
  ("gray52", 521569, 521569, 521569),
  ("grey52", 521569, 521569, 521569),
  ("gray53", 529412, 529412, 529412),
  ("grey53", 529412, 529412, 529412),
  ("gray54", 541176, 541176, 541176),
  ("grey54", 541176, 541176, 541176),
  ("gray55", 549020, 549020, 549020),
  ("grey55", 549020, 549020, 549020),
  ("gray56", 560784, 560784, 560784),
  ("grey56", 560784, 560784, 560784),
  ("gray57", 568627, 568627, 568627),
  ("grey57", 568627, 568627, 568627),
  ("gray58", 580392, 580392, 580392),
  ("grey58", 580392, 580392, 580392),
  ("gray59", 588235, 588235, 588235),
  ("grey59", 588235, 588235, 588235)
]

/-- Entries 656 to 671 of `colorArray`. -/
def colorArray41 : List ColorArrayData := [
  ("gray60", 600000, 600000, 600000),
  ("grey60", 600000, 600000, 600000),
  ("gray61", 611765, 611765, 611765),
  ("grey61", 611765, 611765, 611765),
  ("gray62", 619608, 619608, 619608),
  ("grey62", 619608, 619608, 619608),
  ("gray63", 631373, 631373, 631373),
  ("grey63", 631373, 631373, 631373),
  ("gray64", 639216, 639216, 639216),
  ("grey64", 639216, 639216, 639216),
  ("gray65", 650980, 650980, 650980),
  ("grey65", 650980, 650980, 650980),
  ("gray66", 658824, 658824, 658824),
  ("grey66", 658824, 658824, 658824),
  ("gray67", 670588, 670588, 670588),
  ("grey67", 670588, 670588, 670588)
]

/-- Entries 672 to 687 of `colorArray`. -/
def colorArray42 : List ColorArrayData := [
  ("gray68", 678431, 678431, 678431),
  ("grey68", 678431, 678431, 678431),
  ("gray69", 690196, 690196, 690196),
  ("grey69", 690196, 690196, 690196),
  ("gray70", 701961, 701961, 701961),
  ("grey70", 701961, 701961, 701961),
  ("gray71", 709804, 709804, 709804),
  ("grey71", 709804, 709804, 709804),
  ("gray72", 721569, 721569, 721569),
  ("grey72", 721569, 721569, 721569),
  ("gray73", 729412, 729412, 729412),
  ("grey73", 729412, 729412, 729412),
  ("gray74", 741176, 741176, 741176),
  ("grey74", 741176, 741176, 741176),
  ("gray75", 749020, 749020, 749020),
  ("grey75", 749020, 749020, 749020)
]

/-- Entries 688 to 703 of `colorArray`. -/
def colorArray43 : List ColorArrayData := [
  ("gray76", 760784, 760784, 760784),
  ("grey76", 760784, 760784, 760784),
  ("gray77", 768627, 768627, 768627),
  ("grey77", 768627, 768627, 768627),
  ("gray78", 780392, 780392, 780392),
  ("grey78", 780392, 780392, 780392),
  ("gray79", 788235, 788235, 788235),
  ("grey79", 788235, 788235, 788235),
  ("gray80", 800000, 800000, 800000),
  ("grey80", 800000, 800000, 800000),
  ("gray81", 811765, 811765, 811765),
  ("grey81", 811765, 811765, 811765),
  ("gray82", 819608, 819608, 819608),
  ("grey82", 819608, 819608, 819608),
  ("gray83", 831373, 831373, 831373),
  ("grey83", 831373, 831373, 831373)
]

/-- Entries 704 to 719 of `colorArray`. -/
def colorArray44 : List ColorArrayData := [
  ("gray84", 839216, 839216, 839216),
  ("grey84", 839216, 839216, 839216),
  ("gray85", 850980, 850980, 850980),
  ("grey85", 850980, 850980, 850980),
  ("gray86", 858824, 858824, 858824),
  ("grey86", 858824, 858824, 858824),
  ("gray87", 870588, 870588, 870588),
  ("grey87", 870588, 870588, 870588),
  ("gray88", 878431, 878431, 878431),
  ("grey88", 878431, 878431, 878431),
  ("gray89", 890196, 890196, 890196),
  ("grey89", 890196, 890196, 890196),
  ("gray90", 898039, 898039, 898039),
  ("grey90", 898039, 898039, 898039),
  ("gray91", 909804, 909804, 909804),
  ("grey91", 909804, 909804, 909804)
]

/-- Entries 720 to 735 of `colorArray`. -/
def colorArray45 : List ColorArrayData := [
  ("gray92", 921569, 921569, 921569),
  ("grey92", 921569, 921569, 921569),
  ("gray93", 929412, 929412, 929412),
  ("grey93", 929412, 929412, 929412),
  ("gray94", 941176, 941176, 941176),
  ("grey94", 941176, 941176, 941176),
  ("gray95", 949020, 949020, 949020),
  ("grey95", 949020, 949020, 949020),
  ("gray96", 960784, 960784, 960784),
  ("grey96", 960784, 960784, 960784),
  ("gray97", 968627, 968627, 968627),
  ("grey97", 968627, 968627, 968627),
  ("gray98", 980392, 980392, 980392),
  ("grey98", 980392, 980392, 980392),
  ("gray99", 988235, 988235, 988235),
  ("grey99", 988235, 988235, 988235)
]

/-- Entries 736 to 751 of `colorArray`. -/
def colorArray46 : List ColorArrayData := [
  ("gray100", 1000000, 1000000, 1000000),
  ("grey100", 1000000, 1000000, 1000000),
  ("dark_grey", 662745, 662745, 662745),
  ("DarkGrey", 662745, 662745, 662745),
  ("dark_gray", 662745, 662745, 662745),
  ("DarkGray", 662745, 662745, 662745),
  ("dark_blue", 0, 0, 545098),
  ("DarkBlue", 0, 0, 545098),
  ("dark_cyan", 0, 545098, 545098),
  ("DarkCyan", 0, 545098, 545098),
  ("dark_magenta", 545098, 0, 545098),
  ("DarkMagenta", 545098, 0, 545098),
  ("dark_red", 545098, 0, 0),
  ("DarkRed", 545098, 0, 0),
  ("light_green", 564706, 933333, 564706),
  ("LightGreen", 564706, 933333, 564706)
]

/-- The array `colorArray` of `getColorMap`, all 752 entries in order. -/
def colorArray : List ColorArrayData :=
  colorArray0 ++ colorArray1 ++ colorArray2 ++ colorArray3 ++ colorArray4 ++
  colorArray5 ++ colorArray6 ++ colorArray7 ++ colorArray8 ++ colorArray9 ++
  colorArray10 ++ colorArray11 ++ colorArray12 ++ colorArray13 ++ colorArray14 ++
  colorArray15 ++ colorArray16 ++ colorArray17 ++ colorArray18 ++ colorArray19 ++
  colorArray20 ++ colorArray21 ++ colorArray22 ++ colorArray23 ++ colorArray24 ++
  colorArray25 ++ colorArray26 ++ colorArray27 ++ colorArray28 ++ colorArray29 ++
  colorArray30 ++ colorArray31 ++ colorArray32 ++ colorArray33 ++ colorArray34 ++
  colorArray35 ++ colorArray36 ++ colorArray37 ++ colorArray38 ++ colorArray39 ++
  colorArray40 ++ colorArray41 ++ colorArray42 ++ colorArray43 ++ colorArray44 ++
  colorArray45 ++ colorArray46

/-- A `float` constant of `colorArray`. -/
def millionths (n : Nat) : ℚ := (n : ℚ) / 1000000

/-- The struct `ColorMapData` built by its three-argument constructor: alpha is 1. -/
def ColorMapData (data : ColorArrayData) : fvec4 :=
  { r := millionths data.2.1, g := millionths data.2.2.1, b := millionths data.2.2.2, a := 1 }

/-- The type `ColorMap`, a `std::map` from strings to colours: its entries, one
for each key. -/
abbrev ColorMap := List (List Nat × fvec4)

/-- The assignment `colorMap[key] = value`. -/
def ColorMap.assign : ColorMap → List Nat → fvec4 → ColorMap
  | [], key, value => [(key, value)]
  | (k, v) :: rest, key, value =>
    if k = key then (k, value) :: rest else (k, v) :: ColorMap.assign rest key value

/-- The lookup `colorMap.find (key)`; `none` is `colorMap.end ()`. -/
def ColorMap.find : ColorMap → List Nat → Option fvec4
  | [], _ => none
  | (k, v) :: rest, key => if k = key then some v else ColorMap.find rest key

/-- The loop of `getColorMap` over an array: every name, lower-cased, is assigned
its colour. -/
def fillColorMap (array : List ColorArrayData) (colorMap : ColorMap) : ColorMap :=
  array.foldl (fun m data => m.assign (tolowerString (cstr data.1)) (ColorMapData data))
    colorMap

/-- `getColorMap`. -/
def getColorMap : ColorMap := fillColorMap colorArray []

/-- The body of `parseNamedFormat` once `colorMap` is bound to the colour map. -/
def parseNamedFormatIn (colorMap : ColorMap) (strtof : Strtof) (str : List Nat)
    (color : fvec4) : Bool × fvec4 :=
  let theEnd := skipNonWhitespace str
  let nameLen := str.length - theEnd.length
  if nameLen ≤ 0 then (false, color)
  else
    let name := str.take nameLen
    match colorMap.find (tolowerString name) with
    | none => (false, color)
    | some data =>
      let color := { color with r := data.r, g := data.g, b := data.b }
      let str := skipWhitespace theEnd
      if charAt str 0 = 0 then (true, color)
      else
        match sscanfFloats strtof 1 str with
        | alpha :: _ => (true, { color with a := alpha })
        | [] => (true, color)

/-- `parseNamedFormat`: `const ColorMap& colorMap = getColorMap ()` and the body. -/
def parseNamedFormat (strtof : Strtof) (str : List Nat) (color : fvec4) : Bool × fvec4 :=
  parseNamedFormatIn getColorMap strtof str color

/-- `parseColorCString`: the result and the colour afterwards. -/
def parseColorCString (strtof : Strtof) (str : List Nat) (color : fvec4) : Bool × fvec4 :=
  -- default to opaque white
  let color : fvec4 := { color with r := 1, g := 1, b := 1, a := 1 }
  -- strip leading space
  let str := skipWhitespace str
  -- no string
  if charAt str 0 = 0 then (false, color)
  -- '#' is 35
  else if charAt str 0 = 35 then parseHexFormat (str.drop 1) color
  -- '0' is 48, 'x' is 120
  else if charAt str 0 = 48 ∧ charAt str 1 = 120 then parseHexFormat (str.drop 2) color
  -- '0' to '9', '.' is 46, '+' is 43, '-' is 45
  else if (48 ≤ charAt str 0 ∧ charAt str 0 ≤ 57) ∨ charAt str 0 = 46 ∨ charAt str 0 = 43 ∨
      charAt str 0 = 45 then parseFloatFormat strtof str color
  else parseNamedFormat strtof str color

/-- `parseColorString`. -/
def parseColorString (strtof : Strtof) (str : String) (color : fvec4) : Bool × fvec4 :=
  parseColorCString strtof (cstr str) color

/-- A byte that ends a word: the terminator or whitespace. -/
def endsWord (c : Nat) : Bool := c == 0 || isspace c

/-- The prefix of a string up to its first whitespace byte or its end. -/
def word (s : List Nat) : List Nat := s.takeWhile (fun c => !endsWord c)

/-- A hexadecimal digit: `0` to `9`, `a` to `f`, `A` to `F`. -/
def isHexDigit (c : Nat) : Bool :=
  (48 ≤ c && c ≤ 57) || (97 ≤ c && c ≤ 102) || (65 ≤ c && c ≤ 70)

/-- The value of a hexadecimal digit. -/
def hexValue (c : Nat) : Nat :=
  if 48 ≤ c ∧ c ≤ 57 then c - 48
  else if 97 ≤ c ∧ c ≤ 102 then c - 87
  else c - 55

/-- The first byte of a float: a digit, `.`, `+` or `-`. -/
def startsFloat (c : Nat) : Bool := (48 ≤ c && c ≤ 57) || c == 46 || c == 43 || c == 45

/-- The loop of `parseHexFormat` on the rest of the string at `index`. -/
def hexLoopFrom : Nat → List Nat → Nat → List Int → Option (Nat × List Int)
  | 0, _, index, bytes => some (index, bytes)
  | _ + 1, [], index, bytes => some (index, bytes)
  | fuel + 1, c :: cs, index, bytes =>
    if endsWord c = true then some (index, bytes)
    else if parseHexChar c < 0 then none
    else hexLoopFrom fuel cs (index + 1) (bytes ++ [parseHexChar c])

/-- A decimal digit byte. -/
def isDigit (c : Nat) : Bool := 48 ≤ c && c ≤ 57

/-- The number a run of decimal digits spells. -/
def digitsValue (ds : List Nat) : Nat := ds.foldl (fun acc d => acc * 10 + (d - 48)) 0

/-- A sample `%f` conversion: an optional sign, decimal digits, and an optional point
with more digits, at least one digit in all (no exponent, no special values). -/
def decimalStrtof : Strtof := fun str =>
  let signed : Bool × List Nat :=
    match str with
    | 45 :: t => (true, t)
    | 43 :: t => (false, t)
    | _ => (false, str)
  let intPart := signed.2.span isDigit
  let fracPart : List Nat × List Nat :=
    match intPart.2 with
    | 46 :: t => t.span isDigit
    | _ => ([], intPart.2)
  if intPart.1 = [] ∧ fracPart.1 = [] then none
  else
    let v : ℚ := (digitsValue intPart.1 : ℚ) +
      (digitsValue fracPart.1 : ℚ) / (10 ^ fracPart.1.length : ℚ)
    some (if signed.1 then -v else v, fracPart.2)

/-- The colour `parseHexFormat` stores for a word of hexadecimal digits, by the
length of the word. -/
def hexColor (w : List Nat) (color : fvec4) : fvec4 :=
  if w.length = 3 then
    { color with r := byteAt (w.map parseHexChar) 0 / 15, g := byteAt (w.map parseHexChar) 1 / 15,
                 b := byteAt (w.map parseHexChar) 2 / 15 }
  else if w.length = 4 then
    { r := byteAt (w.map parseHexChar) 0 / 15, g := byteAt (w.map parseHexChar) 1 / 15,
      b := byteAt (w.map parseHexChar) 2 / 15, a := byteAt (w.map parseHexChar) 3 / 15 }
  else if w.length = 6 then
    { color with r := pairAt (w.map parseHexChar) 0 / 255, g := pairAt (w.map parseHexChar) 2 / 255,
                 b := pairAt (w.map parseHexChar) 4 / 255 }
  else
    { r := pairAt (w.map parseHexChar) 0 / 255, g := pairAt (w.map parseHexChar) 2 / 255,
      b := pairAt (w.map parseHexChar) 4 / 255, a := pairAt (w.map parseHexChar) 6 / 255 }

/-- Opaque white, the default of `parseColorCString`. -/
def white : fvec4 := { r := 1, g := 1, b := 1, a := 1 }

end ParseColor

/-! # Durations (`common/BzTime.cpp`)

A `long int` is an integer kept in the range from `-M` to `M - 1`, where `M` is
a power of two chosen by the platform; arithmetic that leaves the range wraps. -/

namespace BzTime

/-- A result of `long int` arithmetic brought back into range. -/
def wrapLong (M : Int) (x : Int) : Int := (x + M) % (2 * M) - M

/-- The conversion `(long int) raw` of a `double`, idealised as a rational:
truncation toward zero. -/
def toLong (M : Int) (raw : ℚ) : Int := wrapLong M (Int.tdiv raw.num raw.den)

/-- The constant `secondsInDay`. -/
def secondsInDay : Int := 86400

/-- `BzTime::convertTime`: the four entries stored in `convertedTimes`, day, hour,
min, sec. -/
def convertTime (M : Int) (raw : ℚ) : Int × Int × Int × Int :=
  let sec := toLong M raw
  let day := wrapLong M (Int.tdiv sec secondsInDay)
  let remainder := wrapLong M (sec - wrapLong M (day * secondsInDay))
  let hour := wrapLong M (Int.tdiv remainder 3600)
  let remainder := wrapLong M
    (sec - wrapLong M (wrapLong M (hour * 3600) + wrapLong M (day * secondsInDay)))
  let min := wrapLong M (Int.tdiv remainder 60)
  let remainder := wrapLong M
    (sec - wrapLong M (wrapLong M (wrapLong M (hour * 3600) + wrapLong M (day * secondsInDay)) +
      wrapLong M (min * 60)))
  let sec := remainder
  (day, hour, min, sec)

/-- The character of a decimal digit. -/
def digitChar (d : Nat) : Char := Char.ofNat (48 + d)

/-- The decimal digits of `n` in front of `acc`, most significant first. -/
def natDigits : Nat → Nat → List Char → List Char
  | 0, _, acc => acc
  | fuel + 1, n, acc =>
    if n < 10 then digitChar n :: acc
    else natDigits fuel (n / 10) (digitChar (n % 10) :: acc)

/-- The decimal numeral of a natural number. -/
def natToDecimal (n : Nat) : List Char := natDigits (n + 1) n []

/-- The conversion `%ld` of the C library: the decimal numeral, with a sign when
negative. -/
def ldToString (n : Int) : List Char :=
  if n < 0 then '-' :: natToDecimal n.natAbs else natToDecimal n.toNat

/-- The C library's `snprintf (temp, size, ...)`: of the formatted text, what fits
in `size` bytes with the terminator. -/
def snprintf (size : Nat) (text : List Char) : List Char := text.take (size - 1)

/-- The call `snprintf (temp, 20, "%ld unit%s", n, n == 1 ? "" : "s")`: the
contents of `temp`. -/
def formatUnit (n : Int) (unit : String) : List Char :=
  snprintf 20 (ldToString n ++ (' ' :: unit.toList) ++ (if n = 1 then "" else "s").toList)

/-- `BzTime::printTime (long int timeValue[])`. -/
def printTime (timeValue : Int × Int × Int × Int) : List Char :=
  let t0 := timeValue.1
  let t1 := timeValue.2.1
  let t2 := timeValue.2.2.1
  let t3 := timeValue.2.2.2
  let valueNames : List Char := []
  let valueNames := if t0 > 0 then valueNames ++ formatUnit t0 "day" else valueNames
  let valueNames :=
    if t1 > 0 then
      (if t0 > 0 then valueNames ++ ", ".toList else valueNames) ++ formatUnit t1 "hour"
    else valueNames
  let valueNames :=
    if t2 > 0 then
      (if t1 > 0 ∨ t0 > 0 then valueNames ++ ", ".toList else valueNames) ++
        formatUnit t2 "min"
    else valueNames
  let valueNames :=
    if t3 > 0 then
      (if t2 > 0 ∨ t1 > 0 ∨ t0 > 0 then valueNames ++ ", ".toList else valueNames) ++
        formatUnit t3 "sec"
    else valueNames
  valueNames

/-- `BzTime::printTime (double diff)`. -/
def printTimeOfDiff (M : Int) (diff : ℚ) : List Char := printTime (convertTime M diff)

/-- The reference rendering of one component: the number, a blank, the unit, and a
trailing `s` exactly when the number is not 1. -/
def renderComponent (c : Int × String) : List Char :=
  ldToString c.1 ++ (' ' :: c.2.toList) ++ (if c.1 ≠ 1 then ['s'] else [])

/-- The reference rendering of a duration: the strictly positive components, in the
order day, hour, min, sec, each rendered, joined by a comma and a blank. -/
def printTimeReference (timeValue : Int × Int × Int × Int) : List Char :=
  List.intercalate ", ".toList
    (([(timeValue.1, "day"), (timeValue.2.1, "hour"), (timeValue.2.2.1, "min"),
       (timeValue.2.2.2, "sec")].filter (fun c => decide (c.1 > 0))).map renderComponent)

/-! ## The clock (`getCurrent`, the branch for systems other than Windows)

The two static variables the routine works on are a state handed from call to
call; what `gettimeofday` stores is the input of a call.  The mutex makes a call
atomic, so a run is a sequence of calls.  A `double` result is the exact result
rounded by a function `fl` of the platform; the debug message written when the
clock went back changes no variable and is left out. -/

/-- An `int64_t` result brought back into range. -/
def wrapInt64 (x : Int) : Int := wrapLong (2 ^ 63) x

/-- The structure `timeval` as `gettimeofday` fills it. -/
structure timeval where
  tv_sec : Int
  tv_usec : Int
  deriving DecidableEq

/-- The function `getEpochMicroseconds`, on what `gettimeofday` stored in `nowTime`. -/
def getEpochMicroseconds (nowTime : timeval) : Int :=
  wrapInt64 (wrapInt64 (wrapInt64 nowTime.tv_sec * wrapInt64 1000000)
    + wrapInt64 nowTime.tv_usec)

/-- The static variables `lastTime` and `currentTime` (the seconds it holds). -/
structure TimerState where
  lastTime : Int
  currentTime : ℚ
  deriving DecidableEq

/-- The conversion `double(x)` of an `int64_t`. -/
def toDouble (fl : ℚ → ℚ) (x : Int) : ℚ := fl x

/-- The literal `1.0e-6`. -/
def microsecond (fl : ℚ → ℚ) : ℚ := fl (1 / 1000000)

/-- The product of two `double` values. -/
def mulDouble (fl : ℚ → ℚ) (a b : ℚ) : ℚ := fl (a * b)

/-- The operator `+=` of `BzTime` with a `double`: the seconds grow by `dt`. -/
def addSeconds (fl : ℚ → ℚ) (seconds dt : ℚ) : ℚ := fl (seconds + dt)

/-- The function `getCurrent`: the state after the call and the value of the
returned reference at the return. -/
def getCurrent (fl : ℚ → ℚ) (st : TimerState) (tv : timeval) : TimerState × ℚ :=
  if st.lastTime = 0 then
    let lastTime := getEpochMicroseconds tv
    let currentTime :=
      addSeconds fl st.currentTime (mulDouble fl (toDouble fl lastTime) (microsecond fl))
    ({ lastTime := lastTime, currentTime := currentTime }, currentTime)
  else
    let nowTime := getEpochMicroseconds tv
    let diff := wrapInt64 (nowTime - st.lastTime)
    let currentTime :=
      if diff > 0 then
        addSeconds fl st.currentTime (mulDouble fl (toDouble fl diff) (microsecond fl))
      else
        st.currentTime
    ({ lastTime := nowTime, currentTime := currentTime }, currentTime)

/-- The state after a sequence of calls, one for each reading of the clock. -/
def afterCalls (fl : ℚ → ℚ) : TimerState → List timeval → TimerState
  | st, [] => st
  | st, tv :: clock => afterCalls fl (getCurrent fl st tv).1 clock

/-- The values the calls of a sequence return, in the order of the calls. -/
def getCurrentCalls (fl : ℚ → ℚ) : TimerState → List timeval → List ℚ
  | _, [] => []
  | st, tv :: clock => (getCurrent fl st tv).2 :: getCurrentCalls fl (getCurrent fl st tv).1 clock

/-- A rounding that changes nothing: every result is kept exactly. -/
def exactDouble : ℚ → ℚ := fun x => x

/-- The static variables at the start of the program. -/
def initialTimer : TimerState := { lastTime := 0, currentTime := 0 }

/-- Four readings of the clock: 5 s, 7 s, back to 6 s, then 6.5 s. -/
def sampleClock : List timeval :=
  [{ tv_sec := 5, tv_usec := 0 }, { tv_sec := 7, tv_usec := 0 },
   { tv_sec := 6, tv_usec := 0 }, { tv_sec := 6, tv_usec := 500000 }]

end BzTime

namespace ObstacleMgr

/-! ## Typed-ID lookup: theorems -/

namespace GroupDefinitionMgr

theorem idType_eq (id : Nat) (hid : id < 2 ^ 32) : idType id = id >>> 16 := by
  unfold idType
  rw [Nat.shiftRight_eq_div_pow]
  apply Nat.mod_eq_of_lt
  omega

theorem idListID_eq (id : Nat) : idListID id = id &&& 0xffff := by
  unfold idListID
  have h : id &&& 0xffff = id % 2 ^ 16 := Nat.and_pow_two_sub_one_eq_mod id 16
  rw [h]
  apply Nat.mod_eq_of_lt
  omega

theorem lookupIn_lt (l : ObstacleList) (i : Nat) (h : i < l.length) :
    lookupIn (some l) i = some (some (l.get ⟨i, h⟩)) := by
  simp [lookupIn, h, List.getElem?_eq_getElem]

theorem lookupIn_ge (l : ObstacleList) (i : Nat) (h : l.length ≤ i) :
    lookupIn (some l) i = some none := by
  have h2 : ¬ (l.length > i) := by omega
  simp [lookupIn, h2]

theorem lookupIn_some (l : ObstacleList) (i : Nat) :
    ∃ r, lookupIn (some l) i = some r := by
  by_cases h : i < l.length
  · exact ⟨_, lookupIn_lt l i h⟩
  · exact ⟨_, lookupIn_ge l i (by omega)⟩

theorem getList_some (d : GroupDefinition) (type : Nat) (h : type < ObstacleTypeCount) :
    ∃ l, d.getList type = some l := by
  have h2 : type < d.lists.length := by rw [d.size_lists]; exact h
  exact ⟨d.lists[type], by simp [GroupDefinition.getList, List.getElem?_eq_getElem, h2]⟩

/-- The switch of `getObstacleFromID`, case by case. -/
theorem getObstacleFromID_cases (m : GroupDefinitionMgr) (id : Nat) :
    (idType id = wallType ∧ getObstacleFromID m id = lookupIn m.getWalls (idListID id)) ∨
    (idType id = boxType ∧ getObstacleFromID m id = lookupIn m.getBoxes (idListID id)) ∨
    (idType id = pyrType ∧ getObstacleFromID m id = lookupIn m.getPyrs (idListID id)) ∨
    (idType id = baseType ∧ getObstacleFromID m id = lookupIn m.getBases (idListID id)) ∨
    (idType id = teleType ∧ getObstacleFromID m id = lookupIn m.getTeles (idListID id)) ∨
    (idType id = meshType ∧ getObstacleFromID m id = lookupIn m.getMeshes (idListID id)) ∨
    (idType id = arcType ∧ getObstacleFromID m id = lookupIn m.getArcs (idListID id)) ∨
    (idType id = coneType ∧ getObstacleFromID m id = lookupIn m.getCones (idListID id)) ∨
    (idType id = sphereType ∧ getObstacleFromID m id = lookupIn m.getSpheres (idListID id)) ∨
    (idType id = tetraType ∧ getObstacleFromID m id = lookupIn m.getTetras (idListID id)) ∨
    (ObstacleTypeCount ≤ idType id ∧ getObstacleFromID m id = some none) := by
  have key : idType id = 0 ∨ idType id = 1 ∨ idType id = 2 ∨ idType id = 3 ∨ idType id = 4 ∨
      idType id = 5 ∨ idType id = 6 ∨ idType id = 7 ∨ idType id = 8 ∨ idType id = 9 ∨
      10 ≤ idType id := by omega
  rcases key with h | h | h | h | h | h | h | h | h | h | h
  · exact Or.inl ⟨h, by simp [getObstacleFromID, h, wallType, ObstacleType.toNat]⟩
  · exact Or.inr (Or.inl ⟨h, by
      simp [getObstacleFromID, h, wallType, boxType, ObstacleType.toNat]⟩)
  · exact Or.inr (Or.inr (Or.inl ⟨h, by
      simp [getObstacleFromID, h, wallType, boxType, pyrType, ObstacleType.toNat]⟩))
  · exact Or.inr (Or.inr (Or.inr (Or.inl ⟨h, by
      simp [getObstacleFromID, h, wallType, boxType, pyrType, baseType,
        ObstacleType.toNat]⟩)))
  · exact Or.inr (Or.inr (Or.inr (Or.inr (Or.inl ⟨h, by
      simp [getObstacleFromID, h, wallType, boxType, pyrType, baseType, teleType,
        ObstacleType.toNat]⟩))))
  · exact Or.inr (Or.inr (Or.inr (Or.inr (Or.inr (Or.inl ⟨h, by
      simp [getObstacleFromID, h, wallType, boxType, pyrType, baseType, teleType,
        meshType, ObstacleType.toNat]⟩)))))
  · exact Or.inr (Or.inr (Or.inr (Or.inr (Or.inr (Or.inr (Or.inl ⟨h, by
      simp [getObstacleFromID, h, wallType, boxType, pyrType, baseType, teleType,
        meshType, arcType, ObstacleType.toNat]⟩))))))
  · exact Or.inr (Or.inr (Or.inr (Or.inr (Or.inr (Or.inr (Or.inr (Or.inl ⟨h, by
      simp [getObstacleFromID, h, wallType, boxType, pyrType, baseType, teleType,
        meshType, arcType, coneType, ObstacleType.toNat]⟩)))))))
  · exact Or.inr (Or.inr (Or.inr (Or.inr (Or.inr (Or.inr (Or.inr (Or.inr (Or.inl ⟨h, by
      simp [getObstacleFromID, h, wallType, boxType, pyrType, baseType, teleType,
        meshType, arcType, coneType, sphereType, ObstacleType.toNat]⟩))))))))
  · exact Or.inr (Or.inr (Or.inr (Or.inr (Or.inr (Or.inr (Or.inr (Or.inr (Or.inr (Or.inl
      ⟨h, by
      simp [getObstacleFromID, h, wallType, boxType, pyrType, baseType, teleType,
        meshType, arcType, coneType, sphereType, tetraType, ObstacleType.toNat]⟩)))))))))
  · refine Or.inr (Or.inr (Or.inr (Or.inr (Or.inr (Or.inr (Or.inr (Or.inr (Or.inr (Or.inr
      ⟨h, ?_⟩)))))))))
    have h0 : idType id ≠ 0 := by omega
    have h1 : idType id ≠ 1 := by omega
    have h2 : idType id ≠ 2 := by omega
    have h3 : idType id ≠ 3 := by omega
    have h4 : idType id ≠ 4 := by omega
    have h5 : idType id ≠ 5 := by omega
    have h6 : idType id ≠ 6 := by omega
    have h7 : idType id ≠ 7 := by omega
    have h8 : idType id ≠ 8 := by omega
    have h9 : idType id ≠ 9 := by omega
    simp [getObstacleFromID, h0, h1, h2, h3, h4, h5, h6, h7, h8, h9, wallType, boxType,
      pyrType, baseType, teleType, meshType, arcType, coneType, sphereType, tetraType,
      ObstacleType.toNat]

theorem getObstacleFromID_case (m : GroupDefinitionMgr) (id : Nat) (t : Nat)
    (ht : t < ObstacleTypeCount) (h : idType id = t) :
    getObstacleFromID m id = lookupIn (m.world.getList t) (idListID id) := by
  have ht2 : t < 10 := ht
  have key : t = 0 ∨ t = 1 ∨ t = 2 ∨ t = 3 ∨ t = 4 ∨ t = 5 ∨ t = 6 ∨ t = 7 ∨ t = 8 ∨
      t = 9 := by omega
  rcases key with e | e | e | e | e | e | e | e | e | e <;> subst e <;>
    simp [getObstacleFromID, h, wallType, boxType, pyrType, baseType, teleType, meshType,
      arcType, coneType, sphereType, tetraType, ObstacleType.toNat, getWalls, getBoxes,
      getPyrs, getBases, getTeles, getMeshes, getArcs, getCones, getSpheres, getTetras]

theorem getObstacleFromID_other (m : GroupDefinitionMgr) (id : Nat)
    (h : ObstacleTypeCount ≤ idType id) : getObstacleFromID m id = some none := by
  rcases getObstacleFromID_cases m id with c | c | c | c | c | c | c | c | c | c | c
  all_goals first
    | exact c.2
    | (exfalso
       have h1 := c.1
       have h2 : 10 ≤ idType id := h
       simp only [wallType, boxType, pyrType, baseType, teleType, meshType, arcType,
         coneType, sphereType, tetraType, ObstacleType.toNat] at h1
       omega)

theorem getObstacleFromID_hit (m : GroupDefinitionMgr) (id : Nat) (hid : id < 2 ^ 32)
    (t : Nat) (ht : t < ObstacleTypeCount) (l : ObstacleList)
    (hidx : id &&& 0xffff < l.length) (htype : id >>> 16 = t)
    (hl : m.world.getList t = some l) :
    getObstacleFromID m id = some (some (l.get ⟨id &&& 0xffff, hidx⟩)) := by
  have h1 : idType id = t := by rw [idType_eq id hid]; exact htype
  rw [getObstacleFromID_case m id t ht h1, hl, idListID_eq]
  exact lookupIn_lt l _ hidx

theorem typedID_eq (t i : Nat) (ht : t < 65536) (hi : i < 65536) :
    typedID t i = 65536 * t + i := by
  unfold typedID
  have h1 : t <<< 16 = 2 ^ 16 * t := by rw [Nat.shiftLeft_eq, Nat.mul_comm]
  have h2 : 2 ^ 16 * t ||| i = 2 ^ 16 * t + i :=
    (Nat.mul_add_lt_is_or (by omega : i < 2 ^ 16) t).symm
  rw [h1, h2]
  apply Nat.mod_eq_of_lt
  omega

/-- C1: for every world and every 32-bit id whose type `id >> 16` is one of the ten
obstacle kinds and whose index `id & 0xffff` is below the size of the list the
accessor of that kind returns, `getObstacleFromID` returns exactly the element of
that list at that index. -/
theorem getObstacleFromID_returns_accessor_element (m : GroupDefinitionMgr) (id : Nat)
    (hid : id < 2 ^ 32) (l : ObstacleList) (hidx : id &&& 0xffff < l.length) :
    (id >>> 16 = wallType → m.getWalls = some l →
      getObstacleFromID m id = some (some (l.get ⟨id &&& 0xffff, hidx⟩))) ∧
    (id >>> 16 = boxType → m.getBoxes = some l →
      getObstacleFromID m id = some (some (l.get ⟨id &&& 0xffff, hidx⟩))) ∧
    (id >>> 16 = pyrType → m.getPyrs = some l →
      getObstacleFromID m id = some (some (l.get ⟨id &&& 0xffff, hidx⟩))) ∧
    (id >>> 16 = baseType → m.getBases = some l →
      getObstacleFromID m id = some (some (l.get ⟨id &&& 0xffff, hidx⟩))) ∧
    (id >>> 16 = teleType → m.getTeles = some l →
      getObstacleFromID m id = some (some (l.get ⟨id &&& 0xffff, hidx⟩))) ∧
    (id >>> 16 = meshType → m.getMeshes = some l →
      getObstacleFromID m id = some (some (l.get ⟨id &&& 0xffff, hidx⟩))) ∧
    (id >>> 16 = arcType → m.getArcs = some l →
      getObstacleFromID m id = some (some (l.get ⟨id &&& 0xffff, hidx⟩))) ∧
    (id >>> 16 = coneType → m.getCones = some l →
      getObstacleFromID m id = some (some (l.get ⟨id &&& 0xffff, hidx⟩))) ∧
    (id >>> 16 = sphereType → m.getSpheres = some l →
      getObstacleFromID m id = some (some (l.get ⟨id &&& 0xffff, hidx⟩))) ∧
    (id >>> 16 = tetraType → m.getTetras = some l →
      getObstacleFromID m id = some (some (l.get ⟨id &&& 0xffff, hidx⟩))) :=
  ⟨getObstacleFromID_hit m id hid wallType (by decide) l hidx,
   getObstacleFromID_hit m id hid boxType (by decide) l hidx,
   getObstacleFromID_hit m id hid pyrType (by decide) l hidx,
   getObstacleFromID_hit m id hid baseType (by decide) l hidx,
   getObstacleFromID_hit m id hid teleType (by decide) l hidx,
   getObstacleFromID_hit m id hid meshType (by decide) l hidx,
   getObstacleFromID_hit m id hid arcType (by decide) l hidx,
   getObstacleFromID_hit m id hid coneType (by decide) l hidx,
   getObstacleFromID_hit m id hid sphereType (by decide) l hidx,
   getObstacleFromID_hit m id hid tetraType (by decide) l hidx⟩

/-- Witness for C1: id `0x20001` (pyramid list, index 1) in the sample world is the
second element of `getPyrs`. -/
theorem getObstacleFromID_returns_accessor_element_witness :
    0x20001 < 2 ^ 32 ∧ 0x20001 &&& 0xffff < [samplePyr, sampleBox].length ∧
    0x20001 >>> 16 = pyrType ∧ sampleMgr.getPyrs = some [samplePyr, sampleBox] ∧
    getObstacleFromID sampleMgr 0x20001 = some (some sampleBox) :=
  ⟨by decide, by decide, by decide, rfl,
   (getObstacleFromID_returns_accessor_element sampleMgr 0x20001 (by decide)
      [samplePyr, sampleBox] (by decide)).2.2.1 (by decide) rfl⟩

/-- C2: for every world and every 32-bit id, `getObstacleFromID` returns `NULL`
when the index `id & 0xffff` is at or beyond the size of the bucket selected by the
type `id >> 16`, and when the type is `ObstacleTypeCount` or larger. -/
theorem getObstacleFromID_not_found (m : GroupDefinitionMgr) (id : Nat)
    (hid : id < 2 ^ 32) :
    (∀ l : ObstacleList, m.world.getList (id >>> 16) = some l →
      l.length ≤ id &&& 0xffff → getObstacleFromID m id = some none) ∧
    (ObstacleTypeCount ≤ id >>> 16 → getObstacleFromID m id = some none) := by
  have e := idType_eq id hid
  constructor
  · intro l hl hlen
    by_cases ht : idType id < ObstacleTypeCount
    · rw [getObstacleFromID_case m id (idType id) ht rfl, e, hl, idListID_eq]
      exact lookupIn_ge l _ hlen
    · exact getObstacleFromID_other m id (by omega)
  · intro ht
    exact getObstacleFromID_other m id (by rw [e]; exact ht)

/-- Witness for C2: in the sample world, index 7 of the box bucket and type
`ObstacleTypeCount` are both answered with `NULL`. -/
theorem getObstacleFromID_not_found_witness :
    0x10007 < 2 ^ 32 ∧ 0xA0000 < 2 ^ 32 ∧
    getObstacleFromID sampleMgr 0x10007 = some none ∧
    getObstacleFromID sampleMgr 0xA0000 = some none :=
  ⟨by decide, by decide,
   (getObstacleFromID_not_found sampleMgr 0x10007 (by decide)).1 [sampleBox] rfl
     (by decide),
   (getObstacleFromID_not_found sampleMgr 0xA0000 (by decide)).2 (by decide)⟩

/-- C3: `getObstacleFromID` never reads outside an array: for every world and every
id the lookup ends with a value (an obstacle or `NULL`), never in the branch of a
failed access, and each of the ten bucket selections is inside `lists`. -/
theorem getObstacleFromID_never_faults (m : GroupDefinitionMgr) (id : Nat) :
    (∃ r, getObstacleFromID m id = some r) ∧
    m.getWalls ≠ none ∧ m.getBoxes ≠ none ∧ m.getPyrs ≠ none ∧ m.getBases ≠ none ∧
    m.getTeles ≠ none ∧ m.getMeshes ≠ none ∧ m.getArcs ≠ none ∧ m.getCones ≠ none ∧
    m.getSpheres ≠ none ∧ m.getTetras ≠ none := by
  have acc : ∀ t, t < ObstacleTypeCount → m.world.getList t ≠ none := by
    intro t ht
    obtain ⟨l, hl⟩ := getList_some m.world t ht
    rw [hl]
    exact Option.some_ne_none l
  refine ⟨?_, acc _ (by decide), acc _ (by decide), acc _ (by decide), acc _ (by decide),
    acc _ (by decide), acc _ (by decide), acc _ (by decide), acc _ (by decide),
    acc _ (by decide), acc _ (by decide)⟩
  by_cases ht : idType id < ObstacleTypeCount
  · obtain ⟨l, hl⟩ := getList_some m.world (idType id) ht
    rw [getObstacleFromID_case m id (idType id) ht rfl, hl]
    exact lookupIn_some l _
  · exact ⟨none, getObstacleFromID_other m id (by omega)⟩

/-- C4: for every type `t < 65536` and index `i < 65536` the id `(t << 16) | i` is
decoded back to type `t` and index `i`, both as `id >> 16`, `id & 0xffff` and as the
two locals of `getObstacleFromID`; two different pairs never share an id. -/
theorem typedID_roundtrip (t i : Nat) (ht : t < 65536) (hi : i < 65536) :
    typedID t i >>> 16 = t ∧ typedID t i &&& 0xffff = i ∧
    idType (typedID t i) = t ∧ idListID (typedID t i) = i ∧
    (∀ t2 i2 : Nat, t2 < 65536 → i2 < 65536 → typedID t2 i2 = typedID t i →
      t2 = t ∧ i2 = i) := by
  have e := typedID_eq t i ht hi
  have hlt : typedID t i < 2 ^ 32 := by rw [e]; omega
  have h1 : typedID t i >>> 16 = t := by
    rw [Nat.shiftRight_eq_div_pow, e]; omega
  have h2 : typedID t i &&& 0xffff = i := by
    have h : typedID t i &&& 0xffff = typedID t i % 2 ^ 16 :=
      Nat.and_pow_two_sub_one_eq_mod _ 16
    rw [h, e]; omega
  refine ⟨h1, h2, ?_, ?_, ?_⟩
  · rw [idType_eq _ hlt]; exact h1
  · rw [idListID_eq]; exact h2
  · intro t2 i2 ht2 hi2 heq
    rw [e, typedID_eq t2 i2 ht2 hi2] at heq
    omega

/-- Witness for C4: type 7 (cone), index 300. -/
theorem typedID_roundtrip_witness :
    typedID 7 300 = 0x7012C ∧ idType 0x7012C = 7 ∧ idListID 0x7012C = 300 :=
  ⟨by decide, (typedID_roundtrip 7 300 (by decide) (by decide)).2.2.1,
   (typedID_roundtrip 7 300 (by decide) (by decide)).2.2.2.1⟩

end GroupDefinitionMgr

/-! ## Template expansion: theorems -/

section Instances

variable (nm : Naming)
  (recurse : List GroupDefinition → String → MeshTransform → ObstacleModifier →
    GroupDefinition → Expansion)
  (depthName : String) (xform : MeshTransform) (obsMod : ObstacleModifier)

end Instances

section Invariant

variable (nm : Naming) (Q : ObstacleModifier → Prop) (R : Obstacle → Prop)

end Invariant

theorem swapAll_nil (mat : Nat) : ObstacleModifier.swapAll [] mat = mat := rfl

theorem execute_noMods (o : Obstacle) : ObstacleModifier.noMods.execute o = o := by
  cases o
  simp [ObstacleModifier.execute, ObstacleModifier.noMods, swapAll_nil]

/-- C10: the worked example.  With the template `"T"` (one box at the origin of size
(1,1,1)) registered and a top-level instance of `"T"` with transform
translate(5,0,0) and team 2, `makeWorld` gives a world whose `getBoxes` has exactly
one element, at effective position (5,0,0), with team 2. -/
theorem worked_example_one_box (nm : Naming) :
    ∃ b : Obstacle,
      (GroupDefinitionMgr.makeWorld nm exampleMgr).map GroupDefinitionMgr.getBoxes =
        some (some [b]) ∧
      b.effectivePos = ⟨5, 0, 0⟩ ∧ b.team = 2 ∧ b.size = ⟨1, 1, 1⟩ :=
  ⟨{ sampleBox with transform := MeshTransform.translate 5 0 0, team := 2 },
   rfl, rfl, rfl, rfl⟩

/-! ## Wire encoding: theorems -/

theorem unpackN_packAll {α : Type} (c : Codec α) :
    ∀ (l : List α), (∀ a ∈ l, c.RoundTrips a) →
      ∀ rest, unpackN c l.length (packAll c l ++ rest) = some (l, rest) := by
  intro l
  induction l with
  | nil => intro _ rest; simp [unpackN, packAll]
  | cons a as ih =>
    intro h rest
    have ha : c.RoundTrips a := h a (List.mem_cons_self a as)
    have has := ih (fun b hb => h b (List.mem_cons_of_mem a hb)) rest
    have e : packAll c (a :: as) ++ rest = c.pack a ++ (packAll c as ++ rest) := by
      simp [packAll]
    rw [e]
    simp only [List.length_cons, unpackN, ha (packAll c as ++ rest), has]

theorem unpackCounted_packCounted {α : Type} (w : Wire) (c : Codec α) (l : List α)
    (hn : w.count.RoundTrips l.length) (h : ∀ a ∈ l, c.RoundTrips a) :
    ∀ rest, unpackCounted w c (packCounted w c l ++ rest) = some (l, rest) := by
  intro rest
  simp only [unpackCounted, packCounted, List.append_assoc, hn (packAll c l ++ rest)]
  exact unpackN_packAll c l h rest

theorem unpackOptional_packOptional {α : Type} (w : Wire) (c : Codec α) (init : α)
    (set : Bool) (v : α) (hf : ∀ b : Bool, w.flag.RoundTrips b) (hv : c.RoundTrips v)
    (hinit : set = false → v = init) :
    ∀ rest, unpackOptional w c init (packOptional w c set v ++ rest) =
      some ((set, v), rest) := by
  intro rest
  cases set with
  | false =>
    simp only [unpackOptional, packOptional, Bool.false_eq_true, if_false, List.append_nil,
      hf false rest, hinit rfl]
  | true =>
    simp only [unpackOptional, packOptional, if_true, List.append_assoc,
      hf true (c.pack v ++ rest), hv rest]

theorem swapCodec_roundTrips (w : Wire) (p : Nat × Nat) (h1 : w.material.RoundTrips p.1)
    (h2 : w.material.RoundTrips p.2) : (swapCodec w).RoundTrips p := by
  intro rest
  simp only [swapCodec, List.append_assoc, h1 (w.material.pack p.2 ++ rest), h2 rest]

theorem instanceCodec_roundTrips (w : Wire) (g : GroupInstance)
    (hf : ∀ b : Bool, w.flag.RoundTrips b) (hw : w.CarriesInstance g)
    (hg : g.InitialWhereUnset) : (instanceCodec w).RoundTrips g := by
  obtain ⟨h1, h2, h3, h4, h5, h6, h7, h8, h9, h10, h11⟩ := hw
  obtain ⟨g1, g2, g3, g4⟩ := hg
  intro rest
  have hname : (g.name != "") = false → g.name = (GroupInstance.new "").name := by
    intro h; simpa [GroupInstance.new] using h
  have hdt : (g.driveThrough != 0) = false → g.driveThrough = (GroupInstance.new "").driveThrough := by
    intro h; simpa [GroupInstance.new] using h
  have hst : (g.shootThrough != 0) = false → g.shootThrough = (GroupInstance.new "").shootThrough := by
    intro h; simpa [GroupInstance.new] using h
  have hswap := unpackCounted_packCounted w (swapCodec w) g.matMap h10
    (fun p hp => swapCodec_roundTrips w p (h11 p hp).1 (h11 p hp).2)
  simp only [instanceCodec, GroupInstance.pack, GroupInstance.unpack, List.append_assoc,
    h1 _, h2 _, hf _ _, hswap _,
    unpackOptional_packOptional w w.string _ _ _ hf h3 hname _,
    unpackOptional_packOptional w w.int _ _ _ hf h4 g1 _,
    unpackOptional_packOptional w w.color _ _ _ hf h5 g2 _,
    unpackOptional_packOptional w w.int _ _ _ hf h6 g3 _,
    unpackOptional_packOptional w w.material _ _ _ hf h7 g4 _,
    unpackOptional_packOptional w w.mask _ _ _ hf h8 hdt _,
    unpackOptional_packOptional w w.mask _ _ _ hf h9 hst _,
    Option.bind_eq_bind, Option.some_bind, Option.pure_def]

theorem bucketCodec_roundTrips (w : Wire) (l : ObstacleList)
    (hn : w.count.RoundTrips l.length) (h : ∀ o ∈ l, w.obstacle.RoundTrips o) :
    (bucketCodec w).RoundTrips l :=
  unpackCounted_packCounted w w.obstacle l hn h

/-- C5: whenever the leaf encodings carry the values of a group definition `d` and
the fields of its group instances that no mutator has set hold their initial
values, unpacking what `d.pack` wrote (whatever follows it in the stream) into a
fresh definition consumes exactly those bytes and yields a definition with the same
name, for every obstacle type the same bucket (same obstacles, same order, same
attribute values), and the same ordered list of group instances. -/
theorem pack_unpack_roundtrip (w : Wire) (d : GroupDefinition) (hw : w.Carries d)
    (hg : ∀ g ∈ d.groups, g.InitialWhereUnset) (rest : List Nat) :
    ∃ d2, GroupDefinition.unpack w (d.pack w ++ rest) = some (d2, rest) ∧
      d2.getName = d.getName ∧ d2.lists = d.lists ∧
      (∀ type, d2.getList type = d.getList type) ∧ d2.getGroups = d.getGroups := by
  obtain ⟨hf, hname, hlists, hcount, hgroups⟩ := hw
  have h1 := unpackN_packAll (bucketCodec w) d.lists
    (fun l hl => bucketCodec_roundTrips w l (hlists l hl).1 (hlists l hl).2)
  have h2 := unpackCounted_packCounted w (instanceCodec w) d.groups hcount
    (fun g hgm => instanceCodec_roundTrips w g hf (hgroups g hgm) (hg g hgm))
  rw [d.size_lists] at h1
  refine ⟨{ name := d.name, lists := d.lists, size_lists := d.size_lists,
            groups := d.groups, active := false }, ?_, rfl, rfl, fun _ => rfl, rfl⟩
  simp only [GroupDefinition.unpack, GroupDefinition.pack, List.append_assoc, hname _, h1 _,
    h2 _, d.size_lists, dite_true]

/-- Witness for C5: the sample wire carries `packedSample`, whose instances are as
the mutators leave them; its bytes, followed by two more, decode to the same name,
buckets and instances, and the two bytes are left over. -/
theorem pack_unpack_roundtrip_witness :
    sampleWire.Carries packedSample ∧ (∀ g ∈ packedSample.groups, g.InitialWhereUnset) ∧
    ∃ d2, GroupDefinition.unpack sampleWire (packedSample.pack sampleWire ++ [7, 7]) =
        some (d2, [7, 7]) ∧
      d2.getName = "outer" ∧
      d2.lists = [[], [sampleBox], [samplePyr], [], [], [], [], [], [], []] ∧
      d2.getGroups = [instanceOfT, swappingInstance] := by
  have hlists : packedSample.lists =
      [[], [sampleBox], [samplePyr], [], [], [], [], [], [], []] := rfl
  have hgroups : packedSample.groups = [instanceOfT, swappingInstance] := rfl
  have hc : sampleWire.Carries packedSample := by
    refine ⟨fun b rest => by cases b <;> rfl, fun _ => rfl, ?_, fun _ => rfl, ?_⟩
    · intro l hl
      rw [hlists] at hl
      simp only [List.mem_cons, List.mem_singleton, List.not_mem_nil, or_false] at hl
      rcases hl with rfl | rfl | rfl | rfl | rfl | rfl | rfl | rfl | rfl | rfl
      all_goals refine ⟨fun _ => rfl, fun o ho => ?_⟩
      all_goals simp only [List.mem_singleton, List.not_mem_nil] at ho
      all_goals (subst ho; exact fun _ => rfl)
    · intro g hg
      rw [hgroups] at hg
      simp only [List.mem_cons, List.mem_singleton, List.not_mem_nil, or_false] at hg
      rcases hg with rfl | rfl
      · exact ⟨fun _ => rfl, fun _ => rfl, fun _ => rfl, fun _ => rfl, fun _ => rfl,
          fun _ => rfl, fun _ => rfl, fun _ => rfl, fun _ => rfl, fun _ => rfl,
          fun p hp => by simp [instanceOfT, GroupInstance.setTeam, GroupInstance.setTransform,
            GroupInstance.new] at hp⟩
      · refine ⟨fun _ => rfl, fun _ => rfl, fun _ => rfl, fun _ => rfl, fun _ => rfl,
          fun _ => rfl, fun _ => rfl, fun _ => rfl, fun _ => rfl, fun _ => rfl,
          fun p hp => ?_⟩
        have hm : swappingInstance.matMap = [(1, 2)] := rfl
        rw [hm] at hp
        simp only [List.mem_singleton] at hp
        subst hp
        exact ⟨fun _ => rfl, fun _ => rfl⟩
  have hi : ∀ g ∈ packedSample.groups, g.InitialWhereUnset := by
    intro g hg
    rw [hgroups] at hg
    simp only [List.mem_cons, List.mem_singleton, List.not_mem_nil, or_false] at hg
    rcases hg with rfl | rfl
    · exact ⟨fun h => by simp [instanceOfT, GroupInstance.setTeam] at h, fun _ => rfl,
        fun _ => rfl, fun _ => rfl⟩
    · exact ⟨fun _ => rfl, fun _ => rfl, fun _ => rfl, fun _ => rfl⟩
  refine ⟨hc, hi, ?_⟩
  obtain ⟨d2, h1, h2, h3, _, h5⟩ := pack_unpack_roundtrip sampleWire packedSample hc hi [7, 7]
  exact ⟨d2, h1, h2, h3, h5⟩

/-! ## The cone reader: theorems -/

theorem getList_addObstacle_same (d : GroupDefinition) (o : Obstacle) :
    (d.addObstacle o).getList o.type.toNat =
      (d.getList o.type.toNat).map (fun l => l ++ [o]) := by
  have h : o.type.toNat < d.lists.length := by
    rw [d.size_lists]
    cases o.type <;> decide
  simp [GroupDefinition.addObstacle, GroupDefinition.getList, List.getElem?_set, h,
    List.getElem?_eq_getElem]

theorem getList_addObstacle_ne (d : GroupDefinition) (o : Obstacle) (t : Nat)
    (h : t ≠ o.type.toNat) : (d.addObstacle o).getList t = d.getList t := by
  simp [GroupDefinition.addObstacle, GroupDefinition.getList, List.getElem?_set_ne (Ne.symm h)]

/-- C11: `CustomCone::writeToGroupDef` inserts the cone only when it is valid.  If
the cone built from the object's fields passes `isValid`, the group definition
afterwards is the one before with exactly that cone, carrying the object's name,
added by `addObstacle`: the bucket of the cone's type has it appended, every other
bucket, the group instances and the name are as before.  If the cone fails
`isValid`, the group definition is unchanged. -/
theorem writeToGroupDef_adds_only_valid {σ : Type} (env : ConeWorld σ) (c : CustomCone)
    (mgr : σ) (groupdef : GroupDefinition) :
    (env.isValid (CustomCone.newCone env c (CustomCone.addMaterials env mgr c.materials).2)
        = true →
      (CustomCone.writeToGroupDef env c mgr groupdef).2 =
        groupdef.addObstacle
          (CustomCone.newCone env c (CustomCone.addMaterials env mgr c.materials).2) ∧
      (CustomCone.newCone env c (CustomCone.addMaterials env mgr c.materials).2).name =
        c.name ∧
      (CustomCone.writeToGroupDef env c mgr groupdef).2.getList
          (CustomCone.newCone env c
            (CustomCone.addMaterials env mgr c.materials).2).type.toNat =
        (groupdef.getList (CustomCone.newCone env c
            (CustomCone.addMaterials env mgr c.materials).2).type.toNat).map
          (fun l => l ++
            [CustomCone.newCone env c (CustomCone.addMaterials env mgr c.materials).2]) ∧
      (∀ t, t ≠ (CustomCone.newCone env c
            (CustomCone.addMaterials env mgr c.materials).2).type.toNat →
        (CustomCone.writeToGroupDef env c mgr groupdef).2.getList t = groupdef.getList t) ∧
      (CustomCone.writeToGroupDef env c mgr groupdef).2.getGroups = groupdef.getGroups ∧
      (CustomCone.writeToGroupDef env c mgr groupdef).2.getName = groupdef.getName) ∧
    (env.isValid (CustomCone.newCone env c (CustomCone.addMaterials env mgr c.materials).2)
        = false →
      (CustomCone.writeToGroupDef env c mgr groupdef).2 = groupdef) := by
  constructor
  · intro hv
    have e : (CustomCone.writeToGroupDef env c mgr groupdef).2 =
        groupdef.addObstacle
          (CustomCone.newCone env c (CustomCone.addMaterials env mgr c.materials).2) := by
      simp [CustomCone.writeToGroupDef, hv]
    refine ⟨e, rfl, ?_, ?_, ?_, ?_⟩
    · rw [e]; exact getList_addObstacle_same groupdef _
    · intro t ht; rw [e]; exact getList_addObstacle_ne groupdef _ t ht
    · rw [e]; rfl
    · rw [e]; rfl
  · intro hv
    simp [CustomCone.writeToGroupDef, hv]

/-- Witness for C11: the default cone is valid in the sample cone world and lands,
named `"c1"`, in the cone bucket of `"T"`; flattened to height zero it is invalid
and `"T"` stays as it was. -/
theorem writeToGroupDef_adds_only_valid_witness :
    ((CustomCone.writeToGroupDef sampleConeWorld sampleCone [] templateT).2.lists.map
        (fun l => l.map (fun o => o.name)) =
      [[], ["box"], [], [], [], [], [], ["c1"], [], []]) ∧
    (CustomCone.writeToGroupDef sampleConeWorld sampleCone [] templateT).2 =
      templateT.addObstacle (CustomCone.newCone sampleConeWorld sampleCone
        (CustomCone.addMaterials sampleConeWorld [] sampleCone.materials).2) ∧
    (CustomCone.writeToGroupDef sampleConeWorld flatCone [] templateT).2 = templateT :=
  ⟨by decide,
   ((writeToGroupDef_adds_only_valid sampleConeWorld sampleCone [] templateT).1 rfl).1,
   (writeToGroupDef_adds_only_valid sampleConeWorld flatCone [] templateT).2 rfl⟩

/-! ## The convenience accessors: theorems -/

/-- C12: each of the ten convenience accessors returns the world definition's
bucket for its own obstacle type; the ten types are pairwise different, so no two
accessors share a bucket; and `getObstacleFromID` looks every type tag up in the
accessor of that same type. -/
theorem accessors_select_own_bucket (m : GroupDefinitionMgr) :
    (m.getWalls = m.world.getList wallType ∧ m.getBoxes = m.world.getList boxType ∧
      m.getPyrs = m.world.getList pyrType ∧ m.getBases = m.world.getList baseType ∧
      m.getTeles = m.world.getList teleType ∧ m.getMeshes = m.world.getList meshType ∧
      m.getArcs = m.world.getList arcType ∧ m.getCones = m.world.getList coneType ∧
      m.getSpheres = m.world.getList sphereType ∧
      m.getTetras = m.world.getList tetraType) ∧
    [wallType, boxType, pyrType, baseType, teleType, meshType, arcType, coneType,
      sphereType, tetraType].Nodup ∧
    (∀ id : Nat,
      (GroupDefinitionMgr.idType id = wallType → GroupDefinitionMgr.getObstacleFromID m id =
        GroupDefinitionMgr.lookupIn m.getWalls (GroupDefinitionMgr.idListID id)) ∧
      (GroupDefinitionMgr.idType id = boxType → GroupDefinitionMgr.getObstacleFromID m id =
        GroupDefinitionMgr.lookupIn m.getBoxes (GroupDefinitionMgr.idListID id)) ∧
      (GroupDefinitionMgr.idType id = pyrType → GroupDefinitionMgr.getObstacleFromID m id =
        GroupDefinitionMgr.lookupIn m.getPyrs (GroupDefinitionMgr.idListID id)) ∧
      (GroupDefinitionMgr.idType id = baseType → GroupDefinitionMgr.getObstacleFromID m id =
        GroupDefinitionMgr.lookupIn m.getBases (GroupDefinitionMgr.idListID id)) ∧
      (GroupDefinitionMgr.idType id = teleType → GroupDefinitionMgr.getObstacleFromID m id =
        GroupDefinitionMgr.lookupIn m.getTeles (GroupDefinitionMgr.idListID id)) ∧
      (GroupDefinitionMgr.idType id = meshType → GroupDefinitionMgr.getObstacleFromID m id =
        GroupDefinitionMgr.lookupIn m.getMeshes (GroupDefinitionMgr.idListID id)) ∧
      (GroupDefinitionMgr.idType id = arcType → GroupDefinitionMgr.getObstacleFromID m id =
        GroupDefinitionMgr.lookupIn m.getArcs (GroupDefinitionMgr.idListID id)) ∧
      (GroupDefinitionMgr.idType id = coneType → GroupDefinitionMgr.getObstacleFromID m id =
        GroupDefinitionMgr.lookupIn m.getCones (GroupDefinitionMgr.idListID id)) ∧
      (GroupDefinitionMgr.idType id = sphereType →
        GroupDefinitionMgr.getObstacleFromID m id =
          GroupDefinitionMgr.lookupIn m.getSpheres (GroupDefinitionMgr.idListID id)) ∧
      (GroupDefinitionMgr.idType id = tetraType →
        GroupDefinitionMgr.getObstacleFromID m id =
          GroupDefinitionMgr.lookupIn m.getTetras (GroupDefinitionMgr.idListID id))) := by
  refine ⟨⟨rfl, rfl, rfl, rfl, rfl, rfl, rfl, rfl, rfl, rfl⟩, by decide, ?_⟩
  intro id
  exact ⟨GroupDefinitionMgr.getObstacleFromID_case m id wallType (by decide),
    GroupDefinitionMgr.getObstacleFromID_case m id boxType (by decide),
    GroupDefinitionMgr.getObstacleFromID_case m id pyrType (by decide),
    GroupDefinitionMgr.getObstacleFromID_case m id baseType (by decide),
    GroupDefinitionMgr.getObstacleFromID_case m id teleType (by decide),
    GroupDefinitionMgr.getObstacleFromID_case m id meshType (by decide),
    GroupDefinitionMgr.getObstacleFromID_case m id arcType (by decide),
    GroupDefinitionMgr.getObstacleFromID_case m id coneType (by decide),
    GroupDefinitionMgr.getObstacleFromID_case m id sphereType (by decide),
    GroupDefinitionMgr.getObstacleFromID_case m id tetraType (by decide)⟩

/-- Witness for C12: in the sample world `getBoxes` and `getPyrs` are the buckets
at positions 1 and 2, and the id `0x20001` (type tag 2) is looked up in
`getPyrs`. -/
theorem accessors_select_own_bucket_witness :
    sampleMgr.getBoxes = some [sampleBox] ∧ sampleMgr.getPyrs = some [samplePyr, sampleBox] ∧
    GroupDefinitionMgr.idType 0x20001 = pyrType ∧
    GroupDefinitionMgr.getObstacleFromID sampleMgr 0x20001 =
      GroupDefinitionMgr.lookupIn sampleMgr.getPyrs (GroupDefinitionMgr.idListID 0x20001) :=
  ⟨rfl, rfl, by decide,
   ((accessors_select_own_bucket sampleMgr).2.2 0x20001).2.2.1 (by decide)⟩

end ObstacleMgr

/-! # Colour parsing: theorems -/

namespace ParseColor

theorem parseHexChar_neg_iff (c : Nat) : parseHexChar c < 0 ↔ isHexDigit c = false := by
  unfold parseHexChar tolower isHexDigit
  split_ifs <;> simp <;> omega

theorem parseHexChar_eq_hexValue (c : Nat) (h : isHexDigit c = true) :
    parseHexChar c = (hexValue c : Int) := by
  unfold isHexDigit at h
  unfold parseHexChar tolower hexValue
  simp at h
  split_ifs <;> omega

theorem charAt_nil (i : Nat) : charAt [] i = 0 := by simp [charAt]

theorem charAt_cons_zero (c : Nat) (cs : List Nat) : charAt (c :: cs) 0 = c := by
  simp [charAt]

theorem charAt_cons_succ (c : Nat) (cs : List Nat) (i : Nat) :
    charAt (c :: cs) (i + 1) = charAt cs i := by
  simp [charAt]

theorem charAt_eq_drop (s : List Nat) : ∀ i, charAt s i = charAt (s.drop i) 0 := by
  induction s with
  | nil => intro i; simp [charAt]
  | cons c cs ih =>
    intro i
    cases i with
    | zero => rfl
    | succ j => rw [charAt_cons_succ, ih j]; rfl

theorem endsWord_iff (c : Nat) : endsWord c = true ↔ c = 0 ∨ isspace c = true := by
  simp [endsWord]

theorem hexLoop_eq_from (s : List Nat) :
    ∀ fuel index bytes, hexLoop s fuel index bytes = hexLoopFrom fuel (s.drop index) index bytes := by
  intro fuel
  induction fuel with
  | zero => intro index bytes; simp [hexLoop, hexLoopFrom]
  | succ n ih =>
    intro index bytes
    have hc := charAt_eq_drop s index
    cases hd : s.drop index with
    | nil =>
      rw [hd, charAt_nil] at hc
      simp [hexLoop, hexLoopFrom, hc]
    | cons c cs =>
      rw [hd, charAt_cons_zero] at hc
      have hd2 : s.drop (index + 1) = cs := by
        rw [← List.drop_drop, hd]; rfl
      simp only [hexLoop, hexLoopFrom, hc, ih, hd2, ← endsWord_iff]

theorem word_nil : word [] = [] := rfl

theorem word_cons_end (c : Nat) (cs : List Nat) (h : endsWord c = true) :
    word (c :: cs) = [] := by
  simp [word, List.takeWhile, h]

theorem word_cons (c : Nat) (cs : List Nat) (h : endsWord c = false) :
    word (c :: cs) = c :: word cs := by
  simp [word, List.takeWhile, h]

theorem hexLoopFrom_word :
    ∀ (fuel : Nat) (t : List Nat) (index : Nat) (bytes : List Int),
      hexLoopFrom fuel t index bytes =
        if (∀ c ∈ (word t).take fuel, isHexDigit c = true) then
          some (index + min fuel (word t).length,
            bytes ++ ((word t).take fuel).map parseHexChar)
        else none := by
  intro fuel
  induction fuel with
  | zero => intro t index bytes; simp [hexLoopFrom]
  | succ n ih =>
    intro t index bytes
    cases t with
    | nil => simp [hexLoopFrom, word_nil]
    | cons c cs =>
      cases he : endsWord c with
      | true => simp [hexLoopFrom, he, word_cons_end c cs he]
      | false =>
        rw [word_cons c cs he]
        by_cases hx : parseHexChar c < 0
        · have hd := (parseHexChar_neg_iff c).1 hx
          simp [hexLoopFrom, he, hx, hd]
        · have hd : isHexDigit c = true := by
            cases h : isHexDigit c with
            | true => rfl
            | false => exact absurd ((parseHexChar_neg_iff c).2 h) hx
          simp only [hexLoopFrom, he, hx, ih, List.take_succ_cons, List.forall_mem_cons,
            List.length_cons, List.map_cons, Bool.false_eq_true, if_false, hd, true_and]
          by_cases hall : ∀ x ∈ (word cs).take n, isHexDigit x = true
          · rw [if_pos hall, if_pos hall]
            have e1 : index + 1 + min n (word cs).length =
                index + min (n + 1) ((word cs).length + 1) := by omega
            rw [e1]
            simp
          · rw [if_neg hall, if_neg hall]

theorem endsWord_charAt_word (s : List Nat) : endsWord (charAt s (word s).length) = true := by
  induction s with
  | nil => simp [word_nil, charAt_nil, endsWord]
  | cons c cs ih =>
    cases he : endsWord c with
    | true => simp [word_cons_end c cs he, charAt_cons_zero, he]
    | false => simp [word_cons c cs he, charAt_cons_succ, ih]

theorem endsWord_charAt_lt (s : List Nat) :
    ∀ i, i < (word s).length → endsWord (charAt s i) = false := by
  induction s with
  | nil => intro i h; simp [word_nil] at h
  | cons c cs ih =>
    intro i h
    cases he : endsWord c with
    | true => simp [word_cons_end c cs he] at h
    | false =>
      rw [word_cons c cs he] at h
      cases i with
      | zero => simpa [charAt_cons_zero] using he
      | succ j =>
        rw [charAt_cons_succ]
        exact ih j (by simpa using h)

theorem endsWord_false_iff (c : Nat) :
    endsWord c = false ↔ c ≠ 0 ∧ isspace c = false := by
  simp [endsWord]

/-- `parseHexFormat` in terms of the first word of the string. -/
theorem parseHexFormat_eq (s : List Nat) (color : fvec4) :
    parseHexFormat s color =
      if (∀ c ∈ word s, isHexDigit c = true) ∧
          ((word s).length = 3 ∨ (word s).length = 4 ∨ (word s).length = 6 ∨
            (word s).length = 8) then
        (true, hexColor (word s) color)
      else (false, color) := by
  by_cases hcond : (∀ c ∈ word s, isHexDigit c = true) ∧
      ((word s).length = 3 ∨ (word s).length = 4 ∨ (word s).length = 6 ∨
        (word s).length = 8)
  · rw [if_pos hcond]
    obtain ⟨hall, hlen4⟩ := hcond
    have hlen : (word s).length ≤ 8 := by omega
    have hmin : min 8 (word s).length = (word s).length := by omega
    have hend := endsWord_charAt_word s
    have hcheck : ¬ ((word s).length = 8 ∧ charAt s 8 ≠ 0 ∧ isspace (charAt s 8) = false) := by
      intro h
      obtain ⟨h8, h0, hs⟩ := h
      rw [h8] at hend
      have := (endsWord_false_iff (charAt s 8)).2 ⟨h0, hs⟩
      rw [this] at hend
      exact absurd hend (by decide)
    unfold parseHexFormat
    rw [hexLoop_eq_from, List.drop_zero, hexLoopFrom_word, List.take_of_length_le hlen,
      if_pos hall]
    simp only [hmin, List.nil_append, Nat.zero_add]
    rw [if_neg hcheck]
    rcases hlen4 with h | h | h | h <;> simp [h, hexColor]
  · rw [if_neg hcond]
    unfold parseHexFormat
    rw [hexLoop_eq_from, List.drop_zero, hexLoopFrom_word]
    by_cases hall8 : ∀ c ∈ (word s).take 8, isHexDigit c = true
    · rw [if_pos hall8]
      simp only [List.nil_append, Nat.zero_add]
      by_cases hlen : (word s).length ≤ 8
      · have hmin : min 8 (word s).length = (word s).length := by omega
        rw [List.take_of_length_le hlen] at hall8
        have h3 : (word s).length ≠ 3 := fun h => hcond ⟨hall8, Or.inl h⟩
        have h4 : (word s).length ≠ 4 := fun h => hcond ⟨hall8, Or.inr (Or.inl h)⟩
        have h6 : (word s).length ≠ 6 := fun h => hcond ⟨hall8, Or.inr (Or.inr (Or.inl h))⟩
        have h8 : (word s).length ≠ 8 := fun h => hcond ⟨hall8, Or.inr (Or.inr (Or.inr h))⟩
        simp [hmin, h3, h4, h6, h8]
      · have hlen2 : 8 < (word s).length := by omega
        have hmin : min 8 (word s).length = 8 := by omega
        have h8 := (endsWord_false_iff (charAt s 8)).1 (endsWord_charAt_lt s 8 hlen2)
        simp [hmin, h8.1, h8.2]
    · rw [if_neg hall8]

theorem skipWhitespace_cons_of_not_space (c : Nat) (cs : List Nat) (h : isspace c = false) :
    skipWhitespace (c :: cs) = c :: cs := by
  simp [skipWhitespace, h]

/-- After the default and the `#`, only `parseHexFormat` is left. -/
theorem parseColorCString_hash (strtof : Strtof) (s : List Nat) (color : fvec4) :
    parseColorCString strtof (35 :: s) color = parseHexFormat s white := by
  have h : skipWhitespace (35 :: s) = 35 :: s :=
    skipWhitespace_cons_of_not_space 35 s (by decide)
  simp [parseColorCString, h, charAt_cons_zero, white]

theorem parseColorCString_0x (strtof : Strtof) (s : List Nat) (color : fvec4) :
    parseColorCString strtof (48 :: 120 :: s) color = parseHexFormat s white := by
  have h : skipWhitespace (48 :: 120 :: s) = 48 :: 120 :: s :=
    skipWhitespace_cons_of_not_space 48 _ (by decide)
  simp [parseColorCString, h, charAt_cons_zero, charAt_cons_succ, white]

theorem cstr_hash : cstr "#" = [35] := by decide

theorem cstr_0x : cstr "0x" = [48, 120] := by decide

theorem parseHexFormat_false (s : List Nat) (color : fvec4)
    (h : (parseHexFormat s color).1 = false) : (parseHexFormat s color).2 = color := by
  rw [parseHexFormat_eq] at h ⊢
  split at h
  · simp at h
  · rename_i hc
    rw [if_neg hc]

theorem parseFloatFormat_false (strtof : Strtof) (s : List Nat) (color : fvec4)
    (h : (parseFloatFormat strtof s color).1 = false) :
    (parseFloatFormat strtof s color).2 = color := by
  unfold parseFloatFormat at h ⊢
  simp only at h ⊢
  split at h
  · rename_i hc
    rw [if_pos hc]
  · simp at h

/-- The body of `parseNamedFormat` with its local definitions written out. -/
theorem parseNamedFormatIn_eq (colorMap : ColorMap) (strtof : Strtof) (s : List Nat)
    (color : fvec4) :
    parseNamedFormatIn colorMap strtof s color =
      if s.length - (skipNonWhitespace s).length ≤ 0 then (false, color)
      else
        match colorMap.find
            (tolowerString (s.take (s.length - (skipNonWhitespace s).length))) with
        | none => (false, color)
        | some data =>
          if charAt (skipWhitespace (skipNonWhitespace s)) 0 = 0 then
            (true, { r := data.r, g := data.g, b := data.b, a := color.a })
          else
            match sscanfFloats strtof 1 (skipWhitespace (skipNonWhitespace s)) with
            | alpha :: _ => (true, { r := data.r, g := data.g, b := data.b, a := alpha })
            | [] => (true, { r := data.r, g := data.g, b := data.b, a := color.a }) := rfl

theorem parseNamedFormatIn_false (colorMap : ColorMap) (strtof : Strtof) (s : List Nat)
    (color : fvec4) (h : (parseNamedFormatIn colorMap strtof s color).1 = false) :
    (parseNamedFormatIn colorMap strtof s color).2 = color := by
  rw [parseNamedFormatIn_eq] at h ⊢
  by_cases hc : s.length - (skipNonWhitespace s).length ≤ 0
  · rw [if_pos hc]
  · rw [if_neg hc] at h ⊢
    cases hf : colorMap.find
        (tolowerString (s.take (s.length - (skipNonWhitespace s).length))) with
    | none => rfl
    | some data =>
      rw [hf] at h
      exfalso
      dsimp only at h
      split at h
      · simp at h
      · split at h <;> simp at h

theorem parseNamedFormat_false (strtof : Strtof) (s : List Nat) (color : fvec4)
    (h : (parseNamedFormat strtof s color).1 = false) :
    (parseNamedFormat strtof s color).2 = color :=
  parseNamedFormatIn_false getColorMap strtof s color h

/-- C13: for every string `s`, with `w` the prefix of `s` up to its first whitespace
byte or its end, `parseColorCString ("#" + s)` returns true if and only if every
byte of `w` is a hexadecimal digit and `w` has length 3, 4, 6 or 8; what follows
the first whitespace is ignored: two strings with the same `w` give the same
result and colour. -/
theorem hex_accepted_iff (strtof : Strtof) (s : List Nat) (color : fvec4) :
    ((parseColorCString strtof (cstr "#" ++ s) color).1 = true ↔
      (∀ c ∈ word s, isHexDigit c = true) ∧
        ((word s).length = 3 ∨ (word s).length = 4 ∨ (word s).length = 6 ∨
          (word s).length = 8)) ∧
    (∀ s2 : List Nat, word s2 = word s →
      parseColorCString strtof (cstr "#" ++ s2) color =
        parseColorCString strtof (cstr "#" ++ s) color) := by
  rw [cstr_hash]
  simp only [List.singleton_append]
  constructor
  · rw [parseColorCString_hash, parseHexFormat_eq]
    split
    · rename_i hc
      exact ⟨fun _ => hc, fun _ => rfl⟩
    · rename_i hc
      exact ⟨fun h => absurd h (by simp), fun h => absurd h hc⟩
  · intro s2 hw
    rw [parseColorCString_hash, parseColorCString_hash, parseHexFormat_eq,
      parseHexFormat_eq, hw]

/-- Witness for C13: `#fff` and `#FF8000 rest` are accepted; `#ff`, `#fffff`,
`#ff8000112` and `#ggg` are rejected. -/
theorem hex_accepted_iff_witness :
    (parseColorCString decimalStrtof (cstr "#" ++ cstr "fff") white).1 = true ∧
    (parseColorCString decimalStrtof (cstr "#" ++ cstr "FF8000 rest") white).1 = true ∧
    (parseColorCString decimalStrtof (cstr "#" ++ cstr "ff") white).1 = false ∧
    (parseColorCString decimalStrtof (cstr "#" ++ cstr "fffff") white).1 = false ∧
    (parseColorCString decimalStrtof (cstr "#" ++ cstr "ff8000112") white).1 = false ∧
    (parseColorCString decimalStrtof (cstr "#" ++ cstr "ggg") white).1 = false :=
  ⟨(hex_accepted_iff decimalStrtof (cstr "fff") white).1.2 (by decide),
   (hex_accepted_iff decimalStrtof (cstr "FF8000 rest") white).1.2 (by decide),
   by decide, by decide, by decide, by decide⟩

/-- C14: on a successful parse of `#` followed by hexadecimal digits, the 3- and
4-digit forms set component `k` to `value (d k) / 15`, the 6- and 8-digit forms
set it to `(16 * value (d (2k)) + value (d (2k+1))) / 255`, and the 3- and
6-digit forms leave alpha at 1. -/
theorem hex_values (strtof : Strtof) (color : fvec4) :
    (∀ (s : List Nat) (d0 d1 d2 : Nat), word s = [d0, d1, d2] →
      (∀ c ∈ [d0, d1, d2], isHexDigit c = true) →
      parseColorCString strtof (cstr "#" ++ s) color =
        (true, { r := (hexValue d0 : ℚ) / 15, g := (hexValue d1 : ℚ) / 15,
                 b := (hexValue d2 : ℚ) / 15, a := 1 })) ∧
    (∀ (s : List Nat) (d0 d1 d2 d3 : Nat), word s = [d0, d1, d2, d3] →
      (∀ c ∈ [d0, d1, d2, d3], isHexDigit c = true) →
      parseColorCString strtof (cstr "#" ++ s) color =
        (true, { r := (hexValue d0 : ℚ) / 15, g := (hexValue d1 : ℚ) / 15,
                 b := (hexValue d2 : ℚ) / 15, a := (hexValue d3 : ℚ) / 15 })) ∧
    (∀ (s : List Nat) (d0 d1 d2 d3 d4 d5 : Nat), word s = [d0, d1, d2, d3, d4, d5] →
      (∀ c ∈ [d0, d1, d2, d3, d4, d5], isHexDigit c = true) →
      parseColorCString strtof (cstr "#" ++ s) color =
        (true, { r := (16 * (hexValue d0 : ℚ) + hexValue d1) / 255,
                 g := (16 * (hexValue d2 : ℚ) + hexValue d3) / 255,
                 b := (16 * (hexValue d4 : ℚ) + hexValue d5) / 255, a := 1 })) ∧
    (∀ (s : List Nat) (d0 d1 d2 d3 d4 d5 d6 d7 : Nat),
      word s = [d0, d1, d2, d3, d4, d5, d6, d7] →
      (∀ c ∈ [d0, d1, d2, d3, d4, d5, d6, d7], isHexDigit c = true) →
      parseColorCString strtof (cstr "#" ++ s) color =
        (true, { r := (16 * (hexValue d0 : ℚ) + hexValue d1) / 255,
                 g := (16 * (hexValue d2 : ℚ) + hexValue d3) / 255,
                 b := (16 * (hexValue d4 : ℚ) + hexValue d5) / 255,
                 a := (16 * (hexValue d6 : ℚ) + hexValue d7) / 255 })) := by
  rw [cstr_hash]
  simp only [List.singleton_append]
  refine ⟨?_, ?_, ?_, ?_⟩
  · intro s d0 d1 d2 hw hd
    have h0 := parseHexChar_eq_hexValue d0 (hd d0 (by simp))
    have h1 := parseHexChar_eq_hexValue d1 (hd d1 (by simp))
    have h2 := parseHexChar_eq_hexValue d2 (hd d2 (by simp))
    rw [parseColorCString_hash, parseHexFormat_eq, hw, if_pos ⟨hd, by simp⟩]
    simp [hexColor, byteAt, white, h0, h1, h2]
  · intro s d0 d1 d2 d3 hw hd
    have h0 := parseHexChar_eq_hexValue d0 (hd d0 (by simp))
    have h1 := parseHexChar_eq_hexValue d1 (hd d1 (by simp))
    have h2 := parseHexChar_eq_hexValue d2 (hd d2 (by simp))
    have h3 := parseHexChar_eq_hexValue d3 (hd d3 (by simp))
    rw [parseColorCString_hash, parseHexFormat_eq, hw, if_pos ⟨hd, by simp⟩]
    simp [hexColor, byteAt, white, h0, h1, h2, h3]
  · intro s d0 d1 d2 d3 d4 d5 hw hd
    have h0 := parseHexChar_eq_hexValue d0 (hd d0 (by simp))
    have h1 := parseHexChar_eq_hexValue d1 (hd d1 (by simp))
    have h2 := parseHexChar_eq_hexValue d2 (hd d2 (by simp))
    have h3 := parseHexChar_eq_hexValue d3 (hd d3 (by simp))
    have h4 := parseHexChar_eq_hexValue d4 (hd d4 (by simp))
    have h5 := parseHexChar_eq_hexValue d5 (hd d5 (by simp))
    rw [parseColorCString_hash, parseHexFormat_eq, hw, if_pos ⟨hd, by simp⟩]
    simp [hexColor, pairAt, white, h0, h1, h2, h3, h4, h5]
    refine ⟨?_, ?_, ?_⟩ <;> ring
  · intro s d0 d1 d2 d3 d4 d5 d6 d7 hw hd
    have h0 := parseHexChar_eq_hexValue d0 (hd d0 (by simp))
    have h1 := parseHexChar_eq_hexValue d1 (hd d1 (by simp))
    have h2 := parseHexChar_eq_hexValue d2 (hd d2 (by simp))
    have h3 := parseHexChar_eq_hexValue d3 (hd d3 (by simp))
    have h4 := parseHexChar_eq_hexValue d4 (hd d4 (by simp))
    have h5 := parseHexChar_eq_hexValue d5 (hd d5 (by simp))
    have h6 := parseHexChar_eq_hexValue d6 (hd d6 (by simp))
    have h7 := parseHexChar_eq_hexValue d7 (hd d7 (by simp))
    rw [parseColorCString_hash, parseHexFormat_eq, hw, if_pos ⟨hd, by simp⟩]
    simp [hexColor, pairAt, white, h0, h1, h2, h3, h4, h5, h6, h7]
    refine ⟨?_, ?_, ?_, ?_⟩ <;> ring

/-- C15: the prefix `0x` is equivalent to `#`: for every string `s`,
`parseColorCString ("0x" + s)` and `parseColorCString ("#" + s)` return the same
result and leave the same colour. -/
theorem prefix_0x_same_as_hash (strtof : Strtof) (s : List Nat) (color : fvec4) :
    parseColorCString strtof (cstr "0x" ++ s) color =
      parseColorCString strtof (cstr "#" ++ s) color := by
  rw [cstr_hash, cstr_0x]
  simp only [List.singleton_append, List.cons_append, List.nil_append]
  rw [parseColorCString_hash, parseColorCString_0x]

/-- C20: `parseColorCString` defaults to opaque white: on every input on which it
returns false the colour afterwards is (1, 1, 1, 1), whatever it held before. -/
theorem false_leaves_white (strtof : Strtof) (str : List Nat) (color : fvec4)
    (h : (parseColorCString strtof str color).1 = false) :
    (parseColorCString strtof str color).2 = { r := 1, g := 1, b := 1, a := 1 } := by
  unfold parseColorCString at h ⊢
  simp only at h ⊢
  split at h
  · rename_i h0
    rw [if_pos h0]
  · rename_i h0
    rw [if_neg h0]
    split at h
    · rename_i h1
      rw [if_pos h1]
      exact parseHexFormat_false _ _ h
    · rename_i h1
      rw [if_neg h1]
      split at h
      · rename_i h2
        rw [if_pos h2]
        exact parseHexFormat_false _ _ h
      · rename_i h2
        rw [if_neg h2]
        split at h
        · rename_i h3
          rw [if_pos h3]
          exact parseFloatFormat_false strtof _ _ h
        · rename_i h3
          rw [if_neg h3]
          exact parseNamedFormat_false strtof _ _ h

/-! ### The colour map and the names -/

theorem find_assign (m : ColorMap) (k : List Nat) (v : fvec4) (key : List Nat) :
    (m.assign k v).find key = if k = key then some v else m.find key := by
  induction m with
  | nil => simp [ColorMap.assign, ColorMap.find]
  | cons p rest ih =>
    obtain ⟨k1, v1⟩ := p
    by_cases h1 : k1 = k
    · subst h1
      by_cases h2 : k1 = key
      · simp [ColorMap.assign, ColorMap.find, h2]
      · simp [ColorMap.assign, ColorMap.find, h2]
    · by_cases h2 : k1 = key
      · have h3 : ¬ k = key := fun h => h1 (h2.trans h.symm)
        subst h2
        simp [ColorMap.assign, ColorMap.find, h1, h3]
      · simp [ColorMap.assign, ColorMap.find, h1, h2, ih]

/-- Looking a key up in the filled map is looking for the last entry of the array
with that lower-cased name. -/
theorem find_fillColorMap (key : List Nat) :
    ∀ (array : List ColorArrayData) (m : ColorMap),
      (fillColorMap array m).find key =
        match array.reverse.find? (fun d => decide (tolowerString (cstr d.1) = key)) with
        | some d => some (ColorMapData d)
        | none => m.find key := by
  intro array
  induction array with
  | nil => intro m; simp [fillColorMap]
  | cons d ds ih =>
    intro m
    have e : fillColorMap (d :: ds) m =
        fillColorMap ds (m.assign (tolowerString (cstr d.1)) (ColorMapData d)) := rfl
    rw [e, ih, List.reverse_cons, List.find?_append]
    cases hf : ds.reverse.find? (fun d => decide (tolowerString (cstr d.1) = key)) with
    | some d2 => simp
    | none =>
      by_cases hk : tolowerString (cstr d.1) = key
      · simp [find_assign, hk]
      · simp [find_assign, hk]

/-- The last entry of `colorArray` with the given lower-cased name. -/
theorem getColorMap_find (key : List Nat) :
    getColorMap.find key =
      (colorArray.reverse.find? (fun d => decide (tolowerString (cstr d.1) = key))).map
        ColorMapData := by
  unfold getColorMap
  rw [find_fillColorMap]
  cases colorArray.reverse.find? (fun d => decide (tolowerString (cstr d.1) = key)) with
  | some d => rfl
  | none => rfl

theorem find?_isSome_iff_exists (key : List Nat) (array : List ColorArrayData) :
    (∃ d, array.reverse.find? (fun d => decide (tolowerString (cstr d.1) = key)) = some d) ↔
      ∃ d ∈ array, tolowerString (cstr d.1) = key := by
  constructor
  · rintro ⟨d, hd⟩
    have h1 := List.find?_some hd
    have h2 := List.mem_of_find?_eq_some hd
    exact ⟨d, List.mem_reverse.1 h2, by simpa using h1⟩
  · rintro ⟨d, hd, hk⟩
    cases hf : array.reverse.find? (fun d => decide (tolowerString (cstr d.1) = key)) with
    | some d2 => exact ⟨d2, rfl⟩
    | none =>
      rw [List.find?_eq_none] at hf
      have := hf d (List.mem_reverse.2 hd)
      simp [hk] at this

/-! ### Words and blanks -/

theorem skipNonWhitespace_eq_drop (s : List Nat) :
    skipNonWhitespace s = s.drop (word s).length := by
  induction s with
  | nil => rfl
  | cons c cs ih =>
    cases he : endsWord c with
    | true =>
      have h : ¬ (c ≠ 0 ∧ ¬ isspace c = true) := by
        intro h
        rcases (endsWord_iff c).1 he with h0 | h0
        · exact h.1 h0
        · exact h.2 h0
      rw [word_cons_end c cs he]
      simp only [skipNonWhitespace, if_neg h, List.length_nil, List.drop_zero]
    | false =>
      have h := (endsWord_false_iff c).1 he
      simp [skipNonWhitespace, h.1, h.2, word_cons c cs he, ih]

theorem word_length_le (s : List Nat) : (word s).length ≤ s.length := by
  unfold word
  exact (List.takeWhile_sublist _).length_le

theorem take_word (s : List Nat) : s.take (word s).length = word s := by
  induction s with
  | nil => rfl
  | cons c cs ih =>
    cases he : endsWord c with
    | true => simp [word_cons_end c cs he]
    | false => simp [word_cons c cs he, ih]

theorem nameLen_eq (s : List Nat) :
    s.length - (skipNonWhitespace s).length = (word s).length := by
  rw [skipNonWhitespace_eq_drop, List.length_drop]
  have := word_length_le s
  omega

theorem skipWhitespace_head (s : List Nat) :
    charAt (skipWhitespace s) 0 = 0 ∨ isspace (charAt (skipWhitespace s) 0) = false := by
  induction s with
  | nil => left; rfl
  | cons c cs ih =>
    by_cases h : c ≠ 0 ∧ isspace c = true
    · simpa [skipWhitespace, h] using ih
    · simp only [skipWhitespace, h, if_false, charAt_cons_zero]
      by_cases h0 : c = 0
      · left; exact h0
      · right
        cases hs : isspace c with
        | true => exact absurd ⟨h0, hs⟩ h
        | false => rfl

theorem skipWhitespace_idem (s : List Nat) :
    skipWhitespace (skipWhitespace s) = skipWhitespace s := by
  induction s with
  | nil => rfl
  | cons c cs ih =>
    by_cases h : c ≠ 0 ∧ isspace c = true
    · simpa [skipWhitespace, h] using ih
    · simp [skipWhitespace, h]

theorem sscanfFloats_skipWhitespace (strtof : Strtof) (n : Nat) (s : List Nat) :
    sscanfFloats strtof n (skipWhitespace s) = sscanfFloats strtof n s := by
  cases n with
  | zero => rfl
  | succ k => simp only [sscanfFloats, skipWhitespace_idem]

theorem sscanfFloats_length_le (strtof : Strtof) :
    ∀ (n : Nat) (s : List Nat), (sscanfFloats strtof n s).length ≤ n := by
  intro n
  induction n with
  | zero => intro s; simp [sscanfFloats]
  | succ k ih =>
    intro s
    simp only [sscanfFloats]
    cases strtof (skipWhitespace s) with
    | none => simp
    | some p =>
      have := ih p.2
      simp only [List.length_cons]
      omega

theorem word_ne_nil_of_head (s : List Nat) (h0 : charAt s 0 ≠ 0)
    (hs : isspace (charAt s 0) = false) : word s ≠ [] := by
  cases s with
  | nil => simp [charAt] at h0
  | cons c cs =>
    rw [charAt_cons_zero] at h0 hs
    rw [word_cons c cs ((endsWord_false_iff c).2 ⟨h0, hs⟩)]
    simp

/-- A property of every entry of `colorArray`, from the same property of each of
its parts. -/
theorem colorArray_forall (P : ColorArrayData → Prop)
    (h0 : ∀ d ∈ colorArray0, P d)
    (h1 : ∀ d ∈ colorArray1, P d)
    (h2 : ∀ d ∈ colorArray2, P d)
    (h3 : ∀ d ∈ colorArray3, P d)
    (h4 : ∀ d ∈ colorArray4, P d)
    (h5 : ∀ d ∈ colorArray5, P d)
    (h6 : ∀ d ∈ colorArray6, P d)
    (h7 : ∀ d ∈ colorArray7, P d)
    (h8 : ∀ d ∈ colorArray8, P d)
    (h9 : ∀ d ∈ colorArray9, P d)
    (h10 : ∀ d ∈ colorArray10, P d)
    (h11 : ∀ d ∈ colorArray11, P d)
    (h12 : ∀ d ∈ colorArray12, P d)
    (h13 : ∀ d ∈ colorArray13, P d)
    (h14 : ∀ d ∈ colorArray14, P d)
    (h15 : ∀ d ∈ colorArray15, P d)
    (h16 : ∀ d ∈ colorArray16, P d)
    (h17 : ∀ d ∈ colorArray17, P d)
    (h18 : ∀ d ∈ colorArray18, P d)
    (h19 : ∀ d ∈ colorArray19, P d)
    (h20 : ∀ d ∈ colorArray20, P d)
    (h21 : ∀ d ∈ colorArray21, P d)
    (h22 : ∀ d ∈ colorArray22, P d)
    (h23 : ∀ d ∈ colorArray23, P d)
    (h24 : ∀ d ∈ colorArray24, P d)
    (h25 : ∀ d ∈ colorArray25, P d)
    (h26 : ∀ d ∈ colorArray26, P d)
    (h27 : ∀ d ∈ colorArray27, P d)
    (h28 : ∀ d ∈ colorArray28, P d)
    (h29 : ∀ d ∈ colorArray29, P d)
    (h30 : ∀ d ∈ colorArray30, P d)
    (h31 : ∀ d ∈ colorArray31, P d)
    (h32 : ∀ d ∈ colorArray32, P d)
    (h33 : ∀ d ∈ colorArray33, P d)
    (h34 : ∀ d ∈ colorArray34, P d)
    (h35 : ∀ d ∈ colorArray35, P d)
    (h36 : ∀ d ∈ colorArray36, P d)
    (h37 : ∀ d ∈ colorArray37, P d)
    (h38 : ∀ d ∈ colorArray38, P d)
    (h39 : ∀ d ∈ colorArray39, P d)
    (h40 : ∀ d ∈ colorArray40, P d)
    (h41 : ∀ d ∈ colorArray41, P d)
    (h42 : ∀ d ∈ colorArray42, P d)
    (h43 : ∀ d ∈ colorArray43, P d)
    (h44 : ∀ d ∈ colorArray44, P d)
    (h45 : ∀ d ∈ colorArray45, P d)
    (h46 : ∀ d ∈ colorArray46, P d) :
    ∀ d ∈ colorArray, P d := by
  intro d hd
  simp only [colorArray, List.mem_append, or_assoc] at hd
  rcases hd with
    h | h | h | h | h | h | h | h | h | h | h | h | h | h | h | h | h | h | h | h | h | h | h |
    h | h | h | h | h | h | h | h | h | h | h | h | h | h | h | h | h | h | h | h | h | h | h |
    h
  all_goals first
    | exact h0 d h
    | exact h1 d h
    | exact h2 d h
    | exact h3 d h
    | exact h4 d h
    | exact h5 d h
    | exact h6 d h
    | exact h7 d h
    | exact h8 d h
    | exact h9 d h
    | exact h10 d h
    | exact h11 d h
    | exact h12 d h
    | exact h13 d h
    | exact h14 d h
    | exact h15 d h
    | exact h16 d h
    | exact h17 d h
    | exact h18 d h
    | exact h19 d h
    | exact h20 d h
    | exact h21 d h
    | exact h22 d h
    | exact h23 d h
    | exact h24 d h
    | exact h25 d h
    | exact h26 d h
    | exact h27 d h
    | exact h28 d h
    | exact h29 d h
    | exact h30 d h
    | exact h31 d h
    | exact h32 d h
    | exact h33 d h
    | exact h34 d h
    | exact h35 d h
    | exact h36 d h
    | exact h37 d h
    | exact h38 d h
    | exact h39 d h
    | exact h40 d h
    | exact h41 d h
    | exact h42 d h
    | exact h43 d h
    | exact h44 d h
    | exact h45 d h
    | exact h46 d h

theorem colorArray_names_nonempty : ∀ d ∈ colorArray, cstr d.1 ≠ [] :=
  colorArray_forall (fun d => cstr d.1 ≠ [])
    (by decide) (by decide) (by decide) (by decide) (by decide) (by decide) (by decide) (by
    decide) (by decide) (by decide) (by decide) (by decide) (by decide) (by decide) (by decide)
    (by decide) (by decide) (by decide) (by decide) (by decide) (by decide) (by decide) (by
    decide) (by decide) (by decide) (by decide) (by decide) (by decide) (by decide) (by decide)
    (by decide) (by decide) (by decide) (by decide) (by decide) (by decide) (by decide) (by
    decide) (by decide) (by decide) (by decide) (by decide) (by decide) (by decide) (by decide)
    (by decide) (by decide)

theorem colorArray_no_hash_fff :
    ∀ d ∈ colorArray, tolowerString (cstr d.1) ≠ tolowerString (cstr "#fff") :=
  colorArray_forall (fun d => tolowerString (cstr d.1) ≠ tolowerString (cstr "#fff"))
    (by decide) (by decide) (by decide) (by decide) (by decide) (by decide) (by decide) (by
    decide) (by decide) (by decide) (by decide) (by decide) (by decide) (by decide) (by decide)
    (by decide) (by decide) (by decide) (by decide) (by decide) (by decide) (by decide) (by
    decide) (by decide) (by decide) (by decide) (by decide) (by decide) (by decide) (by decide)
    (by decide) (by decide) (by decide) (by decide) (by decide) (by decide) (by decide) (by
    decide) (by decide) (by decide) (by decide) (by decide) (by decide) (by decide) (by decide)
    (by decide) (by decide)

theorem colorArray_red_values :
    ∀ d ∈ colorArray, tolowerString (cstr d.1) = cstr "red" → d.2 = (1000000, 0, 0) :=
  colorArray_forall (fun d => tolowerString (cstr d.1) = cstr "red" → d.2 = (1000000, 0, 0))
    (by decide) (by decide) (by decide) (by decide) (by decide) (by decide) (by decide) (by
    decide) (by decide) (by decide) (by decide) (by decide) (by decide) (by decide) (by decide)
    (by decide) (by decide) (by decide) (by decide) (by decide) (by decide) (by decide) (by
    decide) (by decide) (by decide) (by decide) (by decide) (by decide) (by decide) (by decide)
    (by decide) (by decide) (by decide) (by decide) (by decide) (by decide) (by decide) (by
    decide) (by decide) (by decide) (by decide) (by decide) (by decide) (by decide) (by decide)
    (by decide) (by decide)

theorem parseColorCString_blank (strtof : Strtof) (s : List Nat) (color : fvec4)
    (h0 : charAt (skipWhitespace s) 0 = 0) :
    parseColorCString strtof s color = (false, white) := by
  simp [parseColorCString, h0, white]

theorem startsFloat_iff (c : Nat) :
    startsFloat c = true ↔ (48 ≤ c ∧ c ≤ 57) ∨ c = 46 ∨ c = 43 ∨ c = 45 := by
  simp [startsFloat, or_assoc]

theorem parseColorCString_named (strtof : Strtof) (s : List Nat) (color : fvec4)
    (h0 : charAt (skipWhitespace s) 0 ≠ 0) (h35 : charAt (skipWhitespace s) 0 ≠ 35)
    (hf : startsFloat (charAt (skipWhitespace s) 0) = false) :
    parseColorCString strtof s color =
      parseNamedFormatIn getColorMap strtof (skipWhitespace s) white := by
  have hf2 : ¬ ((48 ≤ charAt (skipWhitespace s) 0 ∧ charAt (skipWhitespace s) 0 ≤ 57) ∨
      charAt (skipWhitespace s) 0 = 46 ∨ charAt (skipWhitespace s) 0 = 43 ∨
      charAt (skipWhitespace s) 0 = 45) := by
    intro h
    rw [(startsFloat_iff _).2 h] at hf
    exact absurd hf (by decide)
  have h48 : ¬ (charAt (skipWhitespace s) 0 = 48 ∧ charAt (skipWhitespace s) 1 = 120) := by
    intro h
    exact hf2 (Or.inl (by omega))
  unfold parseColorCString
  simp only [if_neg h0, if_neg h35, if_neg h48, if_neg hf2]
  rfl

theorem parseColorCString_float (strtof : Strtof) (s : List Nat) (color : fvec4)
    (hf : startsFloat (charAt (skipWhitespace s) 0) = true)
    (h48 : ¬ (charAt (skipWhitespace s) 0 = 48 ∧ charAt (skipWhitespace s) 1 = 120)) :
    parseColorCString strtof s color = parseFloatFormat strtof (skipWhitespace s) white := by
  have hf2 := (startsFloat_iff _).1 hf
  have h0 : charAt (skipWhitespace s) 0 ≠ 0 := by omega
  have h35 : charAt (skipWhitespace s) 0 ≠ 35 := by omega
  unfold parseColorCString
  simp only [if_neg h0, if_neg h35, if_neg h48, if_pos hf2]
  rfl

/-- The named branch, in terms of the first word and the colour array. -/
theorem parseNamedFormatIn_getColorMap (strtof : Strtof) (str : List Nat) (color : fvec4)
    (hw : word str ≠ []) :
    parseNamedFormatIn getColorMap strtof str color =
      match colorArray.reverse.find?
          (fun d => decide (tolowerString (cstr d.1) = tolowerString (word str))) with
      | none => (false, color)
      | some d =>
        if charAt (skipWhitespace (str.drop (word str).length)) 0 = 0 then
          (true, { r := millionths d.2.1, g := millionths d.2.2.1, b := millionths d.2.2.2,
                   a := color.a })
        else
          match sscanfFloats strtof 1 (skipWhitespace (str.drop (word str).length)) with
          | alpha :: _ =>
            (true, { r := millionths d.2.1, g := millionths d.2.2.1,
                     b := millionths d.2.2.2, a := alpha })
          | [] =>
            (true, { r := millionths d.2.1, g := millionths d.2.2.1,
                     b := millionths d.2.2.2, a := color.a }) := by
  have hlen : ¬ (word str).length ≤ 0 := by
    cases hw2 : word str with
    | nil => exact absurd hw2 hw
    | cons c cs => simp
  rw [parseNamedFormatIn_eq, nameLen_eq, if_neg hlen, take_word, getColorMap_find,
    skipNonWhitespace_eq_drop]
  cases colorArray.reverse.find?
      (fun d => decide (tolowerString (cstr d.1) = tolowerString (word str))) with
  | none => rfl
  | some d => rfl

/-- C16, as stated, fails on a string that starts with a blank: the first character
of `" #fff"` is a blank, not `#`, a digit, `.`, `+` or `-`, and `parseColorCString`
returns true (the hexadecimal format) although neither the bytes up to the first
whitespace (there are none) nor the word `#fff` name a colour of the table. -/
theorem leading_blank_hex_is_accepted :
    charAt (cstr " #fff") 0 = 32 ∧ startsFloat (charAt (cstr " #fff") 0) = false ∧
    (parseColorCString decimalStrtof (cstr " #fff") white).1 = true ∧
    word (cstr " #fff") = [] ∧
    (¬ ∃ d ∈ colorArray, tolowerString (cstr d.1) = tolowerString (word (cstr " #fff"))) ∧
    (¬ ∃ d ∈ colorArray, tolowerString (cstr d.1) = tolowerString (cstr "#fff")) := by
  refine ⟨by decide, by decide, by decide, by decide, ?_, ?_⟩
  · rintro ⟨d, hd, h⟩
    have hw : word (cstr " #fff") = [] := by decide
    rw [hw] at h
    have h2 : cstr d.1 = [] := by simpa [tolowerString] using h
    exact colorArray_names_nonempty d hd h2
  · rintro ⟨d, hd, h⟩
    exact colorArray_no_hash_fff d hd h

/-- C16: for every string whose first byte after leading blanks is not `#`, a digit,
`.`, `+` or `-`, `parseColorCString` returns true if and only if the lower-cased
first word after the blanks is the lower-cased form of a name in the colour table;
then red, green and blue are the values of a table entry with that name, and
alpha is 1 when nothing but whitespace follows the name. -/
theorem named_colour_iff (strtof : Strtof) (s : List Nat) (color : fvec4)
    (h35 : charAt (skipWhitespace s) 0 ≠ 35)
    (hf : startsFloat (charAt (skipWhitespace s) 0) = false) :
    ((parseColorCString strtof s color).1 = true ↔
      ∃ d ∈ colorArray,
        tolowerString (cstr d.1) = tolowerString (word (skipWhitespace s))) ∧
    ((parseColorCString strtof s color).1 = true →
      ∃ d ∈ colorArray,
        tolowerString (cstr d.1) = tolowerString (word (skipWhitespace s)) ∧
        (parseColorCString strtof s color).2.r = millionths d.2.1 ∧
        (parseColorCString strtof s color).2.g = millionths d.2.2.1 ∧
        (parseColorCString strtof s color).2.b = millionths d.2.2.2) ∧
    ((parseColorCString strtof s color).1 = true →
      charAt (skipWhitespace ((skipWhitespace s).drop (word (skipWhitespace s)).length)) 0
        = 0 →
      (parseColorCString strtof s color).2.a = 1) := by
  by_cases h0 : charAt (skipWhitespace s) 0 = 0
  · -- nothing but blanks
    rw [parseColorCString_blank strtof s color h0]
    have hw : word (skipWhitespace s) = [] := by
      cases hs : skipWhitespace s with
      | nil => rfl
      | cons c cs =>
        rw [hs, charAt_cons_zero] at h0
        exact word_cons_end c cs (by simp [endsWord, h0])
    refine ⟨⟨fun h => absurd h (by simp), ?_⟩, fun h => absurd h (by simp),
      fun h => absurd h (by simp)⟩
    rintro ⟨d, hd, h⟩
    rw [hw] at h
    have h2 : cstr d.1 = [] := by simpa [tolowerString] using h
    exact absurd h2 (colorArray_names_nonempty d hd)
  · have hsp : isspace (charAt (skipWhitespace s) 0) = false := by
      rcases skipWhitespace_head s with h | h
      · exact absurd h h0
      · exact h
    have hw := word_ne_nil_of_head (skipWhitespace s) h0 hsp
    rw [parseColorCString_named strtof s color h0 h35 hf,
      parseNamedFormatIn_getColorMap strtof (skipWhitespace s) white hw]
    have hex := find?_isSome_iff_exists (tolowerString (word (skipWhitespace s))) colorArray
    cases hfind : colorArray.reverse.find? (fun d =>
        decide (tolowerString (cstr d.1) = tolowerString (word (skipWhitespace s)))) with
    | none =>
      refine ⟨⟨fun h => absurd h (by simp), ?_⟩, fun h => absurd h (by simp),
        fun h => absurd h (by simp)⟩
      intro h
      obtain ⟨d, hd⟩ := hex.2 h
      rw [hfind] at hd
      exact absurd hd (by simp)
    | some d =>
      have hmem : d ∈ colorArray := List.mem_reverse.1 (List.mem_of_find?_eq_some hfind)
      have hname : tolowerString (cstr d.1) = tolowerString (word (skipWhitespace s)) := by
        simpa using List.find?_some hfind
      dsimp only
      by_cases hrest : charAt (skipWhitespace
          ((skipWhitespace s).drop (word (skipWhitespace s)).length)) 0 = 0
      · rw [if_pos hrest]
        exact ⟨⟨fun _ => ⟨d, hmem, hname⟩, fun _ => rfl⟩,
          fun _ => ⟨d, hmem, hname, rfl, rfl, rfl⟩, fun _ _ => rfl⟩
      · rw [if_neg hrest]
        cases sscanfFloats strtof 1 (skipWhitespace
            ((skipWhitespace s).drop (word (skipWhitespace s)).length)) with
        | nil =>
          exact ⟨⟨fun _ => ⟨d, hmem, hname⟩, fun _ => rfl⟩,
            fun _ => ⟨d, hmem, hname, rfl, rfl, rfl⟩, fun _ _ => rfl⟩
        | cons alpha tail =>
          exact ⟨⟨fun _ => ⟨d, hmem, hname⟩, fun _ => rfl⟩,
            fun _ => ⟨d, hmem, hname, rfl, rfl, rfl⟩, fun _ h => absurd h hrest⟩

theorem millionths_one : millionths 1000000 = 1 := by norm_num [millionths]

theorem millionths_zero : millionths 0 = 0 := by norm_num [millionths]

theorem red_mem_colorArray : ("red", 1000000, 0, 0) ∈ colorArray := by
  have h : (("red", 1000000, 0, 0) : ColorArrayData) ∈ colorArray12 := by decide
  simp only [colorArray, List.mem_append, or_assoc]
  iterate 12 right
  left
  exact h

/-- The colour a named string gives when it names `red` and nothing follows. -/
theorem red_of_word (s : List Nat) (color : fvec4)
    (hw : tolowerString (word (skipWhitespace s)) = cstr "red")
    (hrest : charAt (skipWhitespace
      ((skipWhitespace s).drop (word (skipWhitespace s)).length)) 0 = 0)
    (h : ((parseColorCString decimalStrtof s color).1 = true ↔
        ∃ d ∈ colorArray,
          tolowerString (cstr d.1) = tolowerString (word (skipWhitespace s))) ∧
      ((parseColorCString decimalStrtof s color).1 = true →
        ∃ d ∈ colorArray,
          tolowerString (cstr d.1) = tolowerString (word (skipWhitespace s)) ∧
          (parseColorCString decimalStrtof s color).2.r = millionths d.2.1 ∧
          (parseColorCString decimalStrtof s color).2.g = millionths d.2.2.1 ∧
          (parseColorCString decimalStrtof s color).2.b = millionths d.2.2.2) ∧
      ((parseColorCString decimalStrtof s color).1 = true →
        charAt (skipWhitespace ((skipWhitespace s).drop (word (skipWhitespace s)).length)) 0
          = 0 →
        (parseColorCString decimalStrtof s color).2.a = 1)) :
    parseColorCString decimalStrtof s color = (true, { r := 1, g := 0, b := 0, a := 1 }) := by
  obtain ⟨h1, h2, h3⟩ := h
  have hname : tolowerString (cstr (("red", 1000000, 0, 0) : ColorArrayData).1) = cstr "red" := by
    decide
  have ht : (parseColorCString decimalStrtof s color).1 = true :=
    h1.2 ⟨("red", 1000000, 0, 0), red_mem_colorArray, by rw [hw]; exact hname⟩
  obtain ⟨d, hd, hdn, hr, hg, hb⟩ := h2 ht
  rw [hw] at hdn
  have hv := colorArray_red_values d hd hdn
  have hv1 : d.2.1 = 1000000 := by rw [hv]
  have hv2 : d.2.2.1 = 0 := by rw [hv]
  have hv3 : d.2.2.2 = 0 := by rw [hv]
  rw [hv1, millionths_one] at hr
  rw [hv2, millionths_zero] at hg
  rw [hv3, millionths_zero] at hb
  have ha := h3 ht hrest
  rcases hp : parseColorCString decimalStrtof s color with ⟨ok, ⟨r, g, b, a⟩⟩
  rw [hp] at ht hr hg hb ha
  simp only at ht hr hg hb ha
  rw [ht, hr, hg, hb, ha]

/-- Witness for C16: `RED` and `red` both give (1, 0, 0, 1). -/
theorem named_colour_iff_witness :
    parseColorCString decimalStrtof (cstr "RED") white =
      (true, { r := 1, g := 0, b := 0, a := 1 }) ∧
    parseColorCString decimalStrtof (cstr "red") white =
      (true, { r := 1, g := 0, b := 0, a := 1 }) :=
  ⟨red_of_word (cstr "RED") white (by decide) (by decide)
     (named_colour_iff decimalStrtof (cstr "RED") white (by decide) (by decide)),
   red_of_word (cstr "red") white (by decide) (by decide)
     (named_colour_iff decimalStrtof (cstr "red") white (by decide) (by decide))⟩

/-- C17, as stated, fails on a string with a blank before `0x`: the first non-blank
byte of `" 0xfff"` is the digit `0`, the string does not begin with `0x`, only one
leading number can be read, and `parseColorCString` returns true (the hexadecimal
format). -/
theorem leading_blank_0x_is_accepted :
    startsFloat (charAt (skipWhitespace (cstr " 0xfff")) 0) = true ∧
    ¬ (charAt (cstr " 0xfff") 0 = 48 ∧ charAt (cstr " 0xfff") 1 = 120) ∧
    (sscanfFloats decimalStrtof 4 (cstr " 0xfff")).length = 1 ∧
    (parseColorCString decimalStrtof (cstr " 0xfff") white).1 = true := by
  refine ⟨by decide, by decide, by decide, by decide⟩

/-- C17: for every string whose first byte after leading blanks is a digit, `.`, `+`
or `-`, and which after those blanks does not begin with `0x`, `parseColorCString`
returns true if and only if at least three leading numbers can be read (at most
four are); with three the colour is (v0, v1, v2, 1), with four it is
(v0, v1, v2, v3); with fewer than three the result is false. -/
theorem float_format_iff (strtof : Strtof) (s : List Nat) (color : fvec4)
    (hf : startsFloat (charAt (skipWhitespace s) 0) = true)
    (h48 : ¬ (charAt (skipWhitespace s) 0 = 48 ∧ charAt (skipWhitespace s) 1 = 120)) :
    ((parseColorCString strtof s color).1 = true ↔ 3 ≤ (sscanfFloats strtof 4 s).length) ∧
    (sscanfFloats strtof 4 s).length ≤ 4 ∧
    (∀ v0 v1 v2 : ℚ, sscanfFloats strtof 4 s = [v0, v1, v2] →
      parseColorCString strtof s color = (true, { r := v0, g := v1, b := v2, a := 1 })) ∧
    (∀ v0 v1 v2 v3 : ℚ, sscanfFloats strtof 4 s = [v0, v1, v2, v3] →
      parseColorCString strtof s color = (true, { r := v0, g := v1, b := v2, a := v3 })) ∧
    ((sscanfFloats strtof 4 s).length < 3 →
      parseColorCString strtof s color = (false, { r := 1, g := 1, b := 1, a := 1 })) := by
  rw [parseColorCString_float strtof s color hf h48]
  unfold parseFloatFormat
  rw [sscanfFloats_skipWhitespace]
  refine ⟨?_, sscanfFloats_length_le strtof 4 s, ?_, ?_, ?_⟩
  · by_cases h : (sscanfFloats strtof 4 s).length < 3
    · rw [if_pos h]
      exact ⟨fun h2 => absurd h2 (by simp), fun h2 => absurd h (by omega)⟩
    · rw [if_neg h]
      exact ⟨fun _ => by omega, fun _ => rfl⟩
  · intro v0 v1 v2 h
    simp [h, copyFloats, white]
  · intro v0 v1 v2 v3 h
    simp [h, copyFloats, white]
  · intro h
    simp only [if_pos h]
    rfl

/-- Witness for C17: `1 0` and `123` are rejected; `1 0 0` is accepted with three
values and alpha 1. -/
theorem float_format_iff_witness :
    (parseColorCString decimalStrtof (cstr "1 0") white).1 = false ∧
    (parseColorCString decimalStrtof (cstr "123") white).1 = false ∧
    (parseColorCString decimalStrtof (cstr "1 0 0") white).1 = true ∧
    (parseColorCString decimalStrtof (cstr "1 0 0") white).2.a = 1 := by
  have h1 := (float_format_iff decimalStrtof (cstr "1 0") white (by decide) (by decide)).2.2.2.2
    (by decide)
  have h2 := (float_format_iff decimalStrtof (cstr "123") white (by decide) (by decide)).2.2.2.2
    (by decide)
  have h3 := (float_format_iff decimalStrtof (cstr "1 0 0") white (by decide) (by decide)).1.2
    (by decide)
  refine ⟨by rw [h1], by rw [h2], h3, ?_⟩
  obtain ⟨v0, v1, v2, hv⟩ : ∃ v0 v1 v2, sscanfFloats decimalStrtof 4 (cstr "1 0 0") =
      [v0, v1, v2] := ⟨_, _, _, rfl⟩
  rw [(float_format_iff decimalStrtof (cstr "1 0 0") white (by decide) (by decide)).2.2.1
    v0 v1 v2 hv]

/-- Witness for C14: `#f80` is (1, 8/15, 0, 1) and `#FF8000` is (1, 128/255, 0, 1). -/
theorem hex_values_witness :
    parseColorCString decimalStrtof (cstr "#" ++ cstr "f80") white =
      (true, { r := 1, g := 8 / 15, b := 0, a := 1 }) ∧
    parseColorCString decimalStrtof (cstr "#" ++ cstr "FF8000") white =
      (true, { r := 1, g := 128 / 255, b := 0, a := 1 }) := by
  constructor
  · rw [(hex_values decimalStrtof white).1 (cstr "f80") 102 56 48 (by decide) (by decide)]
    norm_num [hexValue]
  · rw [(hex_values decimalStrtof white).2.2.1 (cstr "FF8000") 70 70 56 48 48 48 (by decide)
      (by decide)]
    norm_num [hexValue]

/-- Witness for C20: the empty string, a bad hexadecimal digit and two floats leave
opaque white in a colour that was black. -/
theorem false_leaves_white_witness :
    (parseColorCString decimalStrtof (cstr "") { r := 0, g := 0, b := 0, a := 0 }).2 =
      { r := 1, g := 1, b := 1, a := 1 } ∧
    (parseColorCString decimalStrtof (cstr "#ggg") { r := 0, g := 0, b := 0, a := 0 }).2 =
      { r := 1, g := 1, b := 1, a := 1 } ∧
    (parseColorCString decimalStrtof (cstr "1 0") { r := 0, g := 0, b := 0, a := 0 }).2 =
      { r := 1, g := 1, b := 1, a := 1 } :=
  ⟨false_leaves_white decimalStrtof (cstr "") _ (by decide),
   false_leaves_white decimalStrtof (cstr "#ggg") _ (by decide),
   false_leaves_white decimalStrtof (cstr "1 0") _ (by decide)⟩

end ParseColor

/-! # Durations: theorems -/

namespace BzTime

theorem wrapLong_eq (M x : Int) (h1 : -M ≤ x) (h2 : x < M) : wrapLong M x = x := by
  unfold wrapLong
  rw [Int.emod_eq_of_lt (by omega) (by omega)]
  omega

/-- C18: `convertTime` splits a duration into days, hours, minutes and seconds: for
every `raw ≥ 0` whose truncation `s` fits a `long`, the four entries satisfy
`day * 86400 + hour * 3600 + min * 60 + sec = s` with `day ≥ 0`, `0 ≤ hour < 24`,
`0 ≤ min < 60` and `0 ≤ sec < 60`, and they are the only four integers that
do. -/
theorem convertTime_mixed_radix (M : Int) (raw : ℚ) (hraw : 0 ≤ raw)
    (hfit : Int.tdiv raw.num raw.den < M) :
    (convertTime M raw).1 * 86400 + (convertTime M raw).2.1 * 3600 +
        (convertTime M raw).2.2.1 * 60 + (convertTime M raw).2.2.2 =
      Int.tdiv raw.num raw.den ∧
    0 ≤ (convertTime M raw).1 ∧
    0 ≤ (convertTime M raw).2.1 ∧ (convertTime M raw).2.1 < 24 ∧
    0 ≤ (convertTime M raw).2.2.1 ∧ (convertTime M raw).2.2.1 < 60 ∧
    0 ≤ (convertTime M raw).2.2.2 ∧ (convertTime M raw).2.2.2 < 60 ∧
    (∀ day hour min sec : Int,
      day * 86400 + hour * 3600 + min * 60 + sec = Int.tdiv raw.num raw.den →
      0 ≤ day → 0 ≤ hour → hour < 24 → 0 ≤ min → min < 60 → 0 ≤ sec → sec < 60 →
      (day, hour, min, sec) = convertTime M raw) := by
  have hs : 0 ≤ Int.tdiv raw.num raw.den :=
    Int.tdiv_nonneg (Rat.num_nonneg.2 hraw) (Int.ofNat_nonneg _)
  unfold convertTime toLong secondsInDay
  generalize Int.tdiv raw.num raw.den = s at hs hfit
  have e1 : wrapLong M s = s := wrapLong_eq M s (by omega) hfit
  have e2 : wrapLong M (Int.tdiv s 86400) = s / 86400 := by
    rw [Int.tdiv_eq_ediv hs (by norm_num)]
    exact wrapLong_eq M _ (by omega) (by omega)
  have e3 : wrapLong M (s / 86400 * 86400) = s / 86400 * 86400 :=
    wrapLong_eq M _ (by omega) (by omega)
  have e4 : wrapLong M (s - s / 86400 * 86400) = s - s / 86400 * 86400 :=
    wrapLong_eq M _ (by omega) (by omega)
  have e5 : wrapLong M (Int.tdiv (s - s / 86400 * 86400) 3600) =
      (s - s / 86400 * 86400) / 3600 := by
    rw [Int.tdiv_eq_ediv (by omega) (by norm_num)]
    exact wrapLong_eq M _ (by omega) (by omega)
  have e6 : wrapLong M ((s - s / 86400 * 86400) / 3600 * 3600) =
      (s - s / 86400 * 86400) / 3600 * 3600 :=
    wrapLong_eq M _ (by omega) (by omega)
  have e7 : wrapLong M ((s - s / 86400 * 86400) / 3600 * 3600 + s / 86400 * 86400) =
      (s - s / 86400 * 86400) / 3600 * 3600 + s / 86400 * 86400 :=
    wrapLong_eq M _ (by omega) (by omega)
  have e8 : wrapLong M (s - ((s - s / 86400 * 86400) / 3600 * 3600 + s / 86400 * 86400)) =
      s - ((s - s / 86400 * 86400) / 3600 * 3600 + s / 86400 * 86400) :=
    wrapLong_eq M _ (by omega) (by omega)
  have e9 : wrapLong M (Int.tdiv
      (s - ((s - s / 86400 * 86400) / 3600 * 3600 + s / 86400 * 86400)) 60) =
      (s - ((s - s / 86400 * 86400) / 3600 * 3600 + s / 86400 * 86400)) / 60 := by
    rw [Int.tdiv_eq_ediv (by omega) (by norm_num)]
    exact wrapLong_eq M _ (by omega) (by omega)
  have e10 : wrapLong M
      ((s - ((s - s / 86400 * 86400) / 3600 * 3600 + s / 86400 * 86400)) / 60 * 60) =
      (s - ((s - s / 86400 * 86400) / 3600 * 3600 + s / 86400 * 86400)) / 60 * 60 :=
    wrapLong_eq M _ (by omega) (by omega)
  have e11 : wrapLong M ((s - s / 86400 * 86400) / 3600 * 3600 + s / 86400 * 86400 +
      (s - ((s - s / 86400 * 86400) / 3600 * 3600 + s / 86400 * 86400)) / 60 * 60) =
      (s - s / 86400 * 86400) / 3600 * 3600 + s / 86400 * 86400 +
      (s - ((s - s / 86400 * 86400) / 3600 * 3600 + s / 86400 * 86400)) / 60 * 60 :=
    wrapLong_eq M _ (by omega) (by omega)
  have e12 : wrapLong M (s - ((s - s / 86400 * 86400) / 3600 * 3600 + s / 86400 * 86400 +
      (s - ((s - s / 86400 * 86400) / 3600 * 3600 + s / 86400 * 86400)) / 60 * 60)) =
      s - ((s - s / 86400 * 86400) / 3600 * 3600 + s / 86400 * 86400 +
      (s - ((s - s / 86400 * 86400) / 3600 * 3600 + s / 86400 * 86400)) / 60 * 60) :=
    wrapLong_eq M _ (by omega) (by omega)
  simp only [e1, e2, e3, e4, e5, e6, e7, e8, e9, e10, e11, e12]
  refine ⟨by omega, by omega, by omega, by omega, by omega, by omega, by omega, by omega, ?_⟩
  intro day hour min sec h1 h2 h3 h4 h5 h6 h7 h8
  have hd : day = s / 86400 := by omega
  have hh : hour = (s - s / 86400 * 86400) / 3600 := by omega
  have hm : min = (s - ((s - s / 86400 * 86400) / 3600 * 3600 + s / 86400 * 86400)) / 60 := by
    omega
  have hsc : sec = s - ((s - s / 86400 * 86400) / 3600 * 3600 + s / 86400 * 86400 +
      (s - ((s - s / 86400 * 86400) / 3600 * 3600 + s / 86400 * 86400)) / 60 * 60) := by
    omega
  rw [hd, hh, hm, hsc]

/-- Witness for C18: 93785.9 seconds are 1 day, 2 hours, 3 minutes and 5 seconds, on
a platform with a 64-bit `long`. -/
theorem convertTime_mixed_radix_witness :
    (0 : ℚ) ≤ 937859 / 10 ∧ Int.tdiv (937859 / 10 : ℚ).num (937859 / 10 : ℚ).den < 2 ^ 63 ∧
    ((1 : Int), (2 : Int), (3 : Int), (5 : Int)) = convertTime (2 ^ 63) (937859 / 10) := by
  have hn : (937859 / 10 : ℚ).num = 937859 := by norm_num
  have hd : (937859 / 10 : ℚ).den = 10 := by norm_num
  have h1 : (0 : ℚ) ≤ 937859 / 10 := by norm_num
  have h2 : Int.tdiv (937859 / 10 : ℚ).num (937859 / 10 : ℚ).den < 2 ^ 63 := by
    rw [hn, hd]; decide
  refine ⟨h1, h2, ?_⟩
  exact (convertTime_mixed_radix (2 ^ 63) (937859 / 10) h1 h2).2.2.2.2.2.2.2.2 1 2 3 5
    (by rw [hn, hd]; decide) (by decide) (by decide) (by decide) (by decide) (by decide)
    (by decide) (by decide)

theorem natDigits_length :
    ∀ (fuel n : Nat) (acc : List Char) (k : Nat), n < 10 ^ (k + 1) →
      (natDigits fuel n acc).length ≤ k + 1 + acc.length := by
  intro fuel
  induction fuel with
  | zero => intro n acc k _; simp [natDigits]
  | succ f ih =>
    intro n acc k hn
    by_cases h10 : n < 10
    · simp only [natDigits, if_pos h10, List.length_cons]
      omega
    · simp only [natDigits, if_neg h10]
      cases k with
      | zero => omega
      | succ j =>
        have hdiv : n / 10 < 10 ^ (j + 1) := by
          apply Nat.div_lt_of_lt_mul
          rw [pow_succ] at hn
          omega
        have := ih (n / 10) (digitChar (n % 10) :: acc) j hdiv
        simp only [List.length_cons] at this
        omega

theorem ldToString_length (n : Int) (h0 : 0 < n) (h : n < 10 ^ 13) :
    (ldToString n).length ≤ 13 := by
  have hneg : ¬ n < 0 := by omega
  have hlt : n.toNat < 10 ^ (12 + 1) := by
    have : (10 : Int) ^ 13 = ((10 ^ 13 : Nat) : Int) := by norm_num
    omega
  have := natDigits_length (n.toNat + 1) n.toNat [] 12 hlt
  simpa [ldToString, hneg, natToDecimal] using this

/-- For a positive number below 10^13 and a unit of at most four letters the
buffer of twenty bytes holds the whole text. -/
theorem formatUnit_eq (n : Int) (unit : String) (h0 : 0 < n) (h : n < 10 ^ 13)
    (hu : unit.toList.length ≤ 4) :
    formatUnit n unit = renderComponent (n, unit) := by
  have hl := ldToString_length n h0 h
  have e : (if n = 1 then "" else "s").toList = (if n ≠ 1 then ['s'] else []) := by
    by_cases h1 : n = 1 <;> simp [h1]
  have hsfx : (if n ≠ 1 then ['s'] else []).length ≤ 1 := by
    split <;> simp
  unfold formatUnit renderComponent snprintf
  rw [e]
  apply List.take_of_length_le
  simp only [List.length_append, List.length_cons]
  omega

/-- C19: `printTime (long[4])` equals the reference rendering: for every day, hour,
min and sec, each below 10^13, the result is the strictly positive components, in
the order day, hour, min, sec, each written as the number, a blank, the unit and a
trailing `s` exactly when the number is not 1, joined by a comma and a blank, with
no separator in front or behind. -/
theorem printTime_eq_reference (day hour min sec : Int) (hd : day < 10 ^ 13)
    (hh : hour < 10 ^ 13) (hm : min < 10 ^ 13) (hs : sec < 10 ^ 13) :
    printTime (day, hour, min, sec) = printTimeReference (day, hour, min, sec) := by
  have fd : 0 < day → formatUnit day "day" = renderComponent (day, "day") :=
    fun h0 => formatUnit_eq day "day" h0 hd (by decide)
  have fh : 0 < hour → formatUnit hour "hour" = renderComponent (hour, "hour") :=
    fun h0 => formatUnit_eq hour "hour" h0 hh (by decide)
  have fm : 0 < min → formatUnit min "min" = renderComponent (min, "min") :=
    fun h0 => formatUnit_eq min "min" h0 hm (by decide)
  have fs : 0 < sec → formatUnit sec "sec" = renderComponent (sec, "sec") :=
    fun h0 => formatUnit_eq sec "sec" h0 hs (by decide)
  unfold printTime printTimeReference
  by_cases h0 : 0 < day <;> by_cases h1 : 0 < hour <;> by_cases h2 : 0 < min <;>
    by_cases h3 : 0 < sec <;>
    simp [h0, h1, h2, h3, fd, fh, fm, fs, List.filter, List.intercalate, List.intersperse]

/-- Witness for C19: (1, 2, 0, 5) gives `1 day, 2 hours, 5 secs`. -/
theorem printTime_eq_reference_witness :
    String.mk (printTime (1, 2, 0, 5)) = "1 day, 2 hours, 5 secs" ∧
    printTime (1, 2, 0, 5) = printTimeReference (1, 2, 0, 5) :=
  ⟨by decide,
   printTime_eq_reference 1 2 0 5 (by decide) (by decide) (by decide) (by decide)⟩

/-! ## The clock: theorems -/

theorem wrapInt64_eq (x : Int) (h1 : -(2 ^ 63) ≤ x) (h2 : x < 2 ^ 63) : wrapInt64 x = x :=
  wrapLong_eq (2 ^ 63) x h1 h2

theorem wrapInt64_range (x : Int) : -(2 ^ 63) ≤ wrapInt64 x ∧ wrapInt64 x < 2 ^ 63 := by
  unfold wrapInt64 wrapLong
  constructor <;> omega

theorem getEpochMicroseconds_range (tv : timeval) :
    -(2 ^ 63) ≤ getEpochMicroseconds tv ∧ getEpochMicroseconds tv < 2 ^ 63 :=
  wrapInt64_range _

/-- The amount a call adds for a difference that is not negative is not negative. -/
theorem increment_nonneg (fl : ℚ → ℚ) (hmono : Monotone fl) (h0 : fl 0 = 0) (d : Int)
    (hd : 0 ≤ d) : 0 ≤ mulDouble fl (toDouble fl d) (microsecond fl) := by
  unfold mulDouble toDouble microsecond
  have h1 : (0 : ℚ) ≤ fl d := by
    have := hmono (show (0 : ℚ) ≤ (d : ℚ) by exact_mod_cast hd)
    rwa [h0] at this
  have h2 : (0 : ℚ) ≤ fl (1 / 1000000) := by
    have := hmono (show (0 : ℚ) ≤ 1 / 1000000 by norm_num)
    rwa [h0] at this
  have := hmono (mul_nonneg h1 h2)
  rwa [h0] at this

theorem addSeconds_ge (fl : ℚ → ℚ) (hmono : Monotone fl) (c dt : ℚ) (hc : fl c = c)
    (hdt : 0 ≤ dt) : c ≤ addSeconds fl c dt := by
  unfold addSeconds
  have := hmono (show c ≤ c + dt by linarith)
  rwa [hc] at this

theorem getCurrent_snd (fl : ℚ → ℚ) (st : TimerState) (tv : timeval) :
    (getCurrent fl st tv).2 = (getCurrent fl st tv).1.currentTime := by
  unfold getCurrent
  split <;> rfl

theorem getCurrent_lastTime (fl : ℚ → ℚ) (st : TimerState) (tv : timeval) :
    (getCurrent fl st tv).1.lastTime = getEpochMicroseconds tv := by
  unfold getCurrent
  split <;> rfl

/-- One call does not lower the current time, and leaves a `double` in it. -/
theorem getCurrent_step (fl : ℚ → ℚ) (hmono : Monotone fl) (h0 : fl 0 = 0)
    (hid : ∀ x, fl (fl x) = fl x) (st : TimerState) (tv : timeval)
    (hst : fl st.currentTime = st.currentTime) (hpos : 0 < getEpochMicroseconds tv) :
    st.currentTime ≤ (getCurrent fl st tv).2 ∧
      fl (getCurrent fl st tv).1.currentTime = (getCurrent fl st tv).1.currentTime := by
  unfold getCurrent
  by_cases hl : st.lastTime = 0
  · rw [if_pos hl]
    exact ⟨addSeconds_ge fl hmono _ _ hst (increment_nonneg fl hmono h0 _ (le_of_lt hpos)),
      hid _⟩
  · rw [if_neg hl]
    by_cases hd : wrapInt64 (getEpochMicroseconds tv - st.lastTime) > 0
    · simp only [if_pos hd]
      exact ⟨addSeconds_ge fl hmono _ _ hst (increment_nonneg fl hmono h0 _ (le_of_lt hd)),
        hid _⟩
    · simp only [if_neg hd]
      exact ⟨le_refl _, hst⟩

theorem getCurrentCalls_length (fl : ℚ → ℚ) :
    ∀ (clock : List timeval) (st : TimerState),
      (getCurrentCalls fl st clock).length = clock.length
  | [], _ => rfl
  | tv :: clock, st => by
    simp only [getCurrentCalls, List.length_cons, getCurrentCalls_length fl clock]

theorem getCurrentCalls_ascending (fl : ℚ → ℚ) (hmono : Monotone fl) (h0 : fl 0 = 0)
    (hid : ∀ x, fl (fl x) = fl x) :
    ∀ (clock : List timeval) (st : TimerState), fl st.currentTime = st.currentTime →
      (∀ tv ∈ clock, 0 < getEpochMicroseconds tv) →
      ∀ (i : Nat) (v w : ℚ), (getCurrentCalls fl st clock)[i]? = some v →
        (getCurrentCalls fl st clock)[i + 1]? = some w → v ≤ w
  | [], _, _, _, i, v, w, hv, _ => by simp [getCurrentCalls] at hv
  | tv :: clock, st, hst, hpos, i, v, w, hv, hw => by
    have hstep := getCurrent_step fl hmono h0 hid st tv hst (hpos tv (by simp))
    have hrest : ∀ tv2 ∈ clock, 0 < getEpochMicroseconds tv2 :=
      fun tv2 h => hpos tv2 (List.mem_cons_of_mem _ h)
    simp only [getCurrentCalls] at hv hw
    cases i with
    | zero =>
      simp only [List.getElem?_cons_zero, Option.some.injEq] at hv
      simp only [zero_add, List.getElem?_cons_succ] at hw
      cases clock with
      | nil => simp [getCurrentCalls] at hw
      | cons tv2 clock2 =>
        simp only [getCurrentCalls, List.getElem?_cons_zero, Option.some.injEq] at hw
        have h2 := (getCurrent_step fl hmono h0 hid (getCurrent fl st tv).1 tv2 hstep.2
          (hrest tv2 (by simp))).1
        rw [← hv, ← hw, getCurrent_snd fl st tv]
        exact h2
    | succ j =>
      simp only [List.getElem?_cons_succ] at hv hw
      exact getCurrentCalls_ascending fl hmono h0 hid clock (getCurrent fl st tv).1 hstep.2
        hrest j v w hv hw

theorem afterCalls_append (fl : ℚ → ℚ) :
    ∀ (pre post : List timeval) (st : TimerState),
      afterCalls fl st (pre ++ post) = afterCalls fl (afterCalls fl st pre) post
  | [], _, _ => rfl
  | tv :: pre, post, st => by
    rw [List.cons_append]
    exact afterCalls_append fl pre post (getCurrent fl st tv).1

theorem afterCalls_snoc_lastTime (fl : ℚ → ℚ) (pre : List timeval) (prev : timeval)
    (st : TimerState) :
    (afterCalls fl st (pre ++ [prev])).lastTime = getEpochMicroseconds prev := by
  rw [afterCalls_append]
  simp only [afterCalls, getCurrent_lastTime]

/-- A call whose reading is earlier than a positive previous reading. -/
theorem getCurrent_earlier (fl : ℚ → ℚ) (st : TimerState) (tv : timeval)
    (hnow : 0 < getEpochMicroseconds tv) (hlt : getEpochMicroseconds tv < st.lastTime)
    (hlast : st.lastTime < 2 ^ 63) :
    getCurrent fl st tv =
      ({ lastTime := getEpochMicroseconds tv, currentTime := st.currentTime },
        st.currentTime) := by
  have hl : st.lastTime ≠ 0 := by omega
  have hd : wrapInt64 (getEpochMicroseconds tv - st.lastTime) =
      getEpochMicroseconds tv - st.lastTime := wrapInt64_eq _ (by omega) (by omega)
  unfold getCurrent
  rw [if_neg hl]
  simp only [hd]
  rw [if_neg (by omega)]

/-- A call whose reading is later than a positive previous reading. -/
theorem getCurrent_later (fl : ℚ → ℚ) (st : TimerState) (tv : timeval)
    (hlast : 0 < st.lastTime) (hlt : st.lastTime < getEpochMicroseconds tv) :
    (getCurrent fl st tv).2 =
      addSeconds fl st.currentTime
        (mulDouble fl (toDouble fl (getEpochMicroseconds tv - st.lastTime))
          (microsecond fl)) := by
  have hl : st.lastTime ≠ 0 := by omega
  have hr := getEpochMicroseconds_range tv
  have hd : wrapInt64 (getEpochMicroseconds tv - st.lastTime) =
      getEpochMicroseconds tv - st.lastTime := wrapInt64_eq _ (by omega) (by omega)
  unfold getCurrent
  rw [if_neg hl]
  simp only [hd]
  rw [if_pos (by omega)]

/-- C21: `getCurrent` never goes backwards (the branch for systems other than
Windows).  For every sequence of positive readings of the system clock, every call
returns, and the value a call returns is greater than or equal to the value the
call before it returned.  A reading earlier than the one before it leaves the
current time unchanged and is stored as `lastTime`, so that the next call adds the
difference between its reading and that one.  The rounding of `double` results is
any function that is monotone, keeps zero and keeps a value that is already
rounded; the current time at the start holds a rounded value. -/
theorem getCurrent_never_goes_backwards (fl : ℚ → ℚ) (hmono : Monotone fl) (h0 : fl 0 = 0)
    (hid : ∀ x, fl (fl x) = fl x) (st : TimerState)
    (hst : fl st.currentTime = st.currentTime) (clock : List timeval)
    (hpos : ∀ tv ∈ clock, 0 < getEpochMicroseconds tv) :
    (getCurrentCalls fl st clock).length = clock.length ∧
    (∀ (i : Nat) (v w : ℚ), (getCurrentCalls fl st clock)[i]? = some v →
      (getCurrentCalls fl st clock)[i + 1]? = some w → v ≤ w) ∧
    (∀ (pre post : List timeval) (prev now : timeval),
      clock = pre ++ prev :: now :: post →
      getEpochMicroseconds now < getEpochMicroseconds prev →
      getCurrent fl (afterCalls fl st (pre ++ [prev])) now =
        ({ lastTime := getEpochMicroseconds now,
           currentTime := (afterCalls fl st (pre ++ [prev])).currentTime },
          (afterCalls fl st (pre ++ [prev])).currentTime) ∧
      ∀ later : timeval, getEpochMicroseconds now < getEpochMicroseconds later →
        (getCurrent fl (getCurrent fl (afterCalls fl st (pre ++ [prev])) now).1 later).2 =
          addSeconds fl (afterCalls fl st (pre ++ [prev])).currentTime
            (mulDouble fl
              (toDouble fl (getEpochMicroseconds later - getEpochMicroseconds now))
              (microsecond fl))) := by
  refine ⟨getCurrentCalls_length fl clock st,
    getCurrentCalls_ascending fl hmono h0 hid clock st hst hpos, ?_⟩
  intro pre post prev now hclock hlt
  have hnow : 0 < getEpochMicroseconds now := hpos now (by rw [hclock]; simp)
  have hlast := afterCalls_snoc_lastTime fl pre prev st
  have hearlier := getCurrent_earlier fl (afterCalls fl st (pre ++ [prev])) now hnow
    (by rw [hlast]; exact hlt) (by rw [hlast]; exact (getEpochMicroseconds_range prev).2)
  refine ⟨hearlier, ?_⟩
  intro later hlater
  rw [getCurrent_later fl _ later (by rw [hearlier]; exact hnow)
    (by rw [hearlier]; exact hlater),
    hearlier]

/-- Witness for C21: with exact arithmetic and the clock reading 5 s, 7 s, 6 s and
6.5 s, the four calls return 5, 7, 7 and 7.5 seconds. -/
theorem getCurrent_never_goes_backwards_witness :
    (∀ tv ∈ sampleClock, 0 < getEpochMicroseconds tv) ∧
    getCurrentCalls exactDouble initialTimer sampleClock = [5, 7, 7, 15 / 2] ∧
    (∀ (i : Nat) (v w : ℚ), (getCurrentCalls exactDouble initialTimer sampleClock)[i]? = some v →
      (getCurrentCalls exactDouble initialTimer sampleClock)[i + 1]? = some w → v ≤ w) ∧
    getCurrent exactDouble
        (afterCalls exactDouble initialTimer
          ([{ tv_sec := 5, tv_usec := 0 }] ++ [{ tv_sec := 7, tv_usec := 0 }]))
        { tv_sec := 6, tv_usec := 0 } =
      ({ lastTime := 6000000, currentTime := 7 }, 7) := by
  have hpos : ∀ tv ∈ sampleClock, 0 < getEpochMicroseconds tv := by decide
  have h := getCurrent_never_goes_backwards exactDouble (fun _ _ h => h) rfl (fun _ => rfl)
    initialTimer rfl sampleClock hpos
  have hcalls : getCurrentCalls exactDouble initialTimer sampleClock = [5, 7, 7, 15 / 2] := by
    norm_num [getCurrentCalls, getCurrent, initialTimer, sampleClock, exactDouble, addSeconds,
      mulDouble, toDouble, microsecond, getEpochMicroseconds, wrapInt64, wrapLong]
  refine ⟨hpos, hcalls, h.2.1, ?_⟩
  have h3 := (h.2.2 [{ tv_sec := 5, tv_usec := 0 }] [{ tv_sec := 6, tv_usec := 500000 }]
    { tv_sec := 7, tv_usec := 0 } { tv_sec := 6, tv_usec := 0 } rfl (by decide)).1
  rw [h3]
  norm_num [afterCalls, getCurrent, initialTimer, exactDouble, addSeconds,
      mulDouble, toDouble, microsecond, getEpochMicroseconds, wrapInt64, wrapLong]

end BzTime
